import Mathlib

/-! Generated documentation scripts of `robotrs`.

The repository holds four scripts emitted by the documentation generator:
three implementation tables (`trait.impl/…/trait.Pointer.js`,
`type.impl/…/struct.Velocity.js`, `type.impl/…/enum.EitherWriter.js`) and one
search-description shard (`search.desc/…/futures_concurrency-desc-0-.js`).

The development below holds

* the text of the four files, line by line;
* a lexer for the JavaScript the files are written in (string literals with
  their escapes, comments, words, punctuation), which records the UTF-8 byte
  offsets of every token;
* a reader for array literals and for the trailing `//{"start":…}` comment;
* the control flow of the scripts as state-passing functions over a browser
  state (properties of objects, host functions);
* the properties proved about them.

All functions recurse structurally on lists, so that they evaluate inside
the kernel.
-/

set_option maxRecDepth 100000

namespace Robotrs

/-! ## The source files -/

/-- Characters of the lines `ls`, with a line feed between two consecutive lines. -/
def unlinesAux : List String → List Char
  | [] => []
  | [l] => l.data
  | l :: ls => l.data ++ '\n' :: unlinesAux ls

/-- Text made of the lines `ls`, joined by line feeds. -/
def unlines (ls : List String) : String :=
  String.mk (unlinesAux ls)

/-- Line 2 of `src/trait.impl/core/fmt/trait.Pointer.js`, verbatim: the statement holding the data literal. -/
def pointerJsLine2 : String := r##"    var implementors = Object.fromEntries([["bitvec",[["impl&lt;M, T, O&gt; <a class=\"trait\" href=\"https://doc.rust-lang.org/nightly/core/fmt/trait.Pointer.html\" title=\"trait core::fmt::Pointer\">Pointer</a> for <a class=\"struct\" href=\"bitvec/ptr/struct.BitPtr.html\" title=\"struct bitvec::ptr::BitPtr\">BitPtr</a>&lt;M, T, O&gt;<div class=\"where\">where\n    M: <a class=\"trait\" href=\"bitvec/ptr/trait.Mutability.html\" title=\"trait bitvec::ptr::Mutability\">Mutability</a>,\n    T: <a class=\"trait\" href=\"bitvec/store/trait.BitStore.html\" title=\"trait bitvec::store::BitStore\">BitStore</a>,\n    O: <a class=\"trait\" href=\"bitvec/order/trait.BitOrder.html\" title=\"trait bitvec::order::BitOrder\">BitOrder</a>,</div>"],["impl&lt;M, T, O&gt; <a class=\"trait\" href=\"https://doc.rust-lang.org/nightly/core/fmt/trait.Pointer.html\" title=\"trait core::fmt::Pointer\">Pointer</a> for <a class=\"struct\" href=\"bitvec/ptr/struct.BitRef.html\" title=\"struct bitvec::ptr::BitRef\">BitRef</a>&lt;'_, M, T, O&gt;<div class=\"where\">where\n    M: <a class=\"trait\" href=\"bitvec/ptr/trait.Mutability.html\" title=\"trait bitvec::ptr::Mutability\">Mutability</a>,\n    T: <a class=\"trait\" href=\"bitvec/store/trait.BitStore.html\" title=\"trait bitvec::store::BitStore\">BitStore</a>,\n    O: <a class=\"trait\" href=\"bitvec/order/trait.BitOrder.html\" title=\"trait bitvec::order::BitOrder\">BitOrder</a>,</div>"],["impl&lt;T, O&gt; <a class=\"trait\" href=\"https://doc.rust-lang.org/nightly/core/fmt/trait.Pointer.html\" title=\"trait core::fmt::Pointer\">Pointer</a> for <a class=\"struct\" href=\"bitvec/boxed/struct.BitBox.html\" title=\"struct bitvec::boxed::BitBox\">BitBox</a>&lt;T, O&gt;<div class=\"where\">where\n    O: <a class=\"trait\" href=\"bitvec/order/trait.BitOrder.html\" title=\"trait bitvec::order::BitOrder\">BitOrder</a>,\n    T: <a class=\"trait\" href=\"bitvec/store/trait.BitStore.html\" title=\"trait bitvec::store::BitStore\">BitStore</a>,</div>"],["impl&lt;T, O&gt; <a class=\"trait\" href=\"https://doc.rust-lang.org/nightly/core/fmt/trait.Pointer.html\" title=\"trait core::fmt::Pointer\">Pointer</a> for <a class=\"struct\" href=\"bitvec/slice/struct.BitSlice.html\" title=\"struct bitvec::slice::BitSlice\">BitSlice</a>&lt;T, O&gt;<div class=\"where\">where\n    T: <a class=\"trait\" href=\"bitvec/store/trait.BitStore.html\" title=\"trait bitvec::store::BitStore\">BitStore</a>,\n    O: <a class=\"trait\" href=\"bitvec/order/trait.BitOrder.html\" title=\"trait bitvec::order::BitOrder\">BitOrder</a>,</div>"],["impl&lt;T, O&gt; <a class=\"trait\" href=\"https://doc.rust-lang.org/nightly/core/fmt/trait.Pointer.html\" title=\"trait core::fmt::Pointer\">Pointer</a> for <a class=\"struct\" href=\"bitvec/vec/struct.BitVec.html\" title=\"struct bitvec::vec::BitVec\">BitVec</a>&lt;T, O&gt;<div class=\"where\">where\n    O: <a class=\"trait\" href=\"bitvec/order/trait.BitOrder.html\" title=\"trait bitvec::order::BitOrder\">BitOrder</a>,\n    T: <a class=\"trait\" href=\"bitvec/store/trait.BitStore.html\" title=\"trait bitvec::store::BitStore\">BitStore</a>,</div>"]]],["nalgebra",[["impl&lt;T, R: <a class=\"trait\" href=\"nalgebra/base/dimension/trait.Dim.html\" title=\"trait nalgebra::base::dimension::Dim\">Dim</a>, C: <a class=\"trait\" href=\"nalgebra/base/dimension/trait.Dim.html\" title=\"trait nalgebra::base::dimension::Dim\">Dim</a>, S&gt; <a class=\"trait\" href=\"https://doc.rust-lang.org/nightly/core/fmt/trait.Pointer.html\" title=\"trait core::fmt::Pointer\">Pointer</a> for <a class=\"struct\" href=\"nalgebra/base/struct.Matrix.html\" title=\"struct nalgebra::base::Matrix\">Matrix</a>&lt;T, R, C, S&gt;<div class=\"where\">where\n    T: <a class=\"trait\" href=\"nalgebra/base/trait.Scalar.html\" title=\"trait nalgebra::base::Scalar\">Scalar</a> + <a class=\"trait\" href=\"https://doc.rust-lang.org/nightly/core/fmt/trait.Pointer.html\" title=\"trait core::fmt::Pointer\">Pointer</a>,\n    S: <a class=\"trait\" href=\"nalgebra/base/storage/trait.RawStorage.html\" title=\"trait nalgebra::base::storage::RawStorage\">RawStorage</a>&lt;T, R, C&gt;,</div>"]]],["wyz",[["impl&lt;M, T&gt; <a class=\"trait\" href=\"https://doc.rust-lang.org/nightly/core/fmt/trait.Pointer.html\" title=\"trait core::fmt::Pointer\">Pointer</a> for <a class=\"struct\" href=\"wyz/comu/struct.Address.html\" title=\"struct wyz::comu::Address\">Address</a>&lt;M, T&gt;<div class=\"where\">where\n    M: <a class=\"trait\" href=\"wyz/comu/trait.Mutability.html\" title=\"trait wyz::comu::Mutability\">Mutability</a>,\n    T: ?<a class=\"trait\" href=\"https://doc.rust-lang.org/nightly/core/marker/trait.Sized.html\" title=\"trait core::marker::Sized\">Sized</a>,</div>"],["impl&lt;T: <a class=\"trait\" href=\"https://doc.rust-lang.org/nightly/core/fmt/trait.Binary.html\" title=\"trait core::fmt::Binary\">Binary</a> + <a class=\"trait\" href=\"https://doc.rust-lang.org/nightly/core/fmt/trait.Pointer.html\" title=\"trait core::fmt::Pointer\">Pointer</a>&gt; <a class=\"trait\" href=\"https://doc.rust-lang.org/nightly/core/fmt/trait.Pointer.html\" title=\"trait core::fmt::Pointer\">Pointer</a> for <a class=\"struct\" href=\"wyz/fmt/struct.FmtBinary.html\" title=\"struct wyz::fmt::FmtBinary\">FmtBinary</a>&lt;T&gt;"],["impl&lt;T: <a class=\"trait\" href=\"https://doc.rust-lang.org/nightly/core/fmt/trait.Display.html\" title=\"trait core::fmt::Display\">Display</a> + <a class=\"trait\" href=\"https://doc.rust-lang.org/nightly/core/fmt/trait.Pointer.html\" title=\"trait core::fmt::Pointer\">Pointer</a>&gt; <a class=\"trait\" href=\"https://doc.rust-lang.org/nightly/core/fmt/trait.Pointer.html\" title=\"trait core::fmt::Pointer\">Pointer</a> for <a class=\"struct\" href=\"wyz/fmt/struct.FmtDisplay.html\" title=\"struct wyz::fmt::FmtDisplay\">FmtDisplay</a>&lt;T&gt;"],["impl&lt;T: <a class=\"trait\" href=\"https://doc.rust-lang.org/nightly/core/fmt/trait.LowerExp.html\" title=\"trait core::fmt::LowerExp\">LowerExp</a> + <a class=\"trait\" href=\"https://doc.rust-lang.org/nightly/core/fmt/trait.Pointer.html\" title=\"trait core::fmt::Pointer\">Pointer</a>&gt; <a class=\"trait\" href=\"https://doc.rust-lang.org/nightly/core/fmt/trait.Pointer.html\" title=\"trait core::fmt::Pointer\">Pointer</a> for <a class=\"struct\" href=\"wyz/fmt/struct.FmtLowerExp.html\" title=\"struct wyz::fmt::FmtLowerExp\">FmtLowerExp</a>&lt;T&gt;"],["impl&lt;T: <a class=\"trait\" href=\"https://doc.rust-lang.org/nightly/core/fmt/trait.LowerHex.html\" title=\"trait core::fmt::LowerHex\">LowerHex</a> + <a class=\"trait\" href=\"https://doc.rust-lang.org/nightly/core/fmt/trait.Pointer.html\" title=\"trait core::fmt::Pointer\">Pointer</a>&gt; <a class=\"trait\" href=\"https://doc.rust-lang.org/nightly/core/fmt/trait.Pointer.html\" title=\"trait core::fmt::Pointer\">Pointer</a> for <a class=\"struct\" href=\"wyz/fmt/struct.FmtLowerHex.html\" title=\"struct wyz::fmt::FmtLowerHex\">FmtLowerHex</a>&lt;T&gt;"],["impl&lt;T: <a class=\"trait\" href=\"https://doc.rust-lang.org/nightly/core/fmt/trait.Octal.html\" title=\"trait core::fmt::Octal\">Octal</a> + <a class=\"trait\" href=\"https://doc.rust-lang.org/nightly/core/fmt/trait.Pointer.html\" title=\"trait core::fmt::Pointer\">Pointer</a>&gt; <a class=\"trait\" href=\"https://doc.rust-lang.org/nightly/core/fmt/trait.Pointer.html\" title=\"trait core::fmt::Pointer\">Pointer</a> for <a class=\"struct\" href=\"wyz/fmt/struct.FmtOctal.html\" title=\"struct wyz::fmt::FmtOctal\">FmtOctal</a>&lt;T&gt;"],["impl&lt;T: <a class=\"trait\" href=\"https://doc.rust-lang.org/nightly/core/fmt/trait.Pointer.html\" title=\"trait core::fmt::Pointer\">Pointer</a>&gt; <a class=\"trait\" href=\"https://doc.rust-lang.org/nightly/core/fmt/trait.Pointer.html\" title=\"trait core::fmt::Pointer\">Pointer</a> for <a class=\"struct\" href=\"wyz/fmt/struct.FmtPointer.html\" title=\"struct wyz::fmt::FmtPointer\">FmtPointer</a>&lt;T&gt;"],["impl&lt;T: <a class=\"trait\" href=\"https://doc.rust-lang.org/nightly/core/fmt/trait.UpperExp.html\" title=\"trait core::fmt::UpperExp\">UpperExp</a> + <a class=\"trait\" href=\"https://doc.rust-lang.org/nightly/core/fmt/trait.Pointer.html\" title=\"trait core::fmt::Pointer\">Pointer</a>&gt; <a class=\"trait\" href=\"https://doc.rust-lang.org/nightly/core/fmt/trait.Pointer.html\" title=\"trait core::fmt::Pointer\">Pointer</a> for <a class=\"struct\" href=\"wyz/fmt/struct.FmtUpperExp.html\" title=\"struct wyz::fmt::FmtUpperExp\">FmtUpperExp</a>&lt;T&gt;"],["impl&lt;T: <a class=\"trait\" href=\"https://doc.rust-lang.org/nightly/core/fmt/trait.UpperHex.html\" title=\"trait core::fmt::UpperHex\">UpperHex</a> + <a class=\"trait\" href=\"https://doc.rust-lang.org/nightly/core/fmt/trait.Pointer.html\" title=\"trait core::fmt::Pointer\">Pointer</a>&gt; <a class=\"trait\" href=\"https://doc.rust-lang.org/nightly/core/fmt/trait.Pointer.html\" title=\"trait core::fmt::Pointer\">Pointer</a> for <a class=\"struct\" href=\"wyz/fmt/struct.FmtUpperHex.html\" title=\"struct wyz::fmt::FmtUpperHex\">FmtUpperHex</a>&lt;T&gt;"]]]]);"##

/-- Path of the file below, relative to the documentation root. -/
def pointerJsPath : String := "trait.impl/core/fmt/trait.Pointer.js"

/-- Text of `src/trait.impl/core/fmt/trait.Pointer.js`: its lines, joined by line feeds. -/
def pointerJs : String :=
  unlines [
    "(function() \x7b",
    pointerJsLine2,
    "    if (window.register_implementors) \x7b",
    "        window.register_implementors(implementors);",
    "    \x7d else \x7b",
    "        window.pending_implementors = implementors;",
    "    \x7d",
    "\x7d)()",
    "//\x7b\"start\":57,\"fragment_lengths\":[3087,1013,4921]\x7d",
    ""]

/-- Line 2 of `src/type.impl/math/struct.Velocity.js`, verbatim: the statement holding the data literal. -/
def velocityJsLine2 : String := r##"    var type_impls = Object.fromEntries([["math",[["<details class=\"toggle implementors-toggle\" open><summary><section id=\"impl-Controller-for-Velocity%3CC%3E\" class=\"impl\"><a class=\"src rightside\" href=\"src/math/lib.rs.html#189-203\">source</a><a href=\"#impl-Controller-for-Velocity%3CC%3E\" class=\"anchor\">§</a><h3 class=\"code-header\">impl&lt;C: <a class=\"trait\" href=\"math/trait.Controller.html\" title=\"trait math::Controller\">Controller</a>&lt;State = <a class=\"primitive\" href=\"https://doc.rust-lang.org/nightly/std/primitive.f32.html\">f32</a>&gt;&gt; <a class=\"trait\" href=\"math/trait.Controller.html\" title=\"trait math::Controller\">Controller</a> for <a class=\"struct\" href=\"math/struct.Velocity.html\" title=\"struct math::Velocity\">Velocity</a>&lt;C&gt;</h3></section></summary><div class=\"impl-items\"><section id=\"associatedtype.Output\" class=\"associatedtype trait-impl\"><a class=\"src rightside\" href=\"src/math/lib.rs.html#190\">source</a><a href=\"#associatedtype.Output\" class=\"anchor\">§</a><h4 class=\"code-header\">type <a href=\"math/trait.Controller.html#associatedtype.Output\" class=\"associatedtype\">Output</a> = &lt;C as <a class=\"trait\" href=\"math/trait.Controller.html\" title=\"trait math::Controller\">Controller</a>&gt;::<a class=\"associatedtype\" href=\"math/trait.Controller.html#associatedtype.Output\" title=\"type math::Controller::Output\">Output</a></h4></section><section id=\"associatedtype.State\" class=\"associatedtype trait-impl\"><a class=\"src rightside\" href=\"src/math/lib.rs.html#191\">source</a><a href=\"#associatedtype.State\" class=\"anchor\">§</a><h4 class=\"code-header\">type <a href=\"math/trait.Controller.html#associatedtype.State\" class=\"associatedtype\">State</a> = <a class=\"struct\" href=\"math/struct.State.html\" title=\"struct math::State\">State</a></h4></section><section id=\"method.calculate_with_time\" class=\"method trait-impl\"><a class=\"src rightside\" href=\"src/math/lib.rs.html#194-202\">source</a><a href=\"#method.calculate_with_time\" class=\"anchor\">§</a><h4 class=\"code-header\">fn <a href=\"math/trait.Controller.html#tymethod.calculate_with_time\" class=\"fn\">calculate_with_time</a>(\n    &amp;mut self,\n    current: &amp;<a class=\"struct\" href=\"math/struct.State.html\" title=\"struct math::State\">State</a>,\n    target: &amp;<a class=\"struct\" href=\"math/struct.State.html\" title=\"struct math::State\">State</a>,\n    time: <a class=\"struct\" href=\"https://doc.rust-lang.org/nightly/core/time/struct.Duration.html\" title=\"struct core::time::Duration\">Duration</a>,\n) -&gt; C::<a class=\"associatedtype\" href=\"math/trait.Controller.html#associatedtype.Output\" title=\"type math::Controller::Output\">Output</a></h4></section><section id=\"method.calculate\" class=\"method trait-impl\"><a class=\"src rightside\" href=\"src/math/lib.rs.html#89-91\">source</a><a href=\"#method.calculate\" class=\"anchor\">§</a><h4 class=\"code-header\">fn <a href=\"math/trait.Controller.html#method.calculate\" class=\"fn\">calculate</a>(\n    &amp;mut self,\n    current: &amp;Self::<a class=\"associatedtype\" href=\"math/trait.Controller.html#associatedtype.State\" title=\"type math::Controller::State\">State</a>,\n    target: &amp;Self::<a class=\"associatedtype\" href=\"math/trait.Controller.html#associatedtype.State\" title=\"type math::Controller::State\">State</a>,\n) -&gt; Self::<a class=\"associatedtype\" href=\"math/trait.Controller.html#associatedtype.Output\" title=\"type math::Controller::Output\">Output</a></h4></section></div></details>","Controller","math::feedforward::Velocity","math::feedforward::Acceleration"],["<details class=\"toggle implementors-toggle\" open><summary><section id=\"impl-Default-for-Velocity%3CC%3E\" class=\"impl\"><a class=\"src rightside\" href=\"src/math/lib.rs.html#223-227\">source</a><a href=\"#impl-Default-for-Velocity%3CC%3E\" class=\"anchor\">§</a><h3 class=\"code-header\">impl&lt;C: <a class=\"trait\" href=\"https://doc.rust-lang.org/nightly/core/default/trait.Default.html\" title=\"trait core::default::Default\">Default</a>&gt; <a class=\"trait\" href=\"https://doc.rust-lang.org/nightly/core/default/trait.Default.html\" title=\"trait core::default::Default\">Default</a> for <a class=\"struct\" href=\"math/struct.Velocity.html\" title=\"struct math::Velocity\">Velocity</a>&lt;C&gt;</h3></section></summary><div class=\"impl-items\"><details class=\"toggle method-toggle\" open><summary><section id=\"method.default\" class=\"method trait-impl\"><a class=\"src rightside\" href=\"src/math/lib.rs.html#224-226\">source</a><a href=\"#method.default\" class=\"anchor\">§</a><h4 class=\"code-header\">fn <a href=\"https://doc.rust-lang.org/nightly/core/default/trait.Default.html#tymethod.default\" class=\"fn\">default</a>() -&gt; Self</h4></section></summary><div class='docblock'>Returns the “default value” for a type. <a href=\"https://doc.rust-lang.org/nightly/core/default/trait.Default.html#tymethod.default\">Read more</a></div></details></div></details>","Default","math::feedforward::Velocity","math::feedforward::Acceleration"]]]]);"##

/-- Path of the file below, relative to the documentation root. -/
def velocityJsPath : String := "type.impl/math/struct.Velocity.js"

/-- Text of `src/type.impl/math/struct.Velocity.js`: its lines, joined by line feeds. -/
def velocityJs : String :=
  unlines [
    "(function() \x7b",
    velocityJsLine2,
    "    if (window.register_type_impls) \x7b",
    "        window.register_type_impls(type_impls);",
    "    \x7d else \x7b",
    "        window.pending_type_impls = type_impls;",
    "    \x7d",
    "\x7d)()",
    "//\x7b\"start\":55,\"fragment_lengths\":[5121]\x7d",
    ""]

/-- Line 2 of `src/type.impl/tracing_subscriber/fmt/writer/enum.EitherWriter.js`, verbatim: the statement holding the data literal. -/
def eitherWriterJsLine2 : String := r##"    var type_impls = Object.fromEntries([["tracing_subscriber",[["<details class=\"toggle implementors-toggle\" open><summary><section id=\"impl-Clone-for-EitherWriter%3CA,+B%3E\" class=\"impl\"><a class=\"src rightside\" href=\"src/tracing_subscriber/fmt/writer.rs.html#552\">source</a><a href=\"#impl-Clone-for-EitherWriter%3CA,+B%3E\" class=\"anchor\">§</a><h3 class=\"code-header\">impl&lt;A: <a class=\"trait\" href=\"https://doc.rust-lang.org/nightly/core/clone/trait.Clone.html\" title=\"trait core::clone::Clone\">Clone</a>, B: <a class=\"trait\" href=\"https://doc.rust-lang.org/nightly/core/clone/trait.Clone.html\" title=\"trait core::clone::Clone\">Clone</a>&gt; <a class=\"trait\" href=\"https://doc.rust-lang.org/nightly/core/clone/trait.Clone.html\" title=\"trait core::clone::Clone\">Clone</a> for <a class=\"enum\" href=\"tracing_subscriber/fmt/writer/enum.EitherWriter.html\" title=\"enum tracing_subscriber::fmt::writer::EitherWriter\">EitherWriter</a>&lt;A, B&gt;</h3></section></summary><div class=\"impl-items\"><details class=\"toggle method-toggle\" open><summary><section id=\"method.clone\" class=\"method trait-impl\"><a class=\"src rightside\" href=\"src/tracing_subscriber/fmt/writer.rs.html#552\">source</a><a href=\"#method.clone\" class=\"anchor\">§</a><h4 class=\"code-header\">fn <a href=\"https://doc.rust-lang.org/nightly/core/clone/trait.Clone.html#tymethod.clone\" class=\"fn\">clone</a>(&amp;self) -&gt; <a class=\"enum\" href=\"tracing_subscriber/fmt/writer/enum.EitherWriter.html\" title=\"enum tracing_subscriber::fmt::writer::EitherWriter\">EitherWriter</a>&lt;A, B&gt; <a href=\"#\" class=\"tooltip\" data-notable-ty=\"EitherWriter&lt;A, B&gt;\">ⓘ</a></h4></section></summary><div class='docblock'>Returns a copy of the value. <a href=\"https://doc.rust-lang.org/nightly/core/clone/trait.Clone.html#tymethod.clone\">Read more</a></div></details><details class=\"toggle method-toggle\" open><summary><section id=\"method.clone_from\" class=\"method trait-impl\"><span class=\"rightside\"><span class=\"since\" title=\"Stable since Rust version 1.0.0\">1.0.0</span> · <a class=\"src\" href=\"https://doc.rust-lang.org/nightly/src/core/clone.rs.html#174\">source</a></span><a href=\"#method.clone_from\" class=\"anchor\">§</a><h4 class=\"code-header\">fn <a href=\"https://doc.rust-lang.org/nightly/core/clone/trait.Clone.html#method.clone_from\" class=\"fn\">clone_from</a>(&amp;mut self, source: &amp;Self)</h4></section></summary><div class='docblock'>Performs copy-assignment from <code>source</code>. <a href=\"https://doc.rust-lang.org/nightly/core/clone/trait.Clone.html#method.clone_from\">Read more</a></div></details></div></details>","Clone","tracing_subscriber::fmt::writer::OptionalWriter"],["<details class=\"toggle implementors-toggle\" open><summary><section id=\"impl-Debug-for-EitherWriter%3CA,+B%3E\" class=\"impl\"><a class=\"src rightside\" href=\"src/tracing_subscriber/fmt/writer.rs.html#552\">source</a><a href=\"#impl-Debug-for-EitherWriter%3CA,+B%3E\" class=\"anchor\">§</a><h3 class=\"code-header\">impl&lt;A: <a class=\"trait\" href=\"https://doc.rust-lang.org/nightly/core/fmt/trait.Debug.html\" title=\"trait core::fmt::Debug\">Debug</a>, B: <a class=\"trait\" href=\"https://doc.rust-lang.org/nightly/core/fmt/trait.Debug.html\" title=\"trait core::fmt::Debug\">Debug</a>&gt; <a class=\"trait\" href=\"https://doc.rust-lang.org/nightly/core/fmt/trait.Debug.html\" title=\"trait core::fmt::Debug\">Debug</a> for <a class=\"enum\" href=\"tracing_subscriber/fmt/writer/enum.EitherWriter.html\" title=\"enum tracing_subscriber::fmt::writer::EitherWriter\">EitherWriter</a>&lt;A, B&gt;</h3></section></summary><div class=\"impl-items\"><details class=\"toggle method-toggle\" open><summary><section id=\"method.fmt\" class=\"method trait-impl\"><a class=\"src rightside\" href=\"src/tracing_subscriber/fmt/writer.rs.html#552\">source</a><a href=\"#method.fmt\" class=\"anchor\">§</a><h4 class=\"code-header\">fn <a href=\"https://doc.rust-lang.org/nightly/core/fmt/trait.Debug.html#tymethod.fmt\" class=\"fn\">fmt</a>(&amp;self, f: &amp;mut <a class=\"struct\" href=\"https://doc.rust-lang.org/nightly/core/fmt/struct.Formatter.html\" title=\"struct core::fmt::Formatter\">Formatter</a>&lt;'_&gt;) -&gt; <a class=\"type\" href=\"https://doc.rust-lang.org/nightly/core/fmt/type.Result.html\" title=\"type core::fmt::Result\">Result</a></h4></section></summary><div class='docblock'>Formats the value using the given formatter. <a href=\"https://doc.rust-lang.org/nightly/core/fmt/trait.Debug.html#tymethod.fmt\">Read more</a></div></details></div></details>","Debug","tracing_subscriber::fmt::writer::OptionalWriter"],["<details class=\"toggle implementors-toggle\" open><summary><section id=\"impl-PartialEq-for-EitherWriter%3CA,+B%3E\" class=\"impl\"><a class=\"src rightside\" href=\"src/tracing_subscriber/fmt/writer.rs.html#552\">source</a><a href=\"#impl-PartialEq-for-EitherWriter%3CA,+B%3E\" class=\"anchor\">§</a><h3 class=\"code-header\">impl&lt;A: <a class=\"trait\" href=\"https://doc.rust-lang.org/nightly/core/cmp/trait.PartialEq.html\" title=\"trait core::cmp::PartialEq\">PartialEq</a>, B: <a class=\"trait\" href=\"https://doc.rust-lang.org/nightly/core/cmp/trait.PartialEq.html\" title=\"trait core::cmp::PartialEq\">PartialEq</a>&gt; <a class=\"trait\" href=\"https://doc.rust-lang.org/nightly/core/cmp/trait.PartialEq.html\" title=\"trait core::cmp::PartialEq\">PartialEq</a> for <a class=\"enum\" href=\"tracing_subscriber/fmt/writer/enum.EitherWriter.html\" title=\"enum tracing_subscriber::fmt::writer::EitherWriter\">EitherWriter</a>&lt;A, B&gt;</h3></section></summary><div class=\"impl-items\"><details class=\"toggle method-toggle\" open><summary><section id=\"method.eq\" class=\"method trait-impl\"><a class=\"src rightside\" href=\"src/tracing_subscriber/fmt/writer.rs.html#552\">source</a><a href=\"#method.eq\" class=\"anchor\">§</a><h4 class=\"code-header\">fn <a href=\"https://doc.rust-lang.org/nightly/core/cmp/trait.PartialEq.html#tymethod.eq\" class=\"fn\">eq</a>(&amp;self, other: &amp;<a class=\"enum\" href=\"tracing_subscriber/fmt/writer/enum.EitherWriter.html\" title=\"enum tracing_subscriber::fmt::writer::EitherWriter\">EitherWriter</a>&lt;A, B&gt;) -&gt; <a class=\"primitive\" href=\"https://doc.rust-lang.org/nightly/std/primitive.bool.html\">bool</a></h4></section></summary><div class='docblock'>Tests for <code>self</code> and <code>other</code> values to be equal, and is used by <code>==</code>.</div></details><details class=\"toggle method-toggle\" open><summary><section id=\"method.ne\" class=\"method trait-impl\"><span class=\"rightside\"><span class=\"since\" title=\"Stable since Rust version 1.0.0\">1.0.0</span> · <a class=\"src\" href=\"https://doc.rust-lang.org/nightly/src/core/cmp.rs.html#261\">source</a></span><a href=\"#method.ne\" class=\"anchor\">§</a><h4 class=\"code-header\">fn <a href=\"https://doc.rust-lang.org/nightly/core/cmp/trait.PartialEq.html#method.ne\" class=\"fn\">ne</a>(&amp;self, other: <a class=\"primitive\" href=\"https://doc.rust-lang.org/nightly/std/primitive.reference.html\">&amp;Rhs</a>) -&gt; <a class=\"primitive\" href=\"https://doc.rust-lang.org/nightly/std/primitive.bool.html\">bool</a></h4></section></summary><div class='docblock'>Tests for <code>!=</code>. The default implementation is almost always sufficient,\nand should not be overridden without very good reason.</div></details></div></details>","PartialEq","tracing_subscriber::fmt::writer::OptionalWriter"],["<details class=\"toggle implementors-toggle\" open><summary><section id=\"impl-Write-for-EitherWriter%3CA,+B%3E\" class=\"impl\"><a class=\"src rightside\" href=\"src/tracing_subscriber/fmt/writer.rs.html#832-876\">source</a><a href=\"#impl-Write-for-EitherWriter%3CA,+B%3E\" class=\"anchor\">§</a><h3 class=\"code-header\">impl&lt;A, B&gt; <a class=\"trait\" href=\"https://doc.rust-lang.org/nightly/std/io/trait.Write.html\" title=\"trait std::io::Write\">Write</a> for <a class=\"enum\" href=\"tracing_subscriber/fmt/writer/enum.EitherWriter.html\" title=\"enum tracing_subscriber::fmt::writer::EitherWriter\">EitherWriter</a>&lt;A, B&gt;<div class=\"where\">where\n    A: <a class=\"trait\" href=\"https://doc.rust-lang.org/nightly/std/io/trait.Write.html\" title=\"trait std::io::Write\">Write</a>,\n    B: <a class=\"trait\" href=\"https://doc.rust-lang.org/nightly/std/io/trait.Write.html\" title=\"trait std::io::Write\">Write</a>,</div></h3></section></summary><div class=\"impl-items\"><details class=\"toggle method-toggle\" open><summary><section id=\"method.write\" class=\"method trait-impl\"><a class=\"src rightside\" href=\"src/tracing_subscriber/fmt/writer.rs.html#838-843\">source</a><a href=\"#method.write\" class=\"anchor\">§</a><h4 class=\"code-header\">fn <a href=\"https://doc.rust-lang.org/nightly/std/io/trait.Write.html#tymethod.write\" class=\"fn\">write</a>(&amp;mut self, buf: &amp;[<a class=\"primitive\" href=\"https://doc.rust-lang.org/nightly/std/primitive.u8.html\">u8</a>]) -&gt; <a class=\"type\" href=\"https://doc.rust-lang.org/nightly/std/io/error/type.Result.html\" title=\"type std::io::error::Result\">Result</a>&lt;<a class=\"primitive\" href=\"https://doc.rust-lang.org/nightly/std/primitive.usize.html\">usize</a>&gt;</h4></section></summary><div class='docblock'>Writes a buffer into this writer, returning how many bytes were written. <a href=\"https://doc.rust-lang.org/nightly/std/io/trait.Write.html#tymethod.write\">Read more</a></div></details><details class=\"toggle method-toggle\" open><summary><section id=\"method.flush\" class=\"method trait-impl\"><a class=\"src rightside\" href=\"src/tracing_subscriber/fmt/writer.rs.html#846-851\">source</a><a href=\"#method.flush\" class=\"anchor\">§</a><h4 class=\"code-header\">fn <a href=\"https://doc.rust-lang.org/nightly/std/io/trait.Write.html#tymethod.flush\" class=\"fn\">flush</a>(&amp;mut self) -&gt; <a class=\"type\" href=\"https://doc.rust-lang.org/nightly/std/io/error/type.Result.html\" title=\"type std::io::error::Result\">Result</a>&lt;<a class=\"primitive\" href=\"https://doc.rust-lang.org/nightly/std/primitive.unit.html\">()</a>&gt;</h4></section></summary><div class='docblock'>Flushes this output stream, ensuring that all intermediately buffered\ncontents reach their destination. <a href=\"https://doc.rust-lang.org/nightly/std/io/trait.Write.html#tymethod.flush\">Read more</a></div></details><details class=\"toggle method-toggle\" open><summary><section id=\"method.write_vectored\" class=\"method trait-impl\"><a class=\"src rightside\" href=\"src/tracing_subscriber/fmt/writer.rs.html#854-859\">source</a><a href=\"#method.write_vectored\" class=\"anchor\">§</a><h4 class=\"code-header\">fn <a href=\"https://doc.rust-lang.org/nightly/std/io/trait.Write.html#method.write_vectored\" class=\"fn\">write_vectored</a>(&amp;mut self, bufs: &amp;[<a class=\"struct\" href=\"https://doc.rust-lang.org/nightly/std/io/struct.IoSlice.html\" title=\"struct std::io::IoSlice\">IoSlice</a>&lt;'_&gt;]) -&gt; <a class=\"type\" href=\"https://doc.rust-lang.org/nightly/std/io/error/type.Result.html\" title=\"type std::io::error::Result\">Result</a>&lt;<a class=\"primitive\" href=\"https://doc.rust-lang.org/nightly/std/primitive.usize.html\">usize</a>&gt;</h4></section></summary><div class='docblock'>Like <a href=\"https://doc.rust-lang.org/nightly/std/io/trait.Write.html#tymethod.write\" title=\"method std::io::Write::write\"><code>write</code></a>, except that it writes from a slice of buffers. <a href=\"https://doc.rust-lang.org/nightly/std/io/trait.Write.html#method.write_vectored\">Read more</a></div></details><details class=\"toggle method-toggle\" open><summary><section id=\"method.write_all\" class=\"method trait-impl\"><a class=\"src rightside\" href=\"src/tracing_subscriber/fmt/writer.rs.html#862-867\">source</a><a href=\"#method.write_all\" class=\"anchor\">§</a><h4 class=\"code-header\">fn <a href=\"https://doc.rust-lang.org/nightly/std/io/trait.Write.html#method.write_all\" class=\"fn\">write_all</a>(&amp;mut self, buf: &amp;[<a class=\"primitive\" href=\"https://doc.rust-lang.org/nightly/std/primitive.u8.html\">u8</a>]) -&gt; <a class=\"type\" href=\"https://doc.rust-lang.org/nightly/std/io/error/type.Result.html\" title=\"type std::io::error::Result\">Result</a>&lt;<a class=\"primitive\" href=\"https://doc.rust-lang.org/nightly/std/primitive.unit.html\">()</a>&gt;</h4></section></summary><div class='docblock'>Attempts to write an entire buffer into this writer. <a href=\"https://doc.rust-lang.org/nightly/std/io/trait.Write.html#method.write_all\">Read more</a></div></details><details class=\"toggle method-toggle\" open><summary><section id=\"method.write_fmt\" class=\"method trait-impl\"><a class=\"src rightside\" href=\"src/tracing_subscriber/fmt/writer.rs.html#870-875\">source</a><a href=\"#method.write_fmt\" class=\"anchor\">§</a><h4 class=\"code-header\">fn <a href=\"https://doc.rust-lang.org/nightly/std/io/trait.Write.html#method.write_fmt\" class=\"fn\">write_fmt</a>(&amp;mut self, fmt: <a class=\"struct\" href=\"https://doc.rust-lang.org/nightly/core/fmt/struct.Arguments.html\" title=\"struct core::fmt::Arguments\">Arguments</a>&lt;'_&gt;) -&gt; <a class=\"type\" href=\"https://doc.rust-lang.org/nightly/std/io/error/type.Result.html\" title=\"type std::io::error::Result\">Result</a>&lt;<a class=\"primitive\" href=\"https://doc.rust-lang.org/nightly/std/primitive.unit.html\">()</a>&gt;</h4></section></summary><div class='docblock'>Writes a formatted string into this writer, returning any error\nencountered. <a href=\"https://doc.rust-lang.org/nightly/std/io/trait.Write.html#method.write_fmt\">Read more</a></div></details><details class=\"toggle method-toggle\" open><summary><section id=\"method.is_write_vectored\" class=\"method trait-impl\"><a class=\"src rightside\" href=\"https://doc.rust-lang.org/nightly/src/std/io/mod.rs.html#1641\">source</a><a href=\"#method.is_write_vectored\" class=\"anchor\">§</a><h4 class=\"code-header\">fn <a href=\"https://doc.rust-lang.org/nightly/std/io/trait.Write.html#method.is_write_vectored\" class=\"fn\">is_write_vectored</a>(&amp;self) -&gt; <a class=\"primitive\" href=\"https://doc.rust-lang.org/nightly/std/primitive.bool.html\">bool</a></h4></section></summary><span class=\"item-info\"><div class=\"stab unstable\"><span class=\"emoji\">🔬</span><span>This is a nightly-only experimental API. (<code>can_vector</code>&nbsp;<a href=\"https://github.com/tokio-rs/tracing/issues/69941\">#69941</a>)</span></div></span><div class='docblock'>Determines if this <code>Write</code>r has an efficient <a href=\"https://doc.rust-lang.org/nightly/std/io/trait.Write.html#method.write_vectored\" title=\"method std::io::Write::write_vectored\"><code>write_vectored</code></a>\nimplementation. <a href=\"https://doc.rust-lang.org/nightly/std/io/trait.Write.html#method.is_write_vectored\">Read more</a></div></details><details class=\"toggle method-toggle\" open><summary><section id=\"method.write_all_vectored\" class=\"method trait-impl\"><a class=\"src rightside\" href=\"https://doc.rust-lang.org/nightly/src/std/io/mod.rs.html#1765\">source</a><a href=\"#method.write_all_vectored\" class=\"anchor\">§</a><h4 class=\"code-header\">fn <a href=\"https://doc.rust-lang.org/nightly/std/io/trait.Write.html#method.write_all_vectored\" class=\"fn\">write_all_vectored</a>(&amp;mut self, bufs: &amp;mut [<a class=\"struct\" href=\"https://doc.rust-lang.org/nightly/std/io/struct.IoSlice.html\" title=\"struct std::io::IoSlice\">IoSlice</a>&lt;'_&gt;]) -&gt; <a class=\"enum\" href=\"https://doc.rust-lang.org/nightly/core/result/enum.Result.html\" title=\"enum core::result::Result\">Result</a>&lt;<a class=\"primitive\" href=\"https://doc.rust-lang.org/nightly/std/primitive.unit.html\">()</a>, <a class=\"struct\" href=\"https://doc.rust-lang.org/nightly/std/io/error/struct.Error.html\" title=\"struct std::io::error::Error\">Error</a>&gt;</h4></section></summary><span class=\"item-info\"><div class=\"stab unstable\"><span class=\"emoji\">🔬</span><span>This is a nightly-only experimental API. (<code>write_all_vectored</code>&nbsp;<a href=\"https://github.com/tokio-rs/tracing/issues/70436\">#70436</a>)</span></div></span><div class='docblock'>Attempts to write multiple buffers into this writer. <a href=\"https://doc.rust-lang.org/nightly/std/io/trait.Write.html#method.write_all_vectored\">Read more</a></div></details><details class=\"toggle method-toggle\" open><summary><section id=\"method.by_ref\" class=\"method trait-impl\"><span class=\"rightside\"><span class=\"since\" title=\"Stable since Rust version 1.0.0\">1.0.0</span> · <a class=\"src\" href=\"https://doc.rust-lang.org/nightly/src/std/io/mod.rs.html#1878-1880\">source</a></span><a href=\"#method.by_ref\" class=\"anchor\">§</a><h4 class=\"code-header\">fn <a href=\"https://doc.rust-lang.org/nightly/std/io/trait.Write.html#method.by_ref\" class=\"fn\">by_ref</a>(&amp;mut self) -&gt; &amp;mut Self<div class=\"where\">where\n    Self: <a class=\"trait\" href=\"https://doc.rust-lang.org/nightly/core/marker/trait.Sized.html\" title=\"trait core::marker::Sized\">Sized</a>,</div></h4></section></summary><div class='docblock'>Creates a “by reference” adapter for this instance of <code>Write</code>. <a href=\"https://doc.rust-lang.org/nightly/std/io/trait.Write.html#method.by_ref\">Read more</a></div></details></div></details>","Write","tracing_subscriber::fmt::writer::OptionalWriter"],["<section id=\"impl-Copy-for-EitherWriter%3CA,+B%3E\" class=\"impl\"><a class=\"src rightside\" href=\"src/tracing_subscriber/fmt/writer.rs.html#552\">source</a><a href=\"#impl-Copy-for-EitherWriter%3CA,+B%3E\" class=\"anchor\">§</a><h3 class=\"code-header\">impl&lt;A: <a class=\"trait\" href=\"https://doc.rust-lang.org/nightly/core/marker/trait.Copy.html\" title=\"trait core::marker::Copy\">Copy</a>, B: <a class=\"trait\" href=\"https://doc.rust-lang.org/nightly/core/marker/trait.Copy.html\" title=\"trait core::marker::Copy\">Copy</a>&gt; <a class=\"trait\" href=\"https://doc.rust-lang.org/nightly/core/marker/trait.Copy.html\" title=\"trait core::marker::Copy\">Copy</a> for <a class=\"enum\" href=\"tracing_subscriber/fmt/writer/enum.EitherWriter.html\" title=\"enum tracing_subscriber::fmt::writer::EitherWriter\">EitherWriter</a>&lt;A, B&gt;</h3></section>","Copy","tracing_subscriber::fmt::writer::OptionalWriter"],["<section id=\"impl-Eq-for-EitherWriter%3CA,+B%3E\" class=\"impl\"><a class=\"src rightside\" href=\"src/tracing_subscriber/fmt/writer.rs.html#552\">source</a><a href=\"#impl-Eq-for-EitherWriter%3CA,+B%3E\" class=\"anchor\">§</a><h3 class=\"code-header\">impl&lt;A: <a class=\"trait\" href=\"https://doc.rust-lang.org/nightly/core/cmp/trait.Eq.html\" title=\"trait core::cmp::Eq\">Eq</a>, B: <a class=\"trait\" href=\"https://doc.rust-lang.org/nightly/core/cmp/trait.Eq.html\" title=\"trait core::cmp::Eq\">Eq</a>&gt; <a class=\"trait\" href=\"https://doc.rust-lang.org/nightly/core/cmp/trait.Eq.html\" title=\"trait core::cmp::Eq\">Eq</a> for <a class=\"enum\" href=\"tracing_subscriber/fmt/writer/enum.EitherWriter.html\" title=\"enum tracing_subscriber::fmt::writer::EitherWriter\">EitherWriter</a>&lt;A, B&gt;</h3></section>","Eq","tracing_subscriber::fmt::writer::OptionalWriter"],["<section id=\"impl-StructuralPartialEq-for-EitherWriter%3CA,+B%3E\" class=\"impl\"><a class=\"src rightside\" href=\"src/tracing_subscriber/fmt/writer.rs.html#552\">source</a><a href=\"#impl-StructuralPartialEq-for-EitherWriter%3CA,+B%3E\" class=\"anchor\">§</a><h3 class=\"code-header\">impl&lt;A, B&gt; <a class=\"trait\" href=\"https://doc.rust-lang.org/nightly/core/marker/trait.StructuralPartialEq.html\" title=\"trait core::marker::StructuralPartialEq\">StructuralPartialEq</a> for <a class=\"enum\" href=\"tracing_subscriber/fmt/writer/enum.EitherWriter.html\" title=\"enum tracing_subscriber::fmt::writer::EitherWriter\">EitherWriter</a>&lt;A, B&gt;</h3></section>","StructuralPartialEq","tracing_subscriber::fmt::writer::OptionalWriter"]]]]);"##

/-- Path of the file below, relative to the documentation root. -/
def eitherWriterJsPath : String := "type.impl/tracing_subscriber/fmt/writer/enum.EitherWriter.js"

/-- Text of `src/type.impl/tracing_subscriber/fmt/writer/enum.EitherWriter.js`: its lines, joined by line feeds. -/
def eitherWriterJs : String :=
  unlines [
    "(function() \x7b",
    eitherWriterJsLine2,
    "    if (window.register_type_impls) \x7b",
    "        window.register_type_impls(type_impls);",
    "    \x7d else \x7b",
    "        window.pending_type_impls = type_impls;",
    "    \x7d",
    "\x7d)()",
    "//\x7b\"start\":55,\"fragment_lengths\":[20094]\x7d"]

/-- Line 1 of `src/search.desc/futures_concurrency/futures_concurrency-desc-0-.js`, verbatim: the statement holding the data literal. -/
def descShardJsLine1 : String := r##"searchState.loadedDescShard("futures_concurrency", 0, "Performant, portable, structured concurrency operations …\nHelper functions and types for fixed-length arrays.\nConcurrent execution of streams\nAsynchronous basic functionality.\nThe futures concurrency prelude.\nComposable asynchronous iteration.\nParallel iterator types for vectors (<code>Vec&lt;T&gt;</code>)\nA collection of errors.\nA stream that chains multiple streams one after another.\nA future which waits for two similarly-typed futures to …\nA stream that merges multiple streams into a single stream.\nA future which waits for the first future to complete.\nA future which waits for the first successful future to …\nA future which waits for all futures to complete …\nA stream that ‘zips up’ multiple streams into a single …\nReturns the argument unchanged.\nReturns the argument unchanged.\nReturns the argument unchanged.\nReturns the argument unchanged.\nReturns the argument unchanged.\nReturns the argument unchanged.\nReturns the argument unchanged.\nReturns the argument unchanged.\nCalls <code>U::from(self)</code>.\nCalls <code>U::from(self)</code>.\nCalls <code>U::from(self)</code>.\nCalls <code>U::from(self)</code>.\nCalls <code>U::from(self)</code>.\nCalls <code>U::from(self)</code>.\nCalls <code>U::from(self)</code>.\nCalls <code>U::from(self)</code>.\nThe consumer is done making progress, and the <code>finish</code> …\nConcurrently operate over items in a stream\nDescribes a type which can receive data.\nThe state of the consumer, used to communicate back to the …\nThe consumer is ready to keep making progress.\nThe consumer currently holds no values and should not be …\nA concurrent iterator that yields the current count and …\nConversion from a <code>ConcurrentStream</code>\nA concurrent for each implementation from a <code>Stream</code>\nWhat’s the type of the future containing our items?\nConversion into a <code>ConcurrentStream</code>\nWhich kind of iterator are we turning this into?\nThe type of the elements being iterated over.\nWhich item will we be yielding?\nA concurrent iterator that limits the amount of …\nConvert items from one type into another\nWhat is the type of the item we’re returning when …\nA concurrent iterator that only iterates over the first <code>n</code> …\nTransforms an iterator into a collection.\nHow much concurrency should we apply?\nInternal method used to define the behavior of this …\nCreates a stream which gives the current iteration count …\nWe have no more data left to send to the <code>Consumer</code>; wait …\nIterate over each item concurrently\nReturns the argument unchanged.\nReturns the argument unchanged.\nReturns the argument unchanged.\nReturns the argument unchanged.\nReturns the argument unchanged.\nReturns the argument unchanged.\nCreates a value from a concurrent iterator.\nCalls <code>U::from(self)</code>.\nCalls <code>U::from(self)</code>.\nCalls <code>U::from(self)</code>.\nCalls <code>U::from(self)</code>.\nCalls <code>U::from(self)</code>.\nCalls <code>U::from(self)</code>.\nConvert <code>self</code> into a concurrent iterator.\nObtain a simple pass-through adapter.\nConvert items from one type into another\nMake progress on the consumer while doing something else.\nSend an item down to the next step in the processing queue.\nHow many items could we potentially end up returning?\nCreates a stream that yields the first <code>n</code> elements, or …\nIterate over each item concurrently, short-circuit on …\nThe resulting error type.\nThe resulting error type.\nThe <code>Future</code> implementation returned by this method.\nWhich kind of future are we turning this into?\nWhich kind of future are we turning this into?\nWhich kind of future are we turning this into?\nAn extension trait for the <code>Future</code> trait.\nA growable group of futures which act as a single unit.\nWait for all futures to complete.\nThe resulting output type.\nThe resulting output type.\nThe resulting output type.\nThe resulting output type.\nWait for the first future to complete.\nWait for the first successful future to complete.\nWait for all futures to complete successfully, or abort …\nSuspends a future until the specified deadline.\nReturns the argument unchanged.\nReturns the argument unchanged.\nA growable group of futures which act as a single unit.\nCalls <code>U::from(self)</code>.\nCalls <code>U::from(self)</code>.\nWait for both futures to complete.\nWaits for multiple futures to complete.\nWait for the first future to complete.\nWait for the first future to complete.\nWaits for the first successful future to complete.\nWaits for multiple futures to complete, either returning …\nDelay resolving the future until the given deadline.\nDelay resolving the future until the given deadline.\nA growable group of futures which act as a single unit.\nA key used to index into the <code>FutureGroup</code> type.\nIterate over items in the futures group with their …\nReturn the capacity of the <code>FutureGroup</code>.\nReturns <code>true</code> if the <code>FutureGroup</code> contains a value for the …\nReturns the argument unchanged.\nReturns the argument unchanged.\nInsert a new future into the group.\nCalls <code>U::from(self)</code>.\nCalls <code>U::from(self)</code>.\nReturns true if there are no futures currently active in …\nCreate a stream which also yields the key of each item.\nReturn the number of futures currently active in the group.\nCreate a new instance of <code>FutureGroup</code>.\nRemoves a stream from the group. Returns whether the value …\nReserves capacity for <code>additional</code> more futures to be …\nCreate a new instance of <code>FutureGroup</code> with a given capacity.\nTakes multiple streams and creates a new stream over all …\nConversion into a <code>Stream</code>.\nWhich kind of stream are we turning this into?\nWhat’s the return type of our stream?\nThe type of the elements being iterated over.\nThe resulting output type.\nWhat’s the return type of our stream?\nCombines multiple streams into a single stream of all …\nWhat stream do we return?\nThe stream type.\nWhat stream do we return?\nAn extension trait for the <code>Stream</code> trait.\nA growable group of streams which act as a single unit.\nDelay execution of a stream once for the specified …\n‘Zips up’ multiple streams into a single stream of …\nCombine multiple streams into a single stream.\nTakes two streams and creates a new stream over all in …\nConvert into a concurrent stream.\nConvert into a concurrent stream.\nReturns the argument unchanged.\nReturns the argument unchanged.\nCalls <code>U::from(self)</code>.\nCalls <code>U::from(self)</code>.\nCreates a stream from a value.\nCombine multiple streams into a single stream.\nCombines two streams into a single stream of all their …\nA growable group of streams which act as a single unit.\nDelay the yielding of items from the stream until the …\nDelay the yielding of items from the stream until the …\n‘Zips up’ multiple streams into a single stream of …\nCombine multiple streams into a single stream.\nA key used to index into the <code>StreamGroup</code> type.\nIterate over items in the stream group with their …\nA growable group of streams which act as a single unit.\nReturn the capacity of the <code>StreamGroup</code>.\nReturns <code>true</code> if the <code>StreamGroup</code> contains a value for the …\nReturns the argument unchanged.\nReturns the argument unchanged.\nInsert a new future into the group.\nCalls <code>U::from(self)</code>.\nCalls <code>U::from(self)</code>.\nReturns true if there are no futures currently active in …\nCreate a stream which also yields the key of each item.\nReturn the number of futures currently active in the group.\nCreate a new instance of <code>StreamGroup</code>.\nRemoves a stream from the group. Returns whether the value …\nReserves capacity for <code>additional</code> more streams to be …\nCreate a new instance of <code>StreamGroup</code> with a given capacity.\nA collection of errors.\nA stream that chains multiple streams one after another.\nConcurrent async iterator that moves out of a vector.\nA future which waits for multiple futures to complete.\nA stream that merges multiple streams into a single stream.\nA future which waits for the first future to complete.\nA future which waits for the first successful future to …\nA future which waits for all futures to complete …\nA stream that ‘zips up’ multiple streams into a single …\nReturns the argument unchanged.\nReturns the argument unchanged.\nReturns the argument unchanged.\nReturns the argument unchanged.\nReturns the argument unchanged.\nReturns the argument unchanged.\nReturns the argument unchanged.\nReturns the argument unchanged.\nReturns the argument unchanged.\nCalls <code>U::from(self)</code>.\nCalls <code>U::from(self)</code>.\nCalls <code>U::from(self)</code>.\nCalls <code>U::from(self)</code>.\nCalls <code>U::from(self)</code>.\nCalls <code>U::from(self)</code>.\nCalls <code>U::from(self)</code>.\nCalls <code>U::from(self)</code>.\nCalls <code>U::from(self)</code>.")"##

/-- Path of the file below, relative to the documentation root. -/
def descShardJsPath : String := "search.desc/futures_concurrency/futures_concurrency-desc-0-.js"

/-- Text of `src/search.desc/futures_concurrency/futures_concurrency-desc-0-.js`: its lines, joined by line feeds. -/
def descShardJs : String :=
  unlines [
    descShardJsLine1,
    ""]
/-! ## Lexer -/

/-- Tokens of the JavaScript subset the four files use. -/
inductive Token where
  /-- A punctuation character. -/
  | punct (c : Char)
  /-- An identifier or keyword. -/
  | ident (s : String)
  /-- A decimal number. -/
  | num (n : Nat)
  /-- A string literal, with its escapes decoded. -/
  | str (s : String)
  /-- A line comment, without its two slashes. -/
  | comment (s : String)
  /-- Text the lexer does not support (an escape such as `\u`, an unterminated literal). -/
  | bad
  deriving DecidableEq, Repr

/-- A token with the byte offsets of its first byte and of the byte after its last. -/
structure Lexeme where
  tok : Token
  pos : Nat
  stop : Nat
  deriving DecidableEq, Repr

/-- Whether a text begins with a slash. -/
def startsSlash : List Char → Bool
  | c :: _ => c == '/'
  | [] => false

/-- Characters of identifiers and numbers. -/
def isWordChar (c : Char) : Bool :=
  c.isAlphanum || c == '_' || c == '$'

/-- Value of a list of decimal digits, most significant first. -/
def digitsValue (ds : List Char) : Nat :=
  ds.foldl (fun n d => 10 * n + (d.toNat - 48)) 0

/-- Token of a word: a number when all its characters are digits. -/
def wordToken (w : List Char) : Token :=
  if w.all Char.isDigit then .num (digitsValue w) else .ident (String.mk w)

/-- Character a single-character escape stands for; `none` for the escapes
that need more characters (`\u`, `\x`, digits) or continue the line. -/
def unescape (c : Char) : Option Char :=
  if c == 'n' then some '\n'
  else if c == 't' then some '\t'
  else if c == 'r' then some '\r'
  else if c == 'b' then some (Char.ofNat 8)
  else if c == 'f' then some (Char.ofNat 12)
  else if c == 'v' then some (Char.ofNat 11)
  else if c == 'u' || c == 'x' || c.isDigit || c == '\n' || c == '\r' then none
  else some c

/-- Reads a string literal after its opening quote `q`: the decoded string,
the offset after the closing quote, and the text after it.  `acc` holds the
characters decoded so far, last first; `pos` is the byte offset of the next
character.  `none` for a literal that does not end on its line or has an
escape `unescape` does not know.  (A character has at least one byte, so the
first test never fails; it keeps the offset evaluated at every step.) -/
def scanString (q : Char) : List Char → Nat → List Char → Option (String × Nat × List Char)
  | _, _, [] => none
  | acc, pos, c :: cs =>
    if pos + c.utf8Size ≤ pos then none
    else if c == q then some (String.mk acc.reverse, pos + c.utf8Size, cs)
    else if c == '\n' then none
    else if c == '\\' then
      match cs with
      | [] => none
      | d :: ds =>
        match unescape d with
        | some e => scanString q (e :: acc) (pos + c.utf8Size + d.utf8Size) ds
        | none => none
    else scanString q (c :: acc) (pos + c.utf8Size) cs

/-- Reads the rest of a word: its characters, the offset after it, and the
text after it. -/
def scanWord : List Char → Nat → List Char → List Char × Nat × List Char
  | acc, pos, [] => (acc.reverse, pos, [])
  | acc, pos, c :: cs =>
    if isWordChar c && pos < pos + c.utf8Size then scanWord (c :: acc) (pos + c.utf8Size) cs
    else (acc.reverse, pos, c :: cs)

/-- Reads a line comment after its two slashes, up to the end of the line. -/
def scanComment : List Char → Nat → List Char → String × Nat × List Char
  | acc, pos, [] => (String.mk acc.reverse, pos, [])
  | acc, pos, c :: cs =>
    if c != '\n' && pos < pos + c.utf8Size then scanComment (c :: acc) (pos + c.utf8Size) cs
    else (String.mk acc.reverse, pos, c :: cs)

/-- The lexer: one token at each step.  `pos` is the byte offset of the next
character.  The first argument bounds the number of steps; a step reads at
least one character, so the text itself is bound enough. -/
def lexFuel : List Char → Nat → List Char → List Lexeme
  | _, _, [] => []
  | [], pos, _ :: _ => [⟨.bad, pos, pos⟩]
  | _ :: fuel, pos, c :: cs =>
    if c.isWhitespace then lexFuel fuel (pos + c.utf8Size) cs
    else if isWordChar c then
      match scanWord [c] (pos + c.utf8Size) cs with
      | (w, stop, rest) => ⟨wordToken w, pos, stop⟩ :: lexFuel fuel stop rest
    else if c == '"' || c == '\'' then
      match scanString c [] (pos + c.utf8Size) cs with
      | some (s, stop, rest) => ⟨.str s, pos, stop⟩ :: lexFuel fuel stop rest
      | none => [⟨.bad, pos, pos + c.utf8Size⟩]
    else if c == '/' && startsSlash cs then
      match scanComment [] (pos + 2) (cs.drop 1) with
      | (text, stop, rest) => ⟨.comment text, pos, stop⟩ :: lexFuel fuel stop rest
    else ⟨.punct c, pos, pos + c.utf8Size⟩ :: lexFuel fuel (pos + c.utf8Size) cs

/-- Lexemes of a text. -/
def lex (s : String) : List Lexeme :=
  lexFuel s.data 0 s.data

/-! ## The lexemes of the four files

Each list below is the value of `lex` on the text of one file, written out so
that later computations start from the tokens; the lemmas `lex_…` check each
list against the text. -/

/-- Lexemes of `trait.Pointer.js`, as `lex` computes them from its text. -/
def pointerJsLexemes : List Lexeme := [
  Lexeme.mk (Token.punct '(') 0 1,
  Lexeme.mk (Token.ident "function") 1 9,
  Lexeme.mk (Token.punct '(') 9 10,
  Lexeme.mk (Token.punct ')') 10 11,
  Lexeme.mk (Token.punct (Char.ofNat 123)) 12 13,
  Lexeme.mk (Token.ident "var") 18 21,
  Lexeme.mk (Token.ident "implementors") 22 34,
  Lexeme.mk (Token.punct '=') 35 36,
  Lexeme.mk (Token.ident "Object") 37 43,
  Lexeme.mk (Token.punct '.') 43 44,
  Lexeme.mk (Token.ident "fromEntries") 44 55,
  Lexeme.mk (Token.punct '(') 55 56,
  Lexeme.mk (Token.punct '[') 56 57,
  Lexeme.mk (Token.punct '[') 57 58,
  Lexeme.mk (Token.str "bitvec") 58 66,
  Lexeme.mk (Token.punct ',') 66 67,
  Lexeme.mk (Token.punct '[') 67 68,
  Lexeme.mk (Token.punct '[') 68 69,
  Lexeme.mk (Token.str "impl&lt;M, T, O&gt; <a class=\"trait\" href=\"https://doc.rust-lang.org/nightly/core/fmt/trait.Pointer.html\" title=\"trait core::fmt::Pointer\">Pointer</a> for <a class=\"struct\" href=\"bitvec/ptr/struct.BitPtr.html\" title=\"struct bitvec::ptr::BitPtr\">BitPtr</a>&lt;M, T, O&gt;<div class=\"where\">where\n    M: <a class=\"trait\" href=\"bitvec/ptr/trait.Mutability.html\" title=\"trait bitvec::ptr::Mutability\">Mutability</a>,\n    T: <a class=\"trait\" href=\"bitvec/store/trait.BitStore.html\" title=\"trait bitvec::store::BitStore\">BitStore</a>,\n    O: <a class=\"trait\" href=\"bitvec/order/trait.BitOrder.html\" title=\"trait bitvec::order::BitOrder\">BitOrder</a>,</div>") 69 756,
  Lexeme.mk (Token.punct ']') 756 757,
  Lexeme.mk (Token.punct ',') 757 758,
  Lexeme.mk (Token.punct '[') 758 759,
  Lexeme.mk (Token.str "impl&lt;M, T, O&gt; <a class=\"trait\" href=\"https://doc.rust-lang.org/nightly/core/fmt/trait.Pointer.html\" title=\"trait core::fmt::Pointer\">Pointer</a> for <a class=\"struct\" href=\"bitvec/ptr/struct.BitRef.html\" title=\"struct bitvec::ptr::BitRef\">BitRef</a>&lt;'_, M, T, O&gt;<div class=\"where\">where\n    M: <a class=\"trait\" href=\"bitvec/ptr/trait.Mutability.html\" title=\"trait bitvec::ptr::Mutability\">Mutability</a>,\n    T: <a class=\"trait\" href=\"bitvec/store/trait.BitStore.html\" title=\"trait bitvec::store::BitStore\">BitStore</a>,\n    O: <a class=\"trait\" href=\"bitvec/order/trait.BitOrder.html\" title=\"trait bitvec::order::BitOrder\">BitOrder</a>,</div>") 759 1450,
  Lexeme.mk (Token.punct ']') 1450 1451,
  Lexeme.mk (Token.punct ',') 1451 1452,
  Lexeme.mk (Token.punct '[') 1452 1453,
  Lexeme.mk (Token.str "impl&lt;T, O&gt; <a class=\"trait\" href=\"https://doc.rust-lang.org/nightly/core/fmt/trait.Pointer.html\" title=\"trait core::fmt::Pointer\">Pointer</a> for <a class=\"struct\" href=\"bitvec/boxed/struct.BitBox.html\" title=\"struct bitvec::boxed::BitBox\">BitBox</a>&lt;T, O&gt;<div class=\"where\">where\n    O: <a class=\"trait\" href=\"bitvec/order/trait.BitOrder.html\" title=\"trait bitvec::order::BitOrder\">BitOrder</a>,\n    T: <a class=\"trait\" href=\"bitvec/store/trait.BitStore.html\" title=\"trait bitvec::store::BitStore\">BitStore</a>,</div>") 1453 2013,
  Lexeme.mk (Token.punct ']') 2013 2014,
  Lexeme.mk (Token.punct ',') 2014 2015,
  Lexeme.mk (Token.punct '[') 2015 2016,
  Lexeme.mk (Token.str "impl&lt;T, O&gt; <a class=\"trait\" href=\"https://doc.rust-lang.org/nightly/core/fmt/trait.Pointer.html\" title=\"trait core::fmt::Pointer\">Pointer</a> for <a class=\"struct\" href=\"bitvec/slice/struct.BitSlice.html\" title=\"struct bitvec::slice::BitSlice\">BitSlice</a>&lt;T, O&gt;<div class=\"where\">where\n    T: <a class=\"trait\" href=\"bitvec/store/trait.BitStore.html\" title=\"trait bitvec::store::BitStore\">BitStore</a>,\n    O: <a class=\"trait\" href=\"bitvec/order/trait.BitOrder.html\" title=\"trait bitvec::order::BitOrder\">BitOrder</a>,</div>") 2016 2582,
  Lexeme.mk (Token.punct ']') 2582 2583,
  Lexeme.mk (Token.punct ',') 2583 2584,
  Lexeme.mk (Token.punct '[') 2584 2585,
  Lexeme.mk (Token.str "impl&lt;T, O&gt; <a class=\"trait\" href=\"https://doc.rust-lang.org/nightly/core/fmt/trait.Pointer.html\" title=\"trait core::fmt::Pointer\">Pointer</a> for <a class=\"struct\" href=\"bitvec/vec/struct.BitVec.html\" title=\"struct bitvec::vec::BitVec\">BitVec</a>&lt;T, O&gt;<div class=\"where\">where\n    O: <a class=\"trait\" href=\"bitvec/order/trait.BitOrder.html\" title=\"trait bitvec::order::BitOrder\">BitOrder</a>,\n    T: <a class=\"trait\" href=\"bitvec/store/trait.BitStore.html\" title=\"trait bitvec::store::BitStore\">BitStore</a>,</div>") 2585 3141,
  Lexeme.mk (Token.punct ']') 3141 3142,
  Lexeme.mk (Token.punct ']') 3142 3143,
  Lexeme.mk (Token.punct ']') 3143 3144,
  Lexeme.mk (Token.punct ',') 3144 3145,
  Lexeme.mk (Token.punct '[') 3145 3146,
  Lexeme.mk (Token.str "nalgebra") 3146 3156,
  Lexeme.mk (Token.punct ',') 3156 3157,
  Lexeme.mk (Token.punct '[') 3157 3158,
  Lexeme.mk (Token.punct '[') 3158 3159,
  Lexeme.mk (Token.str "impl&lt;T, R: <a class=\"trait\" href=\"nalgebra/base/dimension/trait.Dim.html\" title=\"trait nalgebra::base::dimension::Dim\">Dim</a>, C: <a class=\"trait\" href=\"nalgebra/base/dimension/trait.Dim.html\" title=\"trait nalgebra::base::dimension::Dim\">Dim</a>, S&gt; <a class=\"trait\" href=\"https://doc.rust-lang.org/nightly/core/fmt/trait.Pointer.html\" title=\"trait core::fmt::Pointer\">Pointer</a> for <a class=\"struct\" href=\"nalgebra/base/struct.Matrix.html\" title=\"struct nalgebra::base::Matrix\">Matrix</a>&lt;T, R, C, S&gt;<div class=\"where\">where\n    T: <a class=\"trait\" href=\"nalgebra/base/trait.Scalar.html\" title=\"trait nalgebra::base::Scalar\">Scalar</a> + <a class=\"trait\" href=\"https://doc.rust-lang.org/nightly/core/fmt/trait.Pointer.html\" title=\"trait core::fmt::Pointer\">Pointer</a>,\n    S: <a class=\"trait\" href=\"nalgebra/base/storage/trait.RawStorage.html\" title=\"trait nalgebra::base::storage::RawStorage\">RawStorage</a>&lt;T, R, C&gt;,</div>") 3159 4154,
  Lexeme.mk (Token.punct ']') 4154 4155,
  Lexeme.mk (Token.punct ']') 4155 4156,
  Lexeme.mk (Token.punct ']') 4156 4157,
  Lexeme.mk (Token.punct ',') 4157 4158,
  Lexeme.mk (Token.punct '[') 4158 4159,
  Lexeme.mk (Token.str "wyz") 4159 4164,
  Lexeme.mk (Token.punct ',') 4164 4165,
  Lexeme.mk (Token.punct '[') 4165 4166,
  Lexeme.mk (Token.punct '[') 4166 4167,
  Lexeme.mk (Token.str "impl&lt;M, T&gt; <a class=\"trait\" href=\"https://doc.rust-lang.org/nightly/core/fmt/trait.Pointer.html\" title=\"trait core::fmt::Pointer\">Pointer</a> for <a class=\"struct\" href=\"wyz/comu/struct.Address.html\" title=\"struct wyz::comu::Address\">Address</a>&lt;M, T&gt;<div class=\"where\">where\n    M: <a class=\"trait\" href=\"wyz/comu/trait.Mutability.html\" title=\"trait wyz::comu::Mutability\">Mutability</a>,\n    T: ?<a class=\"trait\" href=\"https://doc.rust-lang.org/nightly/core/marker/trait.Sized.html\" title=\"trait core::marker::Sized\">Sized</a>,</div>") 4167 4744,
  Lexeme.mk (Token.punct ']') 4744 4745,
  Lexeme.mk (Token.punct ',') 4745 4746,
  Lexeme.mk (Token.punct '[') 4746 4747,
  Lexeme.mk (Token.str "impl&lt;T: <a class=\"trait\" href=\"https://doc.rust-lang.org/nightly/core/fmt/trait.Binary.html\" title=\"trait core::fmt::Binary\">Binary</a> + <a class=\"trait\" href=\"https://doc.rust-lang.org/nightly/core/fmt/trait.Pointer.html\" title=\"trait core::fmt::Pointer\">Pointer</a>&gt; <a class=\"trait\" href=\"https://doc.rust-lang.org/nightly/core/fmt/trait.Pointer.html\" title=\"trait core::fmt::Pointer\">Pointer</a> for <a class=\"struct\" href=\"wyz/fmt/struct.FmtBinary.html\" title=\"struct wyz::fmt::FmtBinary\">FmtBinary</a>&lt;T&gt;") 4747 5296,
  Lexeme.mk (Token.punct ']') 5296 5297,
  Lexeme.mk (Token.punct ',') 5297 5298,
  Lexeme.mk (Token.punct '[') 5298 5299,
  Lexeme.mk (Token.str "impl&lt;T: <a class=\"trait\" href=\"https://doc.rust-lang.org/nightly/core/fmt/trait.Display.html\" title=\"trait core::fmt::Display\">Display</a> + <a class=\"trait\" href=\"https://doc.rust-lang.org/nightly/core/fmt/trait.Pointer.html\" title=\"trait core::fmt::Pointer\">Pointer</a>&gt; <a class=\"trait\" href=\"https://doc.rust-lang.org/nightly/core/fmt/trait.Pointer.html\" title=\"trait core::fmt::Pointer\">Pointer</a> for <a class=\"struct\" href=\"wyz/fmt/struct.FmtDisplay.html\" title=\"struct wyz::fmt::FmtDisplay\">FmtDisplay</a>&lt;T&gt;") 5299 5854,
  Lexeme.mk (Token.punct ']') 5854 5855,
  Lexeme.mk (Token.punct ',') 5855 5856,
  Lexeme.mk (Token.punct '[') 5856 5857,
  Lexeme.mk (Token.str "impl&lt;T: <a class=\"trait\" href=\"https://doc.rust-lang.org/nightly/core/fmt/trait.LowerExp.html\" title=\"trait core::fmt::LowerExp\">LowerExp</a> + <a class=\"trait\" href=\"https://doc.rust-lang.org/nightly/core/fmt/trait.Pointer.html\" title=\"trait core::fmt::Pointer\">Pointer</a>&gt; <a class=\"trait\" href=\"https://doc.rust-lang.org/nightly/core/fmt/trait.Pointer.html\" title=\"trait core::fmt::Pointer\">Pointer</a> for <a class=\"struct\" href=\"wyz/fmt/struct.FmtLowerExp.html\" title=\"struct wyz::fmt::FmtLowerExp\">FmtLowerExp</a>&lt;T&gt;") 5857 6418,
  Lexeme.mk (Token.punct ']') 6418 6419,
  Lexeme.mk (Token.punct ',') 6419 6420,
  Lexeme.mk (Token.punct '[') 6420 6421,
  Lexeme.mk (Token.str "impl&lt;T: <a class=\"trait\" href=\"https://doc.rust-lang.org/nightly/core/fmt/trait.LowerHex.html\" title=\"trait core::fmt::LowerHex\">LowerHex</a> + <a class=\"trait\" href=\"https://doc.rust-lang.org/nightly/core/fmt/trait.Pointer.html\" title=\"trait core::fmt::Pointer\">Pointer</a>&gt; <a class=\"trait\" href=\"https://doc.rust-lang.org/nightly/core/fmt/trait.Pointer.html\" title=\"trait core::fmt::Pointer\">Pointer</a> for <a class=\"struct\" href=\"wyz/fmt/struct.FmtLowerHex.html\" title=\"struct wyz::fmt::FmtLowerHex\">FmtLowerHex</a>&lt;T&gt;") 6421 6982,
  Lexeme.mk (Token.punct ']') 6982 6983,
  Lexeme.mk (Token.punct ',') 6983 6984,
  Lexeme.mk (Token.punct '[') 6984 6985,
  Lexeme.mk (Token.str "impl&lt;T: <a class=\"trait\" href=\"https://doc.rust-lang.org/nightly/core/fmt/trait.Octal.html\" title=\"trait core::fmt::Octal\">Octal</a> + <a class=\"trait\" href=\"https://doc.rust-lang.org/nightly/core/fmt/trait.Pointer.html\" title=\"trait core::fmt::Pointer\">Pointer</a>&gt; <a class=\"trait\" href=\"https://doc.rust-lang.org/nightly/core/fmt/trait.Pointer.html\" title=\"trait core::fmt::Pointer\">Pointer</a> for <a class=\"struct\" href=\"wyz/fmt/struct.FmtOctal.html\" title=\"struct wyz::fmt::FmtOctal\">FmtOctal</a>&lt;T&gt;") 6985 7528,
  Lexeme.mk (Token.punct ']') 7528 7529,
  Lexeme.mk (Token.punct ',') 7529 7530,
  Lexeme.mk (Token.punct '[') 7530 7531,
  Lexeme.mk (Token.str "impl&lt;T: <a class=\"trait\" href=\"https://doc.rust-lang.org/nightly/core/fmt/trait.Pointer.html\" title=\"trait core::fmt::Pointer\">Pointer</a>&gt; <a class=\"trait\" href=\"https://doc.rust-lang.org/nightly/core/fmt/trait.Pointer.html\" title=\"trait core::fmt::Pointer\">Pointer</a> for <a class=\"struct\" href=\"wyz/fmt/struct.FmtPointer.html\" title=\"struct wyz::fmt::FmtPointer\">FmtPointer</a>&lt;T&gt;") 7531 7947,
  Lexeme.mk (Token.punct ']') 7947 7948,
  Lexeme.mk (Token.punct ',') 7948 7949,
  Lexeme.mk (Token.punct '[') 7949 7950,
  Lexeme.mk (Token.str "impl&lt;T: <a class=\"trait\" href=\"https://doc.rust-lang.org/nightly/core/fmt/trait.UpperExp.html\" title=\"trait core::fmt::UpperExp\">UpperExp</a> + <a class=\"trait\" href=\"https://doc.rust-lang.org/nightly/core/fmt/trait.Pointer.html\" title=\"trait core::fmt::Pointer\">Pointer</a>&gt; <a class=\"trait\" href=\"https://doc.rust-lang.org/nightly/core/fmt/trait.Pointer.html\" title=\"trait core::fmt::Pointer\">Pointer</a> for <a class=\"struct\" href=\"wyz/fmt/struct.FmtUpperExp.html\" title=\"struct wyz::fmt::FmtUpperExp\">FmtUpperExp</a>&lt;T&gt;") 7950 8511,
  Lexeme.mk (Token.punct ']') 8511 8512,
  Lexeme.mk (Token.punct ',') 8512 8513,
  Lexeme.mk (Token.punct '[') 8513 8514,
  Lexeme.mk (Token.str "impl&lt;T: <a class=\"trait\" href=\"https://doc.rust-lang.org/nightly/core/fmt/trait.UpperHex.html\" title=\"trait core::fmt::UpperHex\">UpperHex</a> + <a class=\"trait\" href=\"https://doc.rust-lang.org/nightly/core/fmt/trait.Pointer.html\" title=\"trait core::fmt::Pointer\">Pointer</a>&gt; <a class=\"trait\" href=\"https://doc.rust-lang.org/nightly/core/fmt/trait.Pointer.html\" title=\"trait core::fmt::Pointer\">Pointer</a> for <a class=\"struct\" href=\"wyz/fmt/struct.FmtUpperHex.html\" title=\"struct wyz::fmt::FmtUpperHex\">FmtUpperHex</a>&lt;T&gt;") 8514 9075,
  Lexeme.mk (Token.punct ']') 9075 9076,
  Lexeme.mk (Token.punct ']') 9076 9077,
  Lexeme.mk (Token.punct ']') 9077 9078,
  Lexeme.mk (Token.punct ']') 9078 9079,
  Lexeme.mk (Token.punct ')') 9079 9080,
  Lexeme.mk (Token.punct ';') 9080 9081,
  Lexeme.mk (Token.ident "if") 9086 9088,
  Lexeme.mk (Token.punct '(') 9089 9090,
  Lexeme.mk (Token.ident "window") 9090 9096,
  Lexeme.mk (Token.punct '.') 9096 9097,
  Lexeme.mk (Token.ident "register_implementors") 9097 9118,
  Lexeme.mk (Token.punct ')') 9118 9119,
  Lexeme.mk (Token.punct (Char.ofNat 123)) 9120 9121,
  Lexeme.mk (Token.ident "window") 9130 9136,
  Lexeme.mk (Token.punct '.') 9136 9137,
  Lexeme.mk (Token.ident "register_implementors") 9137 9158,
  Lexeme.mk (Token.punct '(') 9158 9159,
  Lexeme.mk (Token.ident "implementors") 9159 9171,
  Lexeme.mk (Token.punct ')') 9171 9172,
  Lexeme.mk (Token.punct ';') 9172 9173,
  Lexeme.mk (Token.punct (Char.ofNat 125)) 9178 9179,
  Lexeme.mk (Token.ident "else") 9180 9184,
  Lexeme.mk (Token.punct (Char.ofNat 123)) 9185 9186,
  Lexeme.mk (Token.ident "window") 9195 9201,
  Lexeme.mk (Token.punct '.') 9201 9202,
  Lexeme.mk (Token.ident "pending_implementors") 9202 9222,
  Lexeme.mk (Token.punct '=') 9223 9224,
  Lexeme.mk (Token.ident "implementors") 9225 9237,
  Lexeme.mk (Token.punct ';') 9237 9238,
  Lexeme.mk (Token.punct (Char.ofNat 125)) 9243 9244,
  Lexeme.mk (Token.punct (Char.ofNat 125)) 9245 9246,
  Lexeme.mk (Token.punct ')') 9246 9247,
  Lexeme.mk (Token.punct '(') 9247 9248,
  Lexeme.mk (Token.punct ')') 9248 9249,
  Lexeme.mk (Token.comment "\x7b\"start\":57,\"fragment_lengths\":[3087,1013,4921]\x7d") 9250 9300]

/-- Lexemes of `struct.Velocity.js`, as `lex` computes them from its text. -/
def velocityJsLexemes : List Lexeme := [
  Lexeme.mk (Token.punct '(') 0 1,
  Lexeme.mk (Token.ident "function") 1 9,
  Lexeme.mk (Token.punct '(') 9 10,
  Lexeme.mk (Token.punct ')') 10 11,
  Lexeme.mk (Token.punct (Char.ofNat 123)) 12 13,
  Lexeme.mk (Token.ident "var") 18 21,
  Lexeme.mk (Token.ident "type_impls") 22 32,
  Lexeme.mk (Token.punct '=') 33 34,
  Lexeme.mk (Token.ident "Object") 35 41,
  Lexeme.mk (Token.punct '.') 41 42,
  Lexeme.mk (Token.ident "fromEntries") 42 53,
  Lexeme.mk (Token.punct '(') 53 54,
  Lexeme.mk (Token.punct '[') 54 55,
  Lexeme.mk (Token.punct '[') 55 56,
  Lexeme.mk (Token.str "math") 56 62,
  Lexeme.mk (Token.punct ',') 62 63,
  Lexeme.mk (Token.punct '[') 63 64,
  Lexeme.mk (Token.punct '[') 64 65,
  Lexeme.mk (Token.str "<details class=\"toggle implementors-toggle\" open><summary><section id=\"impl-Controller-for-Velocity%3CC%3E\" class=\"impl\"><a class=\"src rightside\" href=\"src/math/lib.rs.html#189-203\">source</a><a href=\"#impl-Controller-for-Velocity%3CC%3E\" class=\"anchor\">§</a><h3 class=\"code-header\">impl&lt;C: <a class=\"trait\" href=\"math/trait.Controller.html\" title=\"trait math::Controller\">Controller</a>&lt;State = <a class=\"primitive\" href=\"https://doc.rust-lang.org/nightly/std/primitive.f32.html\">f32</a>&gt;&gt; <a class=\"trait\" href=\"math/trait.Controller.html\" title=\"trait math::Controller\">Controller</a> for <a class=\"struct\" href=\"math/struct.Velocity.html\" title=\"struct math::Velocity\">Velocity</a>&lt;C&gt;</h3></section></summary><div class=\"impl-items\"><section id=\"associatedtype.Output\" class=\"associatedtype trait-impl\"><a class=\"src rightside\" href=\"src/math/lib.rs.html#190\">source</a><a href=\"#associatedtype.Output\" class=\"anchor\">§</a><h4 class=\"code-header\">type <a href=\"math/trait.Controller.html#associatedtype.Output\" class=\"associatedtype\">Output</a> = &lt;C as <a class=\"trait\" href=\"math/trait.Controller.html\" title=\"trait math::Controller\">Controller</a>&gt;::<a class=\"associatedtype\" href=\"math/trait.Controller.html#associatedtype.Output\" title=\"type math::Controller::Output\">Output</a></h4></section><section id=\"associatedtype.State\" class=\"associatedtype trait-impl\"><a class=\"src rightside\" href=\"src/math/lib.rs.html#191\">source</a><a href=\"#associatedtype.State\" class=\"anchor\">§</a><h4 class=\"code-header\">type <a href=\"math/trait.Controller.html#associatedtype.State\" class=\"associatedtype\">State</a> = <a class=\"struct\" href=\"math/struct.State.html\" title=\"struct math::State\">State</a></h4></section><section id=\"method.calculate_with_time\" class=\"method trait-impl\"><a class=\"src rightside\" href=\"src/math/lib.rs.html#194-202\">source</a><a href=\"#method.calculate_with_time\" class=\"anchor\">§</a><h4 class=\"code-header\">fn <a href=\"math/trait.Controller.html#tymethod.calculate_with_time\" class=\"fn\">calculate_with_time</a>(\n    &amp;mut self,\n    current: &amp;<a class=\"struct\" href=\"math/struct.State.html\" title=\"struct math::State\">State</a>,\n    target: &amp;<a class=\"struct\" href=\"math/struct.State.html\" title=\"struct math::State\">State</a>,\n    time: <a class=\"struct\" href=\"https://doc.rust-lang.org/nightly/core/time/struct.Duration.html\" title=\"struct core::time::Duration\">Duration</a>,\n) -&gt; C::<a class=\"associatedtype\" href=\"math/trait.Controller.html#associatedtype.Output\" title=\"type math::Controller::Output\">Output</a></h4></section><section id=\"method.calculate\" class=\"method trait-impl\"><a class=\"src rightside\" href=\"src/math/lib.rs.html#89-91\">source</a><a href=\"#method.calculate\" class=\"anchor\">§</a><h4 class=\"code-header\">fn <a href=\"math/trait.Controller.html#method.calculate\" class=\"fn\">calculate</a>(\n    &amp;mut self,\n    current: &amp;Self::<a class=\"associatedtype\" href=\"math/trait.Controller.html#associatedtype.State\" title=\"type math::Controller::State\">State</a>,\n    target: &amp;Self::<a class=\"associatedtype\" href=\"math/trait.Controller.html#associatedtype.State\" title=\"type math::Controller::State\">State</a>,\n) -&gt; Self::<a class=\"associatedtype\" href=\"math/trait.Controller.html#associatedtype.Output\" title=\"type math::Controller::Output\">Output</a></h4></section></div></details>") 65 3624,
  Lexeme.mk (Token.punct ',') 3624 3625,
  Lexeme.mk (Token.str "Controller") 3625 3637,
  Lexeme.mk (Token.punct ',') 3637 3638,
  Lexeme.mk (Token.str "math::feedforward::Velocity") 3638 3667,
  Lexeme.mk (Token.punct ',') 3667 3668,
  Lexeme.mk (Token.str "math::feedforward::Acceleration") 3668 3701,
  Lexeme.mk (Token.punct ']') 3701 3702,
  Lexeme.mk (Token.punct ',') 3702 3703,
  Lexeme.mk (Token.punct '[') 3703 3704,
  Lexeme.mk (Token.str "<details class=\"toggle implementors-toggle\" open><summary><section id=\"impl-Default-for-Velocity%3CC%3E\" class=\"impl\"><a class=\"src rightside\" href=\"src/math/lib.rs.html#223-227\">source</a><a href=\"#impl-Default-for-Velocity%3CC%3E\" class=\"anchor\">§</a><h3 class=\"code-header\">impl&lt;C: <a class=\"trait\" href=\"https://doc.rust-lang.org/nightly/core/default/trait.Default.html\" title=\"trait core::default::Default\">Default</a>&gt; <a class=\"trait\" href=\"https://doc.rust-lang.org/nightly/core/default/trait.Default.html\" title=\"trait core::default::Default\">Default</a> for <a class=\"struct\" href=\"math/struct.Velocity.html\" title=\"struct math::Velocity\">Velocity</a>&lt;C&gt;</h3></section></summary><div class=\"impl-items\"><details class=\"toggle method-toggle\" open><summary><section id=\"method.default\" class=\"method trait-impl\"><a class=\"src rightside\" href=\"src/math/lib.rs.html#224-226\">source</a><a href=\"#method.default\" class=\"anchor\">§</a><h4 class=\"code-header\">fn <a href=\"https://doc.rust-lang.org/nightly/core/default/trait.Default.html#tymethod.default\" class=\"fn\">default</a>() -&gt; Self</h4></section></summary><div class='docblock'>Returns the “default value” for a type. <a href=\"https://doc.rust-lang.org/nightly/core/default/trait.Default.html#tymethod.default\">Read more</a></div></details></div></details>") 3704 5099,
  Lexeme.mk (Token.punct ',') 5099 5100,
  Lexeme.mk (Token.str "Default") 5100 5109,
  Lexeme.mk (Token.punct ',') 5109 5110,
  Lexeme.mk (Token.str "math::feedforward::Velocity") 5110 5139,
  Lexeme.mk (Token.punct ',') 5139 5140,
  Lexeme.mk (Token.str "math::feedforward::Acceleration") 5140 5173,
  Lexeme.mk (Token.punct ']') 5173 5174,
  Lexeme.mk (Token.punct ']') 5174 5175,
  Lexeme.mk (Token.punct ']') 5175 5176,
  Lexeme.mk (Token.punct ']') 5176 5177,
  Lexeme.mk (Token.punct ')') 5177 5178,
  Lexeme.mk (Token.punct ';') 5178 5179,
  Lexeme.mk (Token.ident "if") 5184 5186,
  Lexeme.mk (Token.punct '(') 5187 5188,
  Lexeme.mk (Token.ident "window") 5188 5194,
  Lexeme.mk (Token.punct '.') 5194 5195,
  Lexeme.mk (Token.ident "register_type_impls") 5195 5214,
  Lexeme.mk (Token.punct ')') 5214 5215,
  Lexeme.mk (Token.punct (Char.ofNat 123)) 5216 5217,
  Lexeme.mk (Token.ident "window") 5226 5232,
  Lexeme.mk (Token.punct '.') 5232 5233,
  Lexeme.mk (Token.ident "register_type_impls") 5233 5252,
  Lexeme.mk (Token.punct '(') 5252 5253,
  Lexeme.mk (Token.ident "type_impls") 5253 5263,
  Lexeme.mk (Token.punct ')') 5263 5264,
  Lexeme.mk (Token.punct ';') 5264 5265,
  Lexeme.mk (Token.punct (Char.ofNat 125)) 5270 5271,
  Lexeme.mk (Token.ident "else") 5272 5276,
  Lexeme.mk (Token.punct (Char.ofNat 123)) 5277 5278,
  Lexeme.mk (Token.ident "window") 5287 5293,
  Lexeme.mk (Token.punct '.') 5293 5294,
  Lexeme.mk (Token.ident "pending_type_impls") 5294 5312,
  Lexeme.mk (Token.punct '=') 5313 5314,
  Lexeme.mk (Token.ident "type_impls") 5315 5325,
  Lexeme.mk (Token.punct ';') 5325 5326,
  Lexeme.mk (Token.punct (Char.ofNat 125)) 5331 5332,
  Lexeme.mk (Token.punct (Char.ofNat 125)) 5333 5334,
  Lexeme.mk (Token.punct ')') 5334 5335,
  Lexeme.mk (Token.punct '(') 5335 5336,
  Lexeme.mk (Token.punct ')') 5336 5337,
  Lexeme.mk (Token.comment "\x7b\"start\":55,\"fragment_lengths\":[5121]\x7d") 5338 5378]

/-- Lexemes of `enum.EitherWriter.js`, as `lex` computes them from its text. -/
def eitherWriterJsLexemes : List Lexeme := [
  Lexeme.mk (Token.punct '(') 0 1,
  Lexeme.mk (Token.ident "function") 1 9,
  Lexeme.mk (Token.punct '(') 9 10,
  Lexeme.mk (Token.punct ')') 10 11,
  Lexeme.mk (Token.punct (Char.ofNat 123)) 12 13,
  Lexeme.mk (Token.ident "var") 18 21,
  Lexeme.mk (Token.ident "type_impls") 22 32,
  Lexeme.mk (Token.punct '=') 33 34,
  Lexeme.mk (Token.ident "Object") 35 41,
  Lexeme.mk (Token.punct '.') 41 42,
  Lexeme.mk (Token.ident "fromEntries") 42 53,
  Lexeme.mk (Token.punct '(') 53 54,
  Lexeme.mk (Token.punct '[') 54 55,
  Lexeme.mk (Token.punct '[') 55 56,
  Lexeme.mk (Token.str "tracing_subscriber") 56 76,
  Lexeme.mk (Token.punct ',') 76 77,
  Lexeme.mk (Token.punct '[') 77 78,
  Lexeme.mk (Token.punct '[') 78 79,
  Lexeme.mk (Token.str "<details class=\"toggle implementors-toggle\" open><summary><section id=\"impl-Clone-for-EitherWriter%3CA,+B%3E\" class=\"impl\"><a class=\"src rightside\" href=\"src/tracing_subscriber/fmt/writer.rs.html#552\">source</a><a href=\"#impl-Clone-for-EitherWriter%3CA,+B%3E\" class=\"anchor\">§</a><h3 class=\"code-header\">impl&lt;A: <a class=\"trait\" href=\"https://doc.rust-lang.org/nightly/core/clone/trait.Clone.html\" title=\"trait core::clone::Clone\">Clone</a>, B: <a class=\"trait\" href=\"https://doc.rust-lang.org/nightly/core/clone/trait.Clone.html\" title=\"trait core::clone::Clone\">Clone</a>&gt; <a class=\"trait\" href=\"https://doc.rust-lang.org/nightly/core/clone/trait.Clone.html\" title=\"trait core::clone::Clone\">Clone</a> for <a class=\"enum\" href=\"tracing_subscriber/fmt/writer/enum.EitherWriter.html\" title=\"enum tracing_subscriber::fmt::writer::EitherWriter\">EitherWriter</a>&lt;A, B&gt;</h3></section></summary><div class=\"impl-items\"><details class=\"toggle method-toggle\" open><summary><section id=\"method.clone\" class=\"method trait-impl\"><a class=\"src rightside\" href=\"src/tracing_subscriber/fmt/writer.rs.html#552\">source</a><a href=\"#method.clone\" class=\"anchor\">§</a><h4 class=\"code-header\">fn <a href=\"https://doc.rust-lang.org/nightly/core/clone/trait.Clone.html#tymethod.clone\" class=\"fn\">clone</a>(&amp;self) -&gt; <a class=\"enum\" href=\"tracing_subscriber/fmt/writer/enum.EitherWriter.html\" title=\"enum tracing_subscriber::fmt::writer::EitherWriter\">EitherWriter</a>&lt;A, B&gt; <a href=\"#\" class=\"tooltip\" data-notable-ty=\"EitherWriter&lt;A, B&gt;\">ⓘ</a></h4></section></summary><div class='docblock'>Returns a copy of the value. <a href=\"https://doc.rust-lang.org/nightly/core/clone/trait.Clone.html#tymethod.clone\">Read more</a></div></details><details class=\"toggle method-toggle\" open><summary><section id=\"method.clone_from\" class=\"method trait-impl\"><span class=\"rightside\"><span class=\"since\" title=\"Stable since Rust version 1.0.0\">1.0.0</span> · <a class=\"src\" href=\"https://doc.rust-lang.org/nightly/src/core/clone.rs.html#174\">source</a></span><a href=\"#method.clone_from\" class=\"anchor\">§</a><h4 class=\"code-header\">fn <a href=\"https://doc.rust-lang.org/nightly/core/clone/trait.Clone.html#method.clone_from\" class=\"fn\">clone_from</a>(&amp;mut self, source: &amp;Self)</h4></section></summary><div class='docblock'>Performs copy-assignment from <code>source</code>. <a href=\"https://doc.rust-lang.org/nightly/core/clone/trait.Clone.html#method.clone_from\">Read more</a></div></details></div></details>") 79 2705,
  Lexeme.mk (Token.punct ',') 2705 2706,
  Lexeme.mk (Token.str "Clone") 2706 2713,
  Lexeme.mk (Token.punct ',') 2713 2714,
  Lexeme.mk (Token.str "tracing_subscriber::fmt::writer::OptionalWriter") 2714 2763,
  Lexeme.mk (Token.punct ']') 2763 2764,
  Lexeme.mk (Token.punct ',') 2764 2765,
  Lexeme.mk (Token.punct '[') 2765 2766,
  Lexeme.mk (Token.str "<details class=\"toggle implementors-toggle\" open><summary><section id=\"impl-Debug-for-EitherWriter%3CA,+B%3E\" class=\"impl\"><a class=\"src rightside\" href=\"src/tracing_subscriber/fmt/writer.rs.html#552\">source</a><a href=\"#impl-Debug-for-EitherWriter%3CA,+B%3E\" class=\"anchor\">§</a><h3 class=\"code-header\">impl&lt;A: <a class=\"trait\" href=\"https://doc.rust-lang.org/nightly/core/fmt/trait.Debug.html\" title=\"trait core::fmt::Debug\">Debug</a>, B: <a class=\"trait\" href=\"https://doc.rust-lang.org/nightly/core/fmt/trait.Debug.html\" title=\"trait core::fmt::Debug\">Debug</a>&gt; <a class=\"trait\" href=\"https://doc.rust-lang.org/nightly/core/fmt/trait.Debug.html\" title=\"trait core::fmt::Debug\">Debug</a> for <a class=\"enum\" href=\"tracing_subscriber/fmt/writer/enum.EitherWriter.html\" title=\"enum tracing_subscriber::fmt::writer::EitherWriter\">EitherWriter</a>&lt;A, B&gt;</h3></section></summary><div class=\"impl-items\"><details class=\"toggle method-toggle\" open><summary><section id=\"method.fmt\" class=\"method trait-impl\"><a class=\"src rightside\" href=\"src/tracing_subscriber/fmt/writer.rs.html#552\">source</a><a href=\"#method.fmt\" class=\"anchor\">§</a><h4 class=\"code-header\">fn <a href=\"https://doc.rust-lang.org/nightly/core/fmt/trait.Debug.html#tymethod.fmt\" class=\"fn\">fmt</a>(&amp;self, f: &amp;mut <a class=\"struct\" href=\"https://doc.rust-lang.org/nightly/core/fmt/struct.Formatter.html\" title=\"struct core::fmt::Formatter\">Formatter</a>&lt;'_&gt;) -&gt; <a class=\"type\" href=\"https://doc.rust-lang.org/nightly/core/fmt/type.Result.html\" title=\"type core::fmt::Result\">Result</a></h4></section></summary><div class='docblock'>Formats the value using the given formatter. <a href=\"https://doc.rust-lang.org/nightly/core/fmt/trait.Debug.html#tymethod.fmt\">Read more</a></div></details></div></details>") 2766 4646,
  Lexeme.mk (Token.punct ',') 4646 4647,
  Lexeme.mk (Token.str "Debug") 4647 4654,
  Lexeme.mk (Token.punct ',') 4654 4655,
  Lexeme.mk (Token.str "tracing_subscriber::fmt::writer::OptionalWriter") 4655 4704,
  Lexeme.mk (Token.punct ']') 4704 4705,
  Lexeme.mk (Token.punct ',') 4705 4706,
  Lexeme.mk (Token.punct '[') 4706 4707,
  Lexeme.mk (Token.str "<details class=\"toggle implementors-toggle\" open><summary><section id=\"impl-PartialEq-for-EitherWriter%3CA,+B%3E\" class=\"impl\"><a class=\"src rightside\" href=\"src/tracing_subscriber/fmt/writer.rs.html#552\">source</a><a href=\"#impl-PartialEq-for-EitherWriter%3CA,+B%3E\" class=\"anchor\">§</a><h3 class=\"code-header\">impl&lt;A: <a class=\"trait\" href=\"https://doc.rust-lang.org/nightly/core/cmp/trait.PartialEq.html\" title=\"trait core::cmp::PartialEq\">PartialEq</a>, B: <a class=\"trait\" href=\"https://doc.rust-lang.org/nightly/core/cmp/trait.PartialEq.html\" title=\"trait core::cmp::PartialEq\">PartialEq</a>&gt; <a class=\"trait\" href=\"https://doc.rust-lang.org/nightly/core/cmp/trait.PartialEq.html\" title=\"trait core::cmp::PartialEq\">PartialEq</a> for <a class=\"enum\" href=\"tracing_subscriber/fmt/writer/enum.EitherWriter.html\" title=\"enum tracing_subscriber::fmt::writer::EitherWriter\">EitherWriter</a>&lt;A, B&gt;</h3></section></summary><div class=\"impl-items\"><details class=\"toggle method-toggle\" open><summary><section id=\"method.eq\" class=\"method trait-impl\"><a class=\"src rightside\" href=\"src/tracing_subscriber/fmt/writer.rs.html#552\">source</a><a href=\"#method.eq\" class=\"anchor\">§</a><h4 class=\"code-header\">fn <a href=\"https://doc.rust-lang.org/nightly/core/cmp/trait.PartialEq.html#tymethod.eq\" class=\"fn\">eq</a>(&amp;self, other: &amp;<a class=\"enum\" href=\"tracing_subscriber/fmt/writer/enum.EitherWriter.html\" title=\"enum tracing_subscriber::fmt::writer::EitherWriter\">EitherWriter</a>&lt;A, B&gt;) -&gt; <a class=\"primitive\" href=\"https://doc.rust-lang.org/nightly/std/primitive.bool.html\">bool</a></h4></section></summary><div class='docblock'>Tests for <code>self</code> and <code>other</code> values to be equal, and is used by <code>==</code>.</div></details><details class=\"toggle method-toggle\" open><summary><section id=\"method.ne\" class=\"method trait-impl\"><span class=\"rightside\"><span class=\"since\" title=\"Stable since Rust version 1.0.0\">1.0.0</span> · <a class=\"src\" href=\"https://doc.rust-lang.org/nightly/src/core/cmp.rs.html#261\">source</a></span><a href=\"#method.ne\" class=\"anchor\">§</a><h4 class=\"code-header\">fn <a href=\"https://doc.rust-lang.org/nightly/core/cmp/trait.PartialEq.html#method.ne\" class=\"fn\">ne</a>(&amp;self, other: <a class=\"primitive\" href=\"https://doc.rust-lang.org/nightly/std/primitive.reference.html\">&amp;Rhs</a>) -&gt; <a class=\"primitive\" href=\"https://doc.rust-lang.org/nightly/std/primitive.bool.html\">bool</a></h4></section></summary><div class='docblock'>Tests for <code>!=</code>. The default implementation is almost always sufficient,\nand should not be overridden without very good reason.</div></details></div></details>") 4707 7501,
  Lexeme.mk (Token.punct ',') 7501 7502,
  Lexeme.mk (Token.str "PartialEq") 7502 7513,
  Lexeme.mk (Token.punct ',') 7513 7514,
  Lexeme.mk (Token.str "tracing_subscriber::fmt::writer::OptionalWriter") 7514 7563,
  Lexeme.mk (Token.punct ']') 7563 7564,
  Lexeme.mk (Token.punct ',') 7564 7565,
  Lexeme.mk (Token.punct '[') 7565 7566,
  Lexeme.mk (Token.str "<details class=\"toggle implementors-toggle\" open><summary><section id=\"impl-Write-for-EitherWriter%3CA,+B%3E\" class=\"impl\"><a class=\"src rightside\" href=\"src/tracing_subscriber/fmt/writer.rs.html#832-876\">source</a><a href=\"#impl-Write-for-EitherWriter%3CA,+B%3E\" class=\"anchor\">§</a><h3 class=\"code-header\">impl&lt;A, B&gt; <a class=\"trait\" href=\"https://doc.rust-lang.org/nightly/std/io/trait.Write.html\" title=\"trait std::io::Write\">Write</a> for <a class=\"enum\" href=\"tracing_subscriber/fmt/writer/enum.EitherWriter.html\" title=\"enum tracing_subscriber::fmt::writer::EitherWriter\">EitherWriter</a>&lt;A, B&gt;<div class=\"where\">where\n    A: <a class=\"trait\" href=\"https://doc.rust-lang.org/nightly/std/io/trait.Write.html\" title=\"trait std::io::Write\">Write</a>,\n    B: <a class=\"trait\" href=\"https://doc.rust-lang.org/nightly/std/io/trait.Write.html\" title=\"trait std::io::Write\">Write</a>,</div></h3></section></summary><div class=\"impl-items\"><details class=\"toggle method-toggle\" open><summary><section id=\"method.write\" class=\"method trait-impl\"><a class=\"src rightside\" href=\"src/tracing_subscriber/fmt/writer.rs.html#838-843\">source</a><a href=\"#method.write\" class=\"anchor\">§</a><h4 class=\"code-header\">fn <a href=\"https://doc.rust-lang.org/nightly/std/io/trait.Write.html#tymethod.write\" class=\"fn\">write</a>(&amp;mut self, buf: &amp;[<a class=\"primitive\" href=\"https://doc.rust-lang.org/nightly/std/primitive.u8.html\">u8</a>]) -&gt; <a class=\"type\" href=\"https://doc.rust-lang.org/nightly/std/io/error/type.Result.html\" title=\"type std::io::error::Result\">Result</a>&lt;<a class=\"primitive\" href=\"https://doc.rust-lang.org/nightly/std/primitive.usize.html\">usize</a>&gt;</h4></section></summary><div class='docblock'>Writes a buffer into this writer, returning how many bytes were written. <a href=\"https://doc.rust-lang.org/nightly/std/io/trait.Write.html#tymethod.write\">Read more</a></div></details><details class=\"toggle method-toggle\" open><summary><section id=\"method.flush\" class=\"method trait-impl\"><a class=\"src rightside\" href=\"src/tracing_subscriber/fmt/writer.rs.html#846-851\">source</a><a href=\"#method.flush\" class=\"anchor\">§</a><h4 class=\"code-header\">fn <a href=\"https://doc.rust-lang.org/nightly/std/io/trait.Write.html#tymethod.flush\" class=\"fn\">flush</a>(&amp;mut self) -&gt; <a class=\"type\" href=\"https://doc.rust-lang.org/nightly/std/io/error/type.Result.html\" title=\"type std::io::error::Result\">Result</a>&lt;<a class=\"primitive\" href=\"https://doc.rust-lang.org/nightly/std/primitive.unit.html\">()</a>&gt;</h4></section></summary><div class='docblock'>Flushes this output stream, ensuring that all intermediately buffered\ncontents reach their destination. <a href=\"https://doc.rust-lang.org/nightly/std/io/trait.Write.html#tymethod.flush\">Read more</a></div></details><details class=\"toggle method-toggle\" open><summary><section id=\"method.write_vectored\" class=\"method trait-impl\"><a class=\"src rightside\" href=\"src/tracing_subscriber/fmt/writer.rs.html#854-859\">source</a><a href=\"#method.write_vectored\" class=\"anchor\">§</a><h4 class=\"code-header\">fn <a href=\"https://doc.rust-lang.org/nightly/std/io/trait.Write.html#method.write_vectored\" class=\"fn\">write_vectored</a>(&amp;mut self, bufs: &amp;[<a class=\"struct\" href=\"https://doc.rust-lang.org/nightly/std/io/struct.IoSlice.html\" title=\"struct std::io::IoSlice\">IoSlice</a>&lt;'_&gt;]) -&gt; <a class=\"type\" href=\"https://doc.rust-lang.org/nightly/std/io/error/type.Result.html\" title=\"type std::io::error::Result\">Result</a>&lt;<a class=\"primitive\" href=\"https://doc.rust-lang.org/nightly/std/primitive.usize.html\">usize</a>&gt;</h4></section></summary><div class='docblock'>Like <a href=\"https://doc.rust-lang.org/nightly/std/io/trait.Write.html#tymethod.write\" title=\"method std::io::Write::write\"><code>write</code></a>, except that it writes from a slice of buffers. <a href=\"https://doc.rust-lang.org/nightly/std/io/trait.Write.html#method.write_vectored\">Read more</a></div></details><details class=\"toggle method-toggle\" open><summary><section id=\"method.write_all\" class=\"method trait-impl\"><a class=\"src rightside\" href=\"src/tracing_subscriber/fmt/writer.rs.html#862-867\">source</a><a href=\"#method.write_all\" class=\"anchor\">§</a><h4 class=\"code-header\">fn <a href=\"https://doc.rust-lang.org/nightly/std/io/trait.Write.html#method.write_all\" class=\"fn\">write_all</a>(&amp;mut self, buf: &amp;[<a class=\"primitive\" href=\"https://doc.rust-lang.org/nightly/std/primitive.u8.html\">u8</a>]) -&gt; <a class=\"type\" href=\"https://doc.rust-lang.org/nightly/std/io/error/type.Result.html\" title=\"type std::io::error::Result\">Result</a>&lt;<a class=\"primitive\" href=\"https://doc.rust-lang.org/nightly/std/primitive.unit.html\">()</a>&gt;</h4></section></summary><div class='docblock'>Attempts to write an entire buffer into this writer. <a href=\"https://doc.rust-lang.org/nightly/std/io/trait.Write.html#method.write_all\">Read more</a></div></details><details class=\"toggle method-toggle\" open><summary><section id=\"method.write_fmt\" class=\"method trait-impl\"><a class=\"src rightside\" href=\"src/tracing_subscriber/fmt/writer.rs.html#870-875\">source</a><a href=\"#method.write_fmt\" class=\"anchor\">§</a><h4 class=\"code-header\">fn <a href=\"https://doc.rust-lang.org/nightly/std/io/trait.Write.html#method.write_fmt\" class=\"fn\">write_fmt</a>(&amp;mut self, fmt: <a class=\"struct\" href=\"https://doc.rust-lang.org/nightly/core/fmt/struct.Arguments.html\" title=\"struct core::fmt::Arguments\">Arguments</a>&lt;'_&gt;) -&gt; <a class=\"type\" href=\"https://doc.rust-lang.org/nightly/std/io/error/type.Result.html\" title=\"type std::io::error::Result\">Result</a>&lt;<a class=\"primitive\" href=\"https://doc.rust-lang.org/nightly/std/primitive.unit.html\">()</a>&gt;</h4></section></summary><div class='docblock'>Writes a formatted string into this writer, returning any error\nencountered. <a href=\"https://doc.rust-lang.org/nightly/std/io/trait.Write.html#method.write_fmt\">Read more</a></div></details><details class=\"toggle method-toggle\" open><summary><section id=\"method.is_write_vectored\" class=\"method trait-impl\"><a class=\"src rightside\" href=\"https://doc.rust-lang.org/nightly/src/std/io/mod.rs.html#1641\">source</a><a href=\"#method.is_write_vectored\" class=\"anchor\">§</a><h4 class=\"code-header\">fn <a href=\"https://doc.rust-lang.org/nightly/std/io/trait.Write.html#method.is_write_vectored\" class=\"fn\">is_write_vectored</a>(&amp;self) -&gt; <a class=\"primitive\" href=\"https://doc.rust-lang.org/nightly/std/primitive.bool.html\">bool</a></h4></section></summary><span class=\"item-info\"><div class=\"stab unstable\"><span class=\"emoji\">🔬</span><span>This is a nightly-only experimental API. (<code>can_vector</code>&nbsp;<a href=\"https://github.com/tokio-rs/tracing/issues/69941\">#69941</a>)</span></div></span><div class='docblock'>Determines if this <code>Write</code>r has an efficient <a href=\"https://doc.rust-lang.org/nightly/std/io/trait.Write.html#method.write_vectored\" title=\"method std::io::Write::write_vectored\"><code>write_vectored</code></a>\nimplementation. <a href=\"https://doc.rust-lang.org/nightly/std/io/trait.Write.html#method.is_write_vectored\">Read more</a></div></details><details class=\"toggle method-toggle\" open><summary><section id=\"method.write_all_vectored\" class=\"method trait-impl\"><a class=\"src rightside\" href=\"https://doc.rust-lang.org/nightly/src/std/io/mod.rs.html#1765\">source</a><a href=\"#method.write_all_vectored\" class=\"anchor\">§</a><h4 class=\"code-header\">fn <a href=\"https://doc.rust-lang.org/nightly/std/io/trait.Write.html#method.write_all_vectored\" class=\"fn\">write_all_vectored</a>(&amp;mut self, bufs: &amp;mut [<a class=\"struct\" href=\"https://doc.rust-lang.org/nightly/std/io/struct.IoSlice.html\" title=\"struct std::io::IoSlice\">IoSlice</a>&lt;'_&gt;]) -&gt; <a class=\"enum\" href=\"https://doc.rust-lang.org/nightly/core/result/enum.Result.html\" title=\"enum core::result::Result\">Result</a>&lt;<a class=\"primitive\" href=\"https://doc.rust-lang.org/nightly/std/primitive.unit.html\">()</a>, <a class=\"struct\" href=\"https://doc.rust-lang.org/nightly/std/io/error/struct.Error.html\" title=\"struct std::io::error::Error\">Error</a>&gt;</h4></section></summary><span class=\"item-info\"><div class=\"stab unstable\"><span class=\"emoji\">🔬</span><span>This is a nightly-only experimental API. (<code>write_all_vectored</code>&nbsp;<a href=\"https://github.com/tokio-rs/tracing/issues/70436\">#70436</a>)</span></div></span><div class='docblock'>Attempts to write multiple buffers into this writer. <a href=\"https://doc.rust-lang.org/nightly/std/io/trait.Write.html#method.write_all_vectored\">Read more</a></div></details><details class=\"toggle method-toggle\" open><summary><section id=\"method.by_ref\" class=\"method trait-impl\"><span class=\"rightside\"><span class=\"since\" title=\"Stable since Rust version 1.0.0\">1.0.0</span> · <a class=\"src\" href=\"https://doc.rust-lang.org/nightly/src/std/io/mod.rs.html#1878-1880\">source</a></span><a href=\"#method.by_ref\" class=\"anchor\">§</a><h4 class=\"code-header\">fn <a href=\"https://doc.rust-lang.org/nightly/std/io/trait.Write.html#method.by_ref\" class=\"fn\">by_ref</a>(&amp;mut self) -&gt; &amp;mut Self<div class=\"where\">where\n    Self: <a class=\"trait\" href=\"https://doc.rust-lang.org/nightly/core/marker/trait.Sized.html\" title=\"trait core::marker::Sized\">Sized</a>,</div></h4></section></summary><div class='docblock'>Creates a “by reference” adapter for this instance of <code>Write</code>. <a href=\"https://doc.rust-lang.org/nightly/std/io/trait.Write.html#method.by_ref\">Read more</a></div></details></div></details>") 7566 17520,
  Lexeme.mk (Token.punct ',') 17520 17521,
  Lexeme.mk (Token.str "Write") 17521 17528,
  Lexeme.mk (Token.punct ',') 17528 17529,
  Lexeme.mk (Token.str "tracing_subscriber::fmt::writer::OptionalWriter") 17529 17578,
  Lexeme.mk (Token.punct ']') 17578 17579,
  Lexeme.mk (Token.punct ',') 17579 17580,
  Lexeme.mk (Token.punct '[') 17580 17581,
  Lexeme.mk (Token.str "<section id=\"impl-Copy-for-EitherWriter%3CA,+B%3E\" class=\"impl\"><a class=\"src rightside\" href=\"src/tracing_subscriber/fmt/writer.rs.html#552\">source</a><a href=\"#impl-Copy-for-EitherWriter%3CA,+B%3E\" class=\"anchor\">§</a><h3 class=\"code-header\">impl&lt;A: <a class=\"trait\" href=\"https://doc.rust-lang.org/nightly/core/marker/trait.Copy.html\" title=\"trait core::marker::Copy\">Copy</a>, B: <a class=\"trait\" href=\"https://doc.rust-lang.org/nightly/core/marker/trait.Copy.html\" title=\"trait core::marker::Copy\">Copy</a>&gt; <a class=\"trait\" href=\"https://doc.rust-lang.org/nightly/core/marker/trait.Copy.html\" title=\"trait core::marker::Copy\">Copy</a> for <a class=\"enum\" href=\"tracing_subscriber/fmt/writer/enum.EitherWriter.html\" title=\"enum tracing_subscriber::fmt::writer::EitherWriter\">EitherWriter</a>&lt;A, B&gt;</h3></section>") 17581 18451,
  Lexeme.mk (Token.punct ',') 18451 18452,
  Lexeme.mk (Token.str "Copy") 18452 18458,
  Lexeme.mk (Token.punct ',') 18458 18459,
  Lexeme.mk (Token.str "tracing_subscriber::fmt::writer::OptionalWriter") 18459 18508,
  Lexeme.mk (Token.punct ']') 18508 18509,
  Lexeme.mk (Token.punct ',') 18509 18510,
  Lexeme.mk (Token.punct '[') 18510 18511,
  Lexeme.mk (Token.str "<section id=\"impl-Eq-for-EitherWriter%3CA,+B%3E\" class=\"impl\"><a class=\"src rightside\" href=\"src/tracing_subscriber/fmt/writer.rs.html#552\">source</a><a href=\"#impl-Eq-for-EitherWriter%3CA,+B%3E\" class=\"anchor\">§</a><h3 class=\"code-header\">impl&lt;A: <a class=\"trait\" href=\"https://doc.rust-lang.org/nightly/core/cmp/trait.Eq.html\" title=\"trait core::cmp::Eq\">Eq</a>, B: <a class=\"trait\" href=\"https://doc.rust-lang.org/nightly/core/cmp/trait.Eq.html\" title=\"trait core::cmp::Eq\">Eq</a>&gt; <a class=\"trait\" href=\"https://doc.rust-lang.org/nightly/core/cmp/trait.Eq.html\" title=\"trait core::cmp::Eq\">Eq</a> for <a class=\"enum\" href=\"tracing_subscriber/fmt/writer/enum.EitherWriter.html\" title=\"enum tracing_subscriber::fmt::writer::EitherWriter\">EitherWriter</a>&lt;A, B&gt;</h3></section>") 18511 19341,
  Lexeme.mk (Token.punct ',') 19341 19342,
  Lexeme.mk (Token.str "Eq") 19342 19346,
  Lexeme.mk (Token.punct ',') 19346 19347,
  Lexeme.mk (Token.str "tracing_subscriber::fmt::writer::OptionalWriter") 19347 19396,
  Lexeme.mk (Token.punct ']') 19396 19397,
  Lexeme.mk (Token.punct ',') 19397 19398,
  Lexeme.mk (Token.punct '[') 19398 19399,
  Lexeme.mk (Token.str "<section id=\"impl-StructuralPartialEq-for-EitherWriter%3CA,+B%3E\" class=\"impl\"><a class=\"src rightside\" href=\"src/tracing_subscriber/fmt/writer.rs.html#552\">source</a><a href=\"#impl-StructuralPartialEq-for-EitherWriter%3CA,+B%3E\" class=\"anchor\">§</a><h3 class=\"code-header\">impl&lt;A, B&gt; <a class=\"trait\" href=\"https://doc.rust-lang.org/nightly/core/marker/trait.StructuralPartialEq.html\" title=\"trait core::marker::StructuralPartialEq\">StructuralPartialEq</a> for <a class=\"enum\" href=\"tracing_subscriber/fmt/writer/enum.EitherWriter.html\" title=\"enum tracing_subscriber::fmt::writer::EitherWriter\">EitherWriter</a>&lt;A, B&gt;</h3></section>") 19399 20074,
  Lexeme.mk (Token.punct ',') 20074 20075,
  Lexeme.mk (Token.str "StructuralPartialEq") 20075 20096,
  Lexeme.mk (Token.punct ',') 20096 20097,
  Lexeme.mk (Token.str "tracing_subscriber::fmt::writer::OptionalWriter") 20097 20146,
  Lexeme.mk (Token.punct ']') 20146 20147,
  Lexeme.mk (Token.punct ']') 20147 20148,
  Lexeme.mk (Token.punct ']') 20148 20149,
  Lexeme.mk (Token.punct ']') 20149 20150,
  Lexeme.mk (Token.punct ')') 20150 20151,
  Lexeme.mk (Token.punct ';') 20151 20152,
  Lexeme.mk (Token.ident "if") 20157 20159,
  Lexeme.mk (Token.punct '(') 20160 20161,
  Lexeme.mk (Token.ident "window") 20161 20167,
  Lexeme.mk (Token.punct '.') 20167 20168,
  Lexeme.mk (Token.ident "register_type_impls") 20168 20187,
  Lexeme.mk (Token.punct ')') 20187 20188,
  Lexeme.mk (Token.punct (Char.ofNat 123)) 20189 20190,
  Lexeme.mk (Token.ident "window") 20199 20205,
  Lexeme.mk (Token.punct '.') 20205 20206,
  Lexeme.mk (Token.ident "register_type_impls") 20206 20225,
  Lexeme.mk (Token.punct '(') 20225 20226,
  Lexeme.mk (Token.ident "type_impls") 20226 20236,
  Lexeme.mk (Token.punct ')') 20236 20237,
  Lexeme.mk (Token.punct ';') 20237 20238,
  Lexeme.mk (Token.punct (Char.ofNat 125)) 20243 20244,
  Lexeme.mk (Token.ident "else") 20245 20249,
  Lexeme.mk (Token.punct (Char.ofNat 123)) 20250 20251,
  Lexeme.mk (Token.ident "window") 20260 20266,
  Lexeme.mk (Token.punct '.') 20266 20267,
  Lexeme.mk (Token.ident "pending_type_impls") 20267 20285,
  Lexeme.mk (Token.punct '=') 20286 20287,
  Lexeme.mk (Token.ident "type_impls") 20288 20298,
  Lexeme.mk (Token.punct ';') 20298 20299,
  Lexeme.mk (Token.punct (Char.ofNat 125)) 20304 20305,
  Lexeme.mk (Token.punct (Char.ofNat 125)) 20306 20307,
  Lexeme.mk (Token.punct ')') 20307 20308,
  Lexeme.mk (Token.punct '(') 20308 20309,
  Lexeme.mk (Token.punct ')') 20309 20310,
  Lexeme.mk (Token.comment "\x7b\"start\":55,\"fragment_lengths\":[20094]\x7d") 20311 20352]

/-- Lexemes of `futures_concurrency-desc-0-.js`, as `lex` computes them from its text. -/
def descShardJsLexemes : List Lexeme := [
  Lexeme.mk (Token.ident "searchState") 0 11,
  Lexeme.mk (Token.punct '.') 11 12,
  Lexeme.mk (Token.ident "loadedDescShard") 12 27,
  Lexeme.mk (Token.punct '(') 27 28,
  Lexeme.mk (Token.str "futures_concurrency") 28 49,
  Lexeme.mk (Token.punct ',') 49 50,
  Lexeme.mk (Token.num 0) 51 52,
  Lexeme.mk (Token.punct ',') 52 53,
  Lexeme.mk (Token.str "Performant, portable, structured concurrency operations …\nHelper functions and types for fixed-length arrays.\nConcurrent execution of streams\nAsynchronous basic functionality.\nThe futures concurrency prelude.\nComposable asynchronous iteration.\nParallel iterator types for vectors (<code>Vec&lt;T&gt;</code>)\nA collection of errors.\nA stream that chains multiple streams one after another.\nA future which waits for two similarly-typed futures to …\nA stream that merges multiple streams into a single stream.\nA future which waits for the first future to complete.\nA future which waits for the first successful future to …\nA future which waits for all futures to complete …\nA stream that ‘zips up’ multiple streams into a single …\nReturns the argument unchanged.\nReturns the argument unchanged.\nReturns the argument unchanged.\nReturns the argument unchanged.\nReturns the argument unchanged.\nReturns the argument unchanged.\nReturns the argument unchanged.\nReturns the argument unchanged.\nCalls <code>U::from(self)</code>.\nCalls <code>U::from(self)</code>.\nCalls <code>U::from(self)</code>.\nCalls <code>U::from(self)</code>.\nCalls <code>U::from(self)</code>.\nCalls <code>U::from(self)</code>.\nCalls <code>U::from(self)</code>.\nCalls <code>U::from(self)</code>.\nThe consumer is done making progress, and the <code>finish</code> …\nConcurrently operate over items in a stream\nDescribes a type which can receive data.\nThe state of the consumer, used to communicate back to the …\nThe consumer is ready to keep making progress.\nThe consumer currently holds no values and should not be …\nA concurrent iterator that yields the current count and …\nConversion from a <code>ConcurrentStream</code>\nA concurrent for each implementation from a <code>Stream</code>\nWhat’s the type of the future containing our items?\nConversion into a <code>ConcurrentStream</code>\nWhich kind of iterator are we turning this into?\nThe type of the elements being iterated over.\nWhich item will we be yielding?\nA concurrent iterator that limits the amount of …\nConvert items from one type into another\nWhat is the type of the item we’re returning when …\nA concurrent iterator that only iterates over the first <code>n</code> …\nTransforms an iterator into a collection.\nHow much concurrency should we apply?\nInternal method used to define the behavior of this …\nCreates a stream which gives the current iteration count …\nWe have no more data left to send to the <code>Consumer</code>; wait …\nIterate over each item concurrently\nReturns the argument unchanged.\nReturns the argument unchanged.\nReturns the argument unchanged.\nReturns the argument unchanged.\nReturns the argument unchanged.\nReturns the argument unchanged.\nCreates a value from a concurrent iterator.\nCalls <code>U::from(self)</code>.\nCalls <code>U::from(self)</code>.\nCalls <code>U::from(self)</code>.\nCalls <code>U::from(self)</code>.\nCalls <code>U::from(self)</code>.\nCalls <code>U::from(self)</code>.\nConvert <code>self</code> into a concurrent iterator.\nObtain a simple pass-through adapter.\nConvert items from one type into another\nMake progress on the consumer while doing something else.\nSend an item down to the next step in the processing queue.\nHow many items could we potentially end up returning?\nCreates a stream that yields the first <code>n</code> elements, or …\nIterate over each item concurrently, short-circuit on …\nThe resulting error type.\nThe resulting error type.\nThe <code>Future</code> implementation returned by this method.\nWhich kind of future are we turning this into?\nWhich kind of future are we turning this into?\nWhich kind of future are we turning this into?\nAn extension trait for the <code>Future</code> trait.\nA growable group of futures which act as a single unit.\nWait for all futures to complete.\nThe resulting output type.\nThe resulting output type.\nThe resulting output type.\nThe resulting output type.\nWait for the first future to complete.\nWait for the first successful future to complete.\nWait for all futures to complete successfully, or abort …\nSuspends a future until the specified deadline.\nReturns the argument unchanged.\nReturns the argument unchanged.\nA growable group of futures which act as a single unit.\nCalls <code>U::from(self)</code>.\nCalls <code>U::from(self)</code>.\nWait for both futures to complete.\nWaits for multiple futures to complete.\nWait for the first future to complete.\nWait for the first future to complete.\nWaits for the first successful future to complete.\nWaits for multiple futures to complete, either returning …\nDelay resolving the future until the given deadline.\nDelay resolving the future until the given deadline.\nA growable group of futures which act as a single unit.\nA key used to index into the <code>FutureGroup</code> type.\nIterate over items in the futures group with their …\nReturn the capacity of the <code>FutureGroup</code>.\nReturns <code>true</code> if the <code>FutureGroup</code> contains a value for the …\nReturns the argument unchanged.\nReturns the argument unchanged.\nInsert a new future into the group.\nCalls <code>U::from(self)</code>.\nCalls <code>U::from(self)</code>.\nReturns true if there are no futures currently active in …\nCreate a stream which also yields the key of each item.\nReturn the number of futures currently active in the group.\nCreate a new instance of <code>FutureGroup</code>.\nRemoves a stream from the group. Returns whether the value …\nReserves capacity for <code>additional</code> more futures to be …\nCreate a new instance of <code>FutureGroup</code> with a given capacity.\nTakes multiple streams and creates a new stream over all …\nConversion into a <code>Stream</code>.\nWhich kind of stream are we turning this into?\nWhat’s the return type of our stream?\nThe type of the elements being iterated over.\nThe resulting output type.\nWhat’s the return type of our stream?\nCombines multiple streams into a single stream of all …\nWhat stream do we return?\nThe stream type.\nWhat stream do we return?\nAn extension trait for the <code>Stream</code> trait.\nA growable group of streams which act as a single unit.\nDelay execution of a stream once for the specified …\n‘Zips up’ multiple streams into a single stream of …\nCombine multiple streams into a single stream.\nTakes two streams and creates a new stream over all in …\nConvert into a concurrent stream.\nConvert into a concurrent stream.\nReturns the argument unchanged.\nReturns the argument unchanged.\nCalls <code>U::from(self)</code>.\nCalls <code>U::from(self)</code>.\nCreates a stream from a value.\nCombine multiple streams into a single stream.\nCombines two streams into a single stream of all their …\nA growable group of streams which act as a single unit.\nDelay the yielding of items from the stream until the …\nDelay the yielding of items from the stream until the …\n‘Zips up’ multiple streams into a single stream of …\nCombine multiple streams into a single stream.\nA key used to index into the <code>StreamGroup</code> type.\nIterate over items in the stream group with their …\nA growable group of streams which act as a single unit.\nReturn the capacity of the <code>StreamGroup</code>.\nReturns <code>true</code> if the <code>StreamGroup</code> contains a value for the …\nReturns the argument unchanged.\nReturns the argument unchanged.\nInsert a new future into the group.\nCalls <code>U::from(self)</code>.\nCalls <code>U::from(self)</code>.\nReturns true if there are no futures currently active in …\nCreate a stream which also yields the key of each item.\nReturn the number of futures currently active in the group.\nCreate a new instance of <code>StreamGroup</code>.\nRemoves a stream from the group. Returns whether the value …\nReserves capacity for <code>additional</code> more streams to be …\nCreate a new instance of <code>StreamGroup</code> with a given capacity.\nA collection of errors.\nA stream that chains multiple streams one after another.\nConcurrent async iterator that moves out of a vector.\nA future which waits for multiple futures to complete.\nA stream that merges multiple streams into a single stream.\nA future which waits for the first future to complete.\nA future which waits for the first successful future to …\nA future which waits for all futures to complete …\nA stream that ‘zips up’ multiple streams into a single …\nReturns the argument unchanged.\nReturns the argument unchanged.\nReturns the argument unchanged.\nReturns the argument unchanged.\nReturns the argument unchanged.\nReturns the argument unchanged.\nReturns the argument unchanged.\nReturns the argument unchanged.\nReturns the argument unchanged.\nCalls <code>U::from(self)</code>.\nCalls <code>U::from(self)</code>.\nCalls <code>U::from(self)</code>.\nCalls <code>U::from(self)</code>.\nCalls <code>U::from(self)</code>.\nCalls <code>U::from(self)</code>.\nCalls <code>U::from(self)</code>.\nCalls <code>U::from(self)</code>.\nCalls <code>U::from(self)</code>.") 54 9188,
  Lexeme.mk (Token.punct ')') 9188 9189]

/-! ## Comparing lexemes

Equality tests that return a `Bool` and recurse in tail position, so that the
kernel checks long token lists without deep recursion. -/

/-- Equality test on lists of characters. -/
def charsBEq : List Char → List Char → Bool
  | [], [] => true
  | a :: as, b :: bs => a == b && charsBEq as bs
  | _, _ => false

/-- Equality test on tokens. -/
def tokenBEq : Token → Token → Bool
  | .punct a, .punct b => a == b
  | .ident a, .ident b => charsBEq a.data b.data
  | .num a, .num b => a == b
  | .str a, .str b => charsBEq a.data b.data
  | .comment a, .comment b => charsBEq a.data b.data
  | .bad, .bad => true
  | _, _ => false

/-- Equality test on lists of lexemes. -/
def lexemesBEq : List Lexeme → List Lexeme → Bool
  | [], [] => true
  | a :: as, b :: bs =>
    a.pos == b.pos && a.stop == b.stop && tokenBEq a.tok b.tok && lexemesBEq as bs
  | _, _ => false

/-! ## Array literals -/

/-- Values an array literal of the files holds: strings, numbers, arrays. -/
inductive JVal where
  | str (s : String)
  | num (n : Nat)
  | arr (xs : List JVal)

/-- The string a value is, if it is one. -/
def JVal.asStr : JVal → Option String
  | .str s => some s
  | _ => none

/-- The number a value is, if it is one. -/
def JVal.asNum : JVal → Option Nat
  | .num n => some n
  | _ => none

/-- The elements of a value, if it is an array. -/
def JVal.asArr : JVal → Option (List JVal)
  | .arr xs => some xs
  | _ => none

/-- All the values of a list of options, if none is missing. -/
def allSome {α : Type} : List (Option α) → Option (List α)
  | [] => some []
  | none :: _ => none
  | some a :: rest =>
    match allSome rest with
    | some as => some (a :: as)
    | none => none

/-- Reads one array literal off the front of `ls`, which starts with its
opening bracket.  `stack` holds the elements read so far of every array that
is still open, innermost first and each last element first; `afterValue`
says that the last token closed a value, so that a comma or a closing bracket
must follow.  Returns the array and the lexemes after it. -/
def readArray : List (List JVal) → Bool → List Lexeme → Option (JVal × List Lexeme)
  | _, _, [] => none
  | stack, afterValue, l :: ls =>
    match l.tok with
    | .str s =>
      match stack, afterValue with
      | top :: rest, false => readArray ((.str s :: top) :: rest) true ls
      | _, _ => none
    | .num n =>
      match stack, afterValue with
      | top :: rest, false => readArray ((.num n :: top) :: rest) true ls
      | _, _ => none
    | .punct c =>
      if c == '[' then
        if afterValue then none else readArray ([] :: stack) false ls
      else if c == ',' then
        match stack, afterValue with
        | _ :: _, true => readArray stack false ls
        | _, _ => none
      else if c == ']' then
        match stack with
        | [] => none
        | [top] => some (.arr top.reverse, ls)
        | top :: next :: rest => readArray ((.arr top.reverse :: next) :: rest) true ls
      else none
    | _ => none

/-- An entry of a table: the strings of one inner array (the HTML fragment
first; in the `type.impl` files the trait name and the type paths after it). -/
abbrev Entry := List String

/-- A table: crate names with their entries, in order. -/
abbrev Table := List (String × List Entry)

/-- The entry a value is: an array of strings. -/
def asEntry (v : JVal) : Option Entry :=
  match v with
  | .arr xs => allSome (xs.map JVal.asStr)
  | _ => none

/-- The pair of a crate name and its entries a value is. -/
def asCrate (v : JVal) : Option (String × List Entry) :=
  match v with
  | .arr [.str k, .arr es] =>
    match allSome (es.map asEntry) with
    | some entries => some (k, entries)
    | none => none
  | _ => none

/-- The list of pairs a value is: the argument of `Object.fromEntries`. -/
def asPairs (v : JVal) : Option Table :=
  match v with
  | .arr cs => allSome (cs.map asCrate)
  | _ => none

/-- Sets property `k` of an object to `v`: an existing property keeps its
place, a new one goes last. -/
def setKey {α : Type} (k : String) (v : α) : List (String × α) → List (String × α)
  | [] => [(k, v)]
  | (k', v') :: rest => if k' = k then (k, v) :: rest else (k', v') :: setKey k v rest

/-- The `Object.fromEntries` of JavaScript on a list of key-value pairs: the
object that has each key, with the value of the last pair that names it. -/
def fromEntries {α : Type} (pairs : List (String × α)) : List (String × α) :=
  pairs.foldl (fun o p => setKey p.1 p.2 o) []

/-! ## Byte spans of the crate entries -/

/-- Byte lengths of the elements of an array literal, and the offset of its
closing bracket.  `depth` counts the open brackets (1 inside the array
itself); `start` is the offset at which the current element began, which is
where the one before it stopped, so that an element counts the comma in front
of it. -/
def fragmentsAux : Nat → Nat → List Lexeme → Option (List Nat × Nat)
  | _, _, [] => none
  | depth, start, l :: ls =>
    match l.tok with
    | .punct c =>
      if c == '[' then fragmentsAux (depth + 1) start ls
      else if c == ']' then
        if depth ≤ 1 then some ([], l.pos)
        else if depth == 2 then
          match fragmentsAux 1 l.stop ls with
          | some (lens, close) => some ((l.stop - start) :: lens, close)
          | none => none
        else fragmentsAux (depth - 1) start ls
      else fragmentsAux depth start ls
    | .str _ =>
      if depth == 1 then
        match fragmentsAux 1 l.stop ls with
        | some (lens, close) => some ((l.stop - start) :: lens, close)
        | none => none
      else fragmentsAux depth start ls
    | .num _ =>
      if depth == 1 then
        match fragmentsAux 1 l.stop ls with
        | some (lens, close) => some ((l.stop - start) :: lens, close)
        | none => none
      else fragmentsAux depth start ls
    | _ => none

/-- Position of the elements of a file's entry list. -/
structure Fragments where
  /-- Byte offset of the first byte of the first element. -/
  start : Nat
  /-- Byte length of each element, in order. -/
  lengths : List Nat
  /-- Byte offset of the bracket that closes the list. -/
  close : Nat
  deriving DecidableEq, Repr

/-- Where the elements of the first array literal among `ls` lie. -/
def fragmentsOf : List Lexeme → Option Fragments
  | [] => none
  | l :: ls =>
    if l.tok = .punct '[' then
      match ls with
      | [] => none
      | first :: _ =>
        match fragmentsAux 1 first.pos ls with
        | some (lens, close) => some ⟨first.pos, lens, close⟩
        | none => none
    else fragmentsOf ls

/-! ## The shape of the scripts -/

/-- The opening brace. -/
def lbrace : Char := Char.ofNat 123

/-- The closing brace. -/
def rbrace : Char := Char.ofNat 125

/-- Strips the tokens `ts` off the front of `ls`, if `ls` starts with them. -/
def expect : List Token → List Lexeme → Option (List Lexeme)
  | [], ls => some ls
  | _ :: _, [] => none
  | t :: ts, l :: ls => if l.tok = t then expect ts ls else none

/-- Reads one identifier off the front of `ls`. -/
def readIdent : List Lexeme → Option (String × List Lexeme)
  | l :: ls =>
    match l.tok with
    | .ident s => some (s, ls)
    | _ => none
  | [] => none

/-- The numbers of an array of numbers. -/
def asNums (v : JVal) : Option (List Nat) :=
  match v with
  | .arr xs => allSome (xs.map JVal.asNum)
  | _ => none

/-- The trailing comment of an implementation table, whose text is
`{"start":N,"fragment_lengths":[N,…]}`. -/
structure Trailer where
  start : Nat
  fragment_lengths : List Nat
  deriving DecidableEq, Repr

/-- Reads the text of a trailing comment. -/
def readTrailer (text : String) : Option Trailer :=
  match expect [.punct lbrace, .str "start", .punct ':'] (lex text) with
  | some (l :: ls) =>
    match l.tok, expect [.punct ',', .str "fragment_lengths", .punct ':'] ls with
    | .num start, some ls =>
      match readArray [] false ls with
      | some (v, [close]) =>
        match asNums v with
        | some lens => if close.tok = .punct rbrace then some ⟨start, lens⟩ else none
        | none => none
      | _ => none
    | _, _ => none
  | _ => none

/-- An implementation-table script:
```
(function() {
    var V = Object.fromEntries(PAIRS);
    if (window.R) {
        window.R(V);
    } else {
        window.P = V;
    }
})()
//TRAILER
```
-/
structure ImplScript where
  /-- The variable `V`: `implementors` or `type_impls`. -/
  var : String
  /-- The list of pairs given to `Object.fromEntries`. -/
  pairs : Table
  /-- The property `R` of `window` that is tested and called. -/
  registrar : String
  /-- The property `P` of `window` that is assigned. -/
  pending : String
  /-- The trailing comment. -/
  trailer : Trailer

/-- Tokens of `(function() { var`. -/
def tokensOpen : List Token :=
  [.punct '(', .ident "function", .punct '(', .punct ')', .punct lbrace, .ident "var"]

/-- Tokens of `= Object.fromEntries(`. -/
def tokensFromEntries : List Token :=
  [.punct '=', .ident "Object", .punct '.', .ident "fromEntries", .punct '(']

/-- Tokens of `); if (window.`. -/
def tokensIf : List Token :=
  [.punct ')', .punct ';', .ident "if", .punct '(', .ident "window", .punct '.']

/-- Tokens of `) { window.R(V); } else { window.`. -/
def tokensCall (r v : String) : List Token :=
  [.punct ')', .punct lbrace, .ident "window", .punct '.', .ident r, .punct '(', .ident v,
    .punct ')', .punct ';', .punct rbrace, .ident "else", .punct lbrace, .ident "window",
    .punct '.']

/-- Tokens of `= V; } })()`. -/
def tokensClose (v : String) : List Token :=
  [.punct '=', .ident v, .punct ';', .punct rbrace, .punct rbrace, .punct ')', .punct '(',
    .punct ')']

/-- Reads the trailing comment that ends a script. -/
def readLastComment : List Lexeme → Option Trailer
  | [l] =>
    match l.tok with
    | .comment text => readTrailer text
    | _ => none
  | _ => none

/-- Reads an implementation-table script from its lexemes. -/
def readImplScript (ls : List Lexeme) : Option ImplScript := do
  let ls ← expect tokensOpen ls
  let (v, ls) ← readIdent ls
  let ls ← expect tokensFromEntries ls
  let (lit, ls) ← readArray [] false ls
  let pairs ← asPairs lit
  let ls ← expect tokensIf ls
  let (r, ls) ← readIdent ls
  let ls ← expect (tokensCall r v) ls
  let (p, ls) ← readIdent ls
  let ls ← expect (tokensClose v) ls
  let trailer ← readLastComment ls
  pure ⟨v, pairs, r, p, trailer⟩

/-- A search-description script: `O.M(CRATE, SHARD, TEXT)`. -/
structure DescScript where
  /-- The global `O`: `searchState`. -/
  object : String
  /-- The method `M`: `loadedDescShard`. -/
  method : String
  /-- The first argument, a crate name. -/
  crate : String
  /-- The second argument, the number of the shard. -/
  shard : Nat
  /-- The third argument, the descriptions. -/
  text : String

/-- Reads a search-description script from its lexemes. -/
def readDescScript (ls : List Lexeme) : Option DescScript := do
  let (o, ls) ← readIdent ls
  let ls ← expect [.punct '.'] ls
  let (m, ls) ← readIdent ls
  let ls ← expect [.punct '('] ls
  match ls with
  | [a, c1, b, c2, c, close] =>
    match a.tok, c1.tok, b.tok, c2.tok, c.tok, close.tok with
    | .str crate, .punct c1, .num shard, .punct c2, .str text, .punct cl =>
      if c1 == ',' && c2 == ',' && cl == ')' then pure ⟨o, m, crate, shard, text⟩ else none
    | _, _, _, _, _, _ => none
  | _ => none

/-- The empty script, which stands for a file that does not have the shape. -/
def ImplScript.empty : ImplScript := ⟨"", [], "", "", ⟨0, []⟩⟩

/-- The empty script, which stands for a file that does not have the shape. -/
def DescScript.empty : DescScript := ⟨"", "", "", 0, ""⟩

/-- The script `trait.impl/core/fmt/trait.Pointer.js`. -/
@[irreducible] def pointerScript : ImplScript := (readImplScript (lex pointerJs)).getD ImplScript.empty

/-- The script `type.impl/math/struct.Velocity.js`. -/
@[irreducible] def velocityScript : ImplScript := (readImplScript (lex velocityJs)).getD ImplScript.empty

/-- The script `type.impl/tracing_subscriber/fmt/writer/enum.EitherWriter.js`. -/
@[irreducible] def eitherWriterScript : ImplScript :=
  (readImplScript (lex eitherWriterJs)).getD ImplScript.empty

/-- The script `search.desc/futures_concurrency/futures_concurrency-desc-0-.js`. -/
@[irreducible] def descShardScript : DescScript := (readDescScript (lex descShardJs)).getD DescScript.empty

/-! ## The browser -/

/-- Values of the page's JavaScript. -/
inductive Val where
  | undefined
  | null
  | bool (b : Bool)
  | num (n : Nat)
  | str (s : String)
  /-- The object `Object.fromEntries` builds from a list of pairs. -/
  | table (t : Table)
  /-- The array of entries such an object holds under a crate name. -/
  | entries (es : List Entry)
  /-- Another object, by reference; object 0 is `window`. -/
  | obj (ref : Nat)
  /-- A function, by reference; objects and functions share the numbering. -/
  | fn (id : Nat)
  deriving DecidableEq

/-- The test of `if (v)`: `undefined`, `null`, `false`, `0` and `""` fail it,
every object and function passes it. -/
def Val.truthy : Val → Bool
  | .undefined => false
  | .null => false
  | .bool b => b
  | .num n => n != 0
  | .str s => s != ""
  | .table _ => true
  | .entries _ => true
  | .obj _ => true
  | .fn _ => true

/-- The global state of a page: the properties of `window`, which are the
global variables, and the properties of the other objects and of the
functions, by reference.  `none` stands for a property that does not exist.
(Prototypes are left out: an object has the properties it holds itself.) -/
structure State where
  window : String → Option Val
  props : Nat → String → Option Val

/-- Reads `window.name`: `undefined` when the property does not exist. -/
def State.get (s : State) (name : String) : Val :=
  (s.window name).getD .undefined

/-- Performs `window.name = v`. -/
def State.set (s : State) (name : String) (v : Val) : State :=
  { s with window := fun k => if k = name then some v else s.window k }

/-- The errors a script stops with. -/
inductive JsError where
  /-- A global variable that does not exist was read. -/
  | referenceError (name : String)
  /-- A property of `undefined` or `null` was read, or a value that is not a
  function was called. -/
  | typeError (name : String)
  /-- A called function threw `v`. -/
  | thrown (v : Val)
  deriving DecidableEq

/-- What the functions of the page do: `call id this args s` is the state
function `id` leaves when called with `this` and `args` in state `s`, and the
value it throws, if it throws. -/
structure Host where
  call : Nat → Val → List Val → State → State × Option Val

/-- A call a script made: the function, and the arguments it passed. -/
structure Call where
  callee : Nat
  args : List Val
  deriving DecidableEq

/-- What running a script did. -/
structure Outcome where
  /-- The state the script left. -/
  state : State
  /-- The error the script stopped with, if it did. -/
  error : Option JsError
  /-- The calls the script itself made, in order. -/
  calls : List Call
  /-- The assignments `window.name = v` the script itself made, in order. -/
  writes : List (String × Val)

/-- Evaluates the call `f(args)` with receiver `this`: a `TypeError` when
`f` is not a function. -/
def callVal (h : Host) (name : String) (f this : Val) (args : List Val) (s : State) : Outcome :=
  match f with
  | .fn id =>
    let r := h.call id this args s
    ⟨r.1, r.2.map JsError.thrown, [⟨id, args⟩], []⟩
  | _ => ⟨s, some (.typeError name), [], []⟩

/-- The object `window` as a value: object 0. -/
def windowObj : Val := .obj 0

/-- Runs an implementation-table script in state `s`:
```
var V = Object.fromEntries(PAIRS);
if (window.R) { window.R(V); } else { window.P = V; }
```
-/
def ImplScript.run (sc : ImplScript) (h : Host) (s : State) : Outcome :=
  let v := Val.table (fromEntries sc.pairs)
  if (s.get sc.registrar).truthy then
    callVal h sc.registrar (s.get sc.registrar) windowObj [v] s
  else
    ⟨s.set sc.pending v, none, [], [(sc.pending, v)]⟩

/-- The value a table holds under `name`. -/
def lookupKey (name : String) : Table → Val
  | [] => .undefined
  | (k, es) :: rest => if k = name then .entries es else lookupKey name rest

/-- Reads property `name` of value `o`: `none` for `undefined` and `null`,
where reading a property is a `TypeError`; the properties of `window` for
object 0; `undefined` for a property that does not exist. -/
def State.prop (s : State) (o : Val) (name : String) : Option Val :=
  match o with
  | .undefined => none
  | .null => none
  | .obj 0 => some (s.get name)
  | .obj ref => some ((s.props ref name).getD .undefined)
  | .fn id => some ((s.props id name).getD .undefined)
  | .table t => some (lookupKey name t)
  | _ => some .undefined

/-- Runs a search-description script in state `s`: `O.M(CRATE, SHARD, TEXT)`. -/
def DescScript.run (sc : DescScript) (h : Host) (s : State) : Outcome :=
  match s.window sc.object with
  | none => ⟨s, some (.referenceError sc.object), [], []⟩
  | some o =>
    match s.prop o sc.method with
    | none => ⟨s, some (.typeError sc.object), [], []⟩
    | some f => callVal h sc.method f o [.str sc.crate, .num sc.shard, .str sc.text] s

/-- The state after two runs in a row: the second starts in the state the
first left, whether or not the first stopped with an error. -/
def runBoth (first second : State → Outcome) (s : State) : State :=
  (second (first s).state).state

/-- The page before any script defined anything. -/
def State.empty : State := ⟨fun _ => none, fun _ _ => none⟩

/-! ## Text -/

/-- Whether `s` begins with `pat`. -/
def startsWith : List Char → List Char → Bool
  | [], _ => true
  | _ :: _, [] => false
  | p :: ps, c :: cs => p == c && startsWith ps cs

/-- Whether `pat` occurs in `s`. -/
def containsText (pat : List Char) : List Char → Bool
  | [] => pat.isEmpty
  | c :: cs => startsWith pat (c :: cs) || containsText pat cs

/-- Number of places of `s` at which `pat` begins, added to `n`. -/
def countText (pat : List Char) : Nat → List Char → Nat
  | n, [] => n
  | n, c :: cs =>
    if startsWith pat (c :: cs) then countText pat (n + 1) cs else countText pat n cs

/-- The text of `s` from byte offset `n` on: `none` when `n` is past the end
or falls inside a character. -/
def textAt : Nat → List Char → Option (List Char)
  | 0, cs => some cs
  | _ + 1, [] => none
  | n + 1, c :: cs => if c.utf8Size ≤ n + 1 then textAt (n + 1 - c.utf8Size) cs else none

/-- The lines of a text, which line feeds separate: `cur` is the line being
read, last character first, `done` the lines already read, last first. -/
def linesAux : List Char → List (List Char) → List Char → List (List Char)
  | cur, done, [] => (cur.reverse :: done).reverse
  | cur, done, c :: cs =>
    if c == '\n' then linesAux [] (cur.reverse :: done) cs else linesAux (c :: cur) done cs

/-- The lines of a text: what `split("\n")` gives. -/
def lines (s : String) : List (List Char) :=
  linesAux [] [] s.data

/-! ## HTML tags -/

/-- State of the tag scanner. -/
inductive TagMode where
  /-- In text. -/
  | text
  /-- After `<`. -/
  | lt
  /-- In the name of a tag; `closing` for `</…`. -/
  | name (closing : Bool) (acc : List Char)
  /-- Among the attributes of a tag. -/
  | attrs (closing : Bool) (name : List Char)
  /-- In an attribute value quoted by `q`. -/
  | quoted (q : Char) (closing : Bool) (name : List Char)

/-- The elements of HTML that have no closing tag. -/
def voidTags : List (List Char) :=
  ["area".data, "base".data, "br".data, "col".data, "embed".data, "hr".data, "img".data,
    "input".data, "link".data, "meta".data, "source".data, "track".data, "wbr".data]

/-- Membership test for names. -/
def hasName (n : List Char) : List (List Char) → Bool
  | [] => false
  | m :: ms => charsBEq n m || hasName n ms

/-- The stack of open elements after a tag: an opening tag pushes its name,
a closing tag must close the innermost open element.  Only the names of
`allowed` may occur. -/
def afterTag (allowed : List (List Char)) (closing : Bool) (name : List Char)
    (stack : List (List Char)) : Option (List (List Char)) :=
  if closing then
    match stack with
    | top :: rest => if charsBEq top name then some rest else none
    | [] => none
  else if hasName name voidTags then some stack
  else if hasName name allowed then some (name :: stack)
  else none

/-- Whether the tags of a text are balanced: every opening tag has its closing
tag, tags nest, every `<` opens a tag with one of the names of `allowed`, and
the text ends outside a tag with no element left open. -/
def balancedAux (allowed : List (List Char)) :
    TagMode → List (List Char) → List Char → Bool
  | mode, stack, [] =>
    match mode with
    | .text => stack.isEmpty
    | _ => false
  | mode, stack, c :: cs =>
    match mode with
    | .text =>
      if c == '<' then balancedAux allowed .lt stack cs
      else balancedAux allowed .text stack cs
    | .lt =>
      if c == '/' then balancedAux allowed (.name true []) stack cs
      else if c.isAlpha then balancedAux allowed (.name false [c]) stack cs
      else false
    | .name closing acc =>
      if c.isAlphanum then balancedAux allowed (.name closing (c :: acc)) stack cs
      else if c == '>' then
        match afterTag allowed closing acc.reverse stack with
        | some stack' => balancedAux allowed .text stack' cs
        | none => false
      else if c.isWhitespace || c == '/' then
        balancedAux allowed (.attrs closing acc.reverse) stack cs
      else false
    | .attrs closing name =>
      if c == '>' then
        match afterTag allowed closing name stack with
        | some stack' => balancedAux allowed .text stack' cs
        | none => false
      else if c == '"' || c == '\'' then balancedAux allowed (.quoted c closing name) stack cs
      else if c == '<' then false
      else balancedAux allowed (.attrs closing name) stack cs
    | .quoted q closing name =>
      if c == q then balancedAux allowed (.attrs closing name) stack cs
      else balancedAux allowed (.quoted q closing name) stack cs

/-- The tags the fragments and the summaries use. -/
def knownTags : List (List Char) :=
  ["details".data, "summary".data, "section".data, "div".data, "span".data, "a".data,
    "h3".data, "h4".data, "code".data]

/-- Whether a text is tag-balanced HTML over `knownTags`. -/
def balanced (s : List Char) : Bool :=
  balancedAux knownTags .text [] s

/-- The HTML fragments of a table: the first string of every entry. -/
def fragmentsOfTable (t : Table) : List String :=
  (t.map fun c => c.2.map fun e => e.headD "").flatten

/-! ## Byte offsets in a text -/

/-- Splits a text at byte offset `n`: the characters before the offset and
those from it on; `none` when `n` is past the end or falls inside a character. -/
def splitAtByte : Nat → List Char → Option (List Char × List Char)
  | 0, cs => some ([], cs)
  | _ + 1, [] => none
  | n + 1, c :: cs =>
    if c.utf8Size ≤ n + 1 then
      match splitAtByte (n + 1 - c.utf8Size) cs with
      | some (pre, post) => some (c :: pre, post)
      | none => none
    else none

/-- The text `pat` stands at byte offset `n` of `file`, and is the first
text there that opens a pair: `n` bytes of UTF-8 come before it, and no `["`
occurs among them. -/
def FirstPairAt (file : String) (n : Nat) (pat : String) : Prop :=
  ∃ pre post : List Char, file.data = pre ++ post ∧ (String.mk pre).utf8ByteSize = n ∧
    startsWith pat.data post = true ∧ containsText "[\"".data pre = false

/-- The test that decides `FirstPairAt`. -/
def firstPairAt (file : String) (n : Nat) (pat : String) : Bool :=
  match splitAtByte n file.data with
  | some (pre, post) => startsWith pat.data post && !containsText "[\"".data pre
  | none => false

/-- The text `pat` stands at byte offset `n` of `file`. -/
def TextAt (file : String) (n : Nat) (pat : String) : Prop :=
  ∃ pre post : List Char, file.data = pre ++ post ∧ (String.mk pre).utf8ByteSize = n ∧
    startsWith pat.data post = true

/-- The test that decides `TextAt`. -/
def hasTextAt (file : String) (n : Nat) (pat : String) : Bool :=
  match textAt n file.data with
  | some post => startsWith pat.data post
  | none => false

/-! ## Pages and file names -/

/-- A host whose functions do nothing. -/
def Host.idle : Host := ⟨fun _ _ _ s => (s, none)⟩

/-- A page on which `window.name` is function 1 and nothing else exists. -/
def State.withFunction (name : String) : State :=
  State.empty.set name (.fn 1)

/-- A page on which `window.name` is the number 1 and nothing else exists. -/
def State.withNumber (name : String) : State :=
  State.empty.set name (.num 1)

/-- A page on which `searchState` is object 1, whose `loadedDescShard` is
function 7, and nothing else exists. -/
def State.withSearchState : State :=
  ⟨fun k => if k = "searchState" then some (.obj 1) else none,
    fun ref k => if ref = 1 ∧ k = "loadedDescShard" then some (.fn 7) else none⟩

/-- The three implementation-table scripts. -/
def implScripts : List ImplScript := [pointerScript, velocityScript, eitherWriterScript]

/-- The part of a path after its last slash; `acc` holds it, last character first. -/
def baseNameAux : List Char → List Char → List Char
  | acc, [] => acc.reverse
  | acc, c :: cs => if c == '/' then baseNameAux [] cs else baseNameAux (c :: acc) cs

/-- Splits a text at the first place where `pat` stands: the text before it
and the text after it. -/
def splitOnce (pat : List Char) : List Char → List Char → Option (List Char × List Char)
  | _, [] => none
  | acc, c :: cs =>
    if startsWith pat (c :: cs) then some (acc.reverse, (c :: cs).drop pat.length)
    else splitOnce pat (c :: acc) cs

/-- The crate and the shard number a description file is named after:
`CRATE-desc-N-.js`. -/
def shardOfPath (path : String) : Option (String × Nat) :=
  match splitOnce "-desc-".data [] (baseNameAux [] path.data) with
  | some (crate, rest) =>
    match splitOnce "-.js".data [] rest with
    | some (digits, []) =>
      if digits.all Char.isDigit && !digits.isEmpty then
        some (String.mk crate, digitsValue digits)
      else none
    | _ => none
  | none => none

/-! ## What the fragments say -/

/-- The HTML fragments of a crate's entries. -/
def fragmentsOfCrate (c : String × List Entry) : List String :=
  c.2.map fun e => e.headD ""

/-- Number of implementation headers in a fragment: the word `impl` at its
very start (the form of the `trait.impl` tables) or at the start of a
`code-header` heading of level 3 (the form of the `type.impl` tables). -/
def implHeaders (frag : String) : Nat :=
  countText "<h3 class=\"code-header\">impl".data
    (if startsWith "impl".data frag.data then 1 else 0) frag.data

/-- Whether a fragment mentions rendered source at all: the directory `src`
of the rendered source files, or the word `source` of the anchor. -/
def mentionsSource (frag : String) : Bool :=
  containsText "src".data frag.data || containsText "source".data frag.data

/-- Target of the first source anchor of a fragment,
`<a class="src rightside" href="TARGET">source</a>`. -/
def sourceAnchor (frag : String) : Option (List Char) :=
  match splitOnce "<a class=\"src rightside\" href=\"".data [] frag.data with
  | some (_, rest) =>
    match splitOnce "\"".data [] rest with
    | some (target, rest') => if startsWith ">source</a>".data rest' then some target else none
    | none => none
  | none => none

/-- Whether a target names lines of a source file of `crate`:
`src/CRATE/….rs.html#LINE` or `#LINE-LINE`. -/
def isLinesOf (crate : String) (target : List Char) : Bool :=
  startsWith ("src/".data ++ crate.data ++ "/".data) target &&
    match splitOnce ".rs.html#".data [] target with
    | some (_, ln) => !ln.isEmpty && ln.all fun c => c.isDigit || c == '-'
    | none => false

/-- Whether a fragment has a source anchor to lines of a source file of `crate`. -/
def hasSourceAnchor (crate : String) (frag : String) : Bool :=
  match sourceAnchor frag with
  | some target => isLinesOf crate target
  | none => false

/-- Whether a fragment of crate `crate` is an implementation of
`core::fmt::Pointer` for a type of that crate: it starts with `impl` and has,
once, the link to the trait followed by ` for ` and a link to a page under
`CRATE/`. -/
def implementsPointer (crate : String) (frag : String) : Bool :=
  startsWith "impl".data frag.data &&
    countText ("<a class=\"trait\" href=\"https://doc.rust-lang.org/nightly/core/fmt/trait.Pointer.html\" title=\"trait core::fmt::Pointer\">Pointer</a> for <a class=\"struct\" href=\"".data
      ++ crate.data ++ "/".data) 0 frag.data == 1 &&
    countText "</a> for <a ".data 0 frag.data == 1

/-- The lines `ls`, with a line feed between two consecutive ones. -/
def joinLines : List (List Char) → List Char
  | [] => []
  | [l] => l
  | l :: ls => l ++ '\n' :: joinLines ls

/-! ## Order and agreement of the entries -/

/-- Whether `a` comes strictly before `b` in the lexicographic order of code
points, which is also the order of their UTF-8 bytes. -/
def charsLt : List Char → List Char → Bool
  | [], [] => false
  | [], _ :: _ => true
  | _ :: _, [] => false
  | a :: as, b :: bs => if a == b then charsLt as bs else decide (a.toNat < b.toNat)

/-- Whether every text of a list comes strictly before the next one. -/
def ascending : List String → Bool
  | [] => true
  | [_] => true
  | a :: b :: rest => charsLt a.data b.data && ascending (b :: rest)

/-- Whether no text of a list occurs in it twice. -/
def distinct : List String → Bool
  | [] => true
  | a :: rest => rest.all (fun b => !charsBEq a.data b.data) && distinct rest

/-- The `id` of the first `section` of a fragment: the text between
`<section id="` and the next quote. -/
def firstSectionId (frag : String) : Option (List Char) :=
  match splitOnce "<section id=\"".data [] frag.data with
  | some (_, rest) =>
    match splitOnce "\"".data [] rest with
    | some (id, _) => some id
    | none => none
  | none => none

/-- Whether an entry of a `type.impl` table has its three parts, a fragment, a
trait name and at least one type path, and the `id` of the first section of
the fragment is `impl-TRAIT-for-…` for that trait name. -/
def traitAgrees (e : Entry) : Bool :=
  match e with
  | frag :: t :: _ :: _ =>
    match firstSectionId frag with
    | some id => startsWith ("impl-".data ++ t.data ++ "-for-".data) id
    | none => false
  | _ => false

/-- The trait name and the type paths of the entries of a table: every entry
without its fragment. -/
def namesOfTable (t : Table) : List (String × List (List String)) :=
  t.map fun c => (c.1, c.2.map fun e => e.drop 1)

/-- A host whose functions all throw `undefined` and change nothing. -/
def Host.throwing : Host := ⟨fun _ _ _ s => (s, some .undefined)⟩

/-! ## Lexing the four files -/

theorem charsBEq_eq : ∀ (a b : List Char), charsBEq a b = true → a = b
  | [], [], _ => rfl
  | [], _ :: _, h => by simp [charsBEq] at h
  | _ :: _, [], h => by simp [charsBEq] at h
  | a :: as, b :: bs, h => by
    simp only [charsBEq, Bool.and_eq_true, beq_iff_eq] at h
    rw [h.1, charsBEq_eq as bs h.2]

theorem string_eq_of_charsBEq (a b : String) (h : charsBEq a.data b.data = true) : a = b := by
  cases a; cases b
  exact congrArg String.mk (charsBEq_eq _ _ h)

theorem tokenBEq_eq (a b : Token) (h : tokenBEq a b = true) : a = b := by
  cases a <;> cases b <;> simp only [tokenBEq, beq_iff_eq] at h <;>
    first
      | rfl
      | (exact absurd h (by decide))
      | (rw [h])
      | (rw [string_eq_of_charsBEq _ _ h])

theorem lexemesBEq_eq : ∀ (a b : List Lexeme), lexemesBEq a b = true → a = b
  | [], [], _ => rfl
  | [], _ :: _, h => by simp [lexemesBEq] at h
  | _ :: _, [], h => by simp [lexemesBEq] at h
  | a :: as, b :: bs, h => by
    simp only [lexemesBEq, Bool.and_eq_true, beq_iff_eq] at h
    obtain ⟨⟨⟨h1, h2⟩, h3⟩, h4⟩ := h
    have ht := tokenBEq_eq _ _ h3
    rw [lexemesBEq_eq as bs h4]
    cases a; cases b
    simp only at h1 h2 ht
    rw [h1, h2, ht]

/-- Lexing the text of `trait.Pointer.js` gives `pointerJsLexemes`. -/
theorem lex_pointerJs : lex pointerJs = pointerJsLexemes :=
  lexemesBEq_eq _ _ (by decide!)

/-- Lexing the text of `struct.Velocity.js` gives `velocityJsLexemes`. -/
theorem lex_velocityJs : lex velocityJs = velocityJsLexemes :=
  lexemesBEq_eq _ _ (by decide!)

/-- Lexing the text of `enum.EitherWriter.js` gives `eitherWriterJsLexemes`. -/
theorem lex_eitherWriterJs : lex eitherWriterJs = eitherWriterJsLexemes :=
  lexemesBEq_eq _ _ (by decide!)

/-- Lexing the text of `futures_concurrency-desc-0-.js` gives `descShardJsLexemes`. -/
theorem lex_descShardJs : lex descShardJs = descShardJsLexemes :=
  lexemesBEq_eq _ _ (by decide!)

/-! ## Byte offsets: what the tests mean -/

theorem utf8ByteSize_cons (c : Char) (cs : List Char) :
    (String.mk (c :: cs)).utf8ByteSize = (String.mk cs).utf8ByteSize + c.utf8Size := by
  simp [String.utf8ByteSize, String.utf8ByteSize.go]

theorem utf8Size_pos (c : Char) : 0 < c.utf8Size := by
  simp only [Char.utf8Size]
  split_ifs <;> decide

theorem splitAtByte_spec : ∀ (n : Nat) (cs pre post : List Char),
    splitAtByte n cs = some (pre, post) →
      cs = pre ++ post ∧ (String.mk pre).utf8ByteSize = n := by
  intro n
  induction n using Nat.strong_induction_on with
  | _ n ih =>
    intro cs pre post h
    cases n with
    | zero =>
      simp only [splitAtByte, Option.some.injEq, Prod.mk.injEq] at h
      obtain ⟨h1, h2⟩ := h
      subst h1; subst h2
      exact ⟨rfl, rfl⟩
    | succ m =>
      cases cs with
      | nil => simp [splitAtByte] at h
      | cons c cs =>
        simp only [splitAtByte] at h
        split_ifs at h with hc
        cases hr : splitAtByte (m + 1 - c.utf8Size) cs with
        | none => simp [hr] at h
        | some r =>
          obtain ⟨pre', post'⟩ := r
          simp only [hr, Option.some.injEq, Prod.mk.injEq] at h
          obtain ⟨h1, h2⟩ := h
          subst h1; subst h2
          have hpos := utf8Size_pos c
          obtain ⟨e1, e2⟩ := ih (m + 1 - c.utf8Size) (by omega) cs pre' post' hr
          refine ⟨by rw [e1]; rfl, ?_⟩
          rw [utf8ByteSize_cons, e2]
          omega

theorem textAt_spec : ∀ (n : Nat) (cs post : List Char),
    textAt n cs = some post →
      ∃ pre, cs = pre ++ post ∧ (String.mk pre).utf8ByteSize = n := by
  intro n
  induction n using Nat.strong_induction_on with
  | _ n ih =>
    intro cs post h
    cases n with
    | zero =>
      simp only [textAt, Option.some.injEq] at h
      subst h
      exact ⟨[], rfl, rfl⟩
    | succ m =>
      cases cs with
      | nil => simp [textAt] at h
      | cons c cs =>
        simp only [textAt] at h
        split_ifs at h with hc
        have hpos := utf8Size_pos c
        obtain ⟨pre, e1, e2⟩ := ih (m + 1 - c.utf8Size) (by omega) cs post h
        refine ⟨c :: pre, by rw [e1]; rfl, ?_⟩
        rw [utf8ByteSize_cons, e2]
        omega

theorem firstPairAt_sound (file : String) (n : Nat) (pat : String)
    (h : firstPairAt file n pat = true) : FirstPairAt file n pat := by
  unfold firstPairAt at h
  cases hr : splitAtByte n file.data with
  | none => simp [hr] at h
  | some r =>
    obtain ⟨pre, post⟩ := r
    simp only [hr, Bool.and_eq_true, Bool.not_eq_true'] at h
    obtain ⟨e1, e2⟩ := splitAtByte_spec n _ pre post hr
    exact ⟨pre, post, e1, e2, h.1, h.2⟩

theorem hasTextAt_sound (file : String) (n : Nat) (pat : String)
    (h : hasTextAt file n pat = true) : TextAt file n pat := by
  unfold hasTextAt at h
  cases hr : textAt n file.data with
  | none => simp [hr] at h
  | some post =>
    simp only [hr] at h
    obtain ⟨pre, e1, e2⟩ := textAt_spec n _ post hr
    exact ⟨pre, post, e1, e2, h⟩

/-! ## The scripts read from the files -/

theorem pointerScript_names :
    pointerScript.var = "implementors" ∧ pointerScript.registrar = "register_implementors" ∧
      pointerScript.pending = "pending_implementors" := by
  simp only [pointerScript, lex_pointerJs]
  decide!

theorem velocityScript_names :
    velocityScript.var = "type_impls" ∧ velocityScript.registrar = "register_type_impls" ∧
      velocityScript.pending = "pending_type_impls" := by
  simp only [velocityScript, lex_velocityJs]
  decide!

theorem eitherWriterScript_names :
    eitherWriterScript.var = "type_impls" ∧
      eitherWriterScript.registrar = "register_type_impls" ∧
      eitherWriterScript.pending = "pending_type_impls" := by
  simp only [eitherWriterScript, lex_eitherWriterJs]
  decide!

theorem pointerScript_trailer : pointerScript.trailer = ⟨57, [3087, 1013, 4921]⟩ := by
  simp only [pointerScript, lex_pointerJs]
  decide!

theorem velocityScript_trailer : velocityScript.trailer = ⟨55, [5121]⟩ := by
  simp only [velocityScript, lex_velocityJs]
  decide!

theorem eitherWriterScript_trailer : eitherWriterScript.trailer = ⟨55, [20094]⟩ := by
  simp only [eitherWriterScript, lex_eitherWriterJs]
  decide!

theorem pointerScript_crates :
    pointerScript.pairs.map Prod.fst = ["bitvec", "nalgebra", "wyz"] := by
  simp only [pointerScript, lex_pointerJs]
  decide!

theorem velocityScript_crates : velocityScript.pairs.map Prod.fst = ["math"] := by
  simp only [velocityScript, lex_velocityJs]
  decide!

theorem eitherWriterScript_crates :
    eitherWriterScript.pairs.map Prod.fst = ["tracing_subscriber"] := by
  simp only [eitherWriterScript, lex_eitherWriterJs]
  decide!

theorem descShardScript_fields :
    descShardScript.object = "searchState" ∧ descShardScript.method = "loadedDescShard" ∧
      descShardScript.crate = "futures_concurrency" ∧ descShardScript.shard = 0 := by
  simp only [descShardScript, lex_descShardJs]
  decide!

/-! ## Running the scripts: the two branches -/

theorem State.get_set (s : State) (name : String) (v : Val) (k : String) :
    (s.set name v).get k = if k = name then v else s.get k := by
  unfold State.get State.set
  by_cases hk : k = name <;> simp [hk]

theorem ImplScript.run_falsy (sc : ImplScript) (h : Host) (s : State)
    (hf : (s.get sc.registrar).truthy = false) :
    sc.run h s = ⟨s.set sc.pending (.table (fromEntries sc.pairs)), none, [],
      [(sc.pending, .table (fromEntries sc.pairs))]⟩ := by
  simp [ImplScript.run, hf]

theorem ImplScript.run_truthy (sc : ImplScript) (h : Host) (s : State)
    (ht : (s.get sc.registrar).truthy = true) :
    sc.run h s =
      callVal h sc.registrar (s.get sc.registrar) windowObj [.table (fromEntries sc.pairs)] s := by
  simp [ImplScript.run, ht]

theorem callVal_writes (h : Host) (name : String) (f this : Val) (args : List Val) (s : State) :
    (callVal h name f this args s).writes = [] := by
  unfold callVal
  cases f <;> rfl

theorem callVal_fn (h : Host) (name : String) (id : Nat) (this : Val) (args : List Val)
    (s : State) :
    (callVal h name (.fn id) this args s).calls = [⟨id, args⟩] ∧
      (callVal h name (.fn id) this args s).state = (h.call id this args s).1 ∧
      (callVal h name (.fn id) this args s).error = (h.call id this args s).2.map JsError.thrown :=
  ⟨rfl, rfl, rfl⟩

theorem callVal_calls (h : Host) (name : String) (f this : Val) (args : List Val) (s : State) :
    (callVal h name f this args s).calls.length ≤ 1 ∧
      ∀ c ∈ (callVal h name f this args s).calls, c.args = args := by
  unfold callVal
  cases f <;> simp

theorem callVal_no_call (h : Host) (name : String) (f this : Val) (args : List Val) (s : State)
    (hc : (callVal h name f this args s).calls = []) :
    (callVal h name f this args s).state = s := by
  unfold callVal at hc ⊢
  cases f <;> simp at hc ⊢

theorem implScripts_names (sc : ImplScript) (hsc : sc ∈ implScripts) :
    (sc.registrar = "register_implementors" ∧ sc.pending = "pending_implementors") ∨
      (sc.registrar = "register_type_impls" ∧ sc.pending = "pending_type_impls") := by
  simp only [implScripts, List.mem_cons, List.mem_singleton, List.not_mem_nil, or_false] at hsc
  rcases hsc with rfl | rfl | rfl
  · exact Or.inl ⟨pointerScript_names.2.1, pointerScript_names.2.2⟩
  · exact Or.inr ⟨velocityScript_names.2.1, velocityScript_names.2.2⟩
  · exact Or.inr ⟨eitherWriterScript_names.2.1, eitherWriterScript_names.2.2⟩

theorem tables_differ :
    fromEntries velocityScript.pairs ≠ fromEntries eitherWriterScript.pairs := by
  simp only [velocityScript, eitherWriterScript, lex_velocityJs, lex_eitherWriterJs]
  decide!

theorem State.set_comm (s : State) (k1 k2 : String) (v1 v2 : Val) (hne : k1 ≠ k2) :
    (s.set k1 v1).set k2 v2 = (s.set k2 v2).set k1 v1 := by
  simp only [State.set]
  congr 1
  funext k
  by_cases h2 : k = k2
  · subst h2
    simp [Ne.symm hne]
  · by_cases h1 : k = k1
    · subst h1
      simp [hne]
    · simp [h1, h2]

theorem runBoth_falsy (a b : ImplScript) (h : Host) (s : State)
    (ha : (s.get a.registrar).truthy = false) (hb : (s.get b.registrar).truthy = false)
    (hne : b.registrar ≠ a.pending) :
    runBoth (a.run h) (b.run h) s =
      (s.set a.pending (.table (fromEntries a.pairs))).set b.pending
        (.table (fromEntries b.pairs)) := by
  have hab : ((s.set a.pending (.table (fromEntries a.pairs))).get b.registrar).truthy
      = false := by
    rw [State.get_set, if_neg hne]; exact hb
  simp only [runBoth]
  rw [ImplScript.run_falsy a h s ha]
  simp only
  rw [ImplScript.run_falsy b h _ hab]

theorem DescScript.run_cases (sc : DescScript) (h : Host) (s : State) :
    sc.run h s = ⟨s, some (.referenceError sc.object), [], []⟩ ∨
      sc.run h s = ⟨s, some (.typeError sc.object), [], []⟩ ∨
      ∃ o f, sc.run h s =
        callVal h sc.method f o [.str sc.crate, .num sc.shard, .str sc.text] s := by
  unfold DescScript.run
  cases hw : s.window sc.object with
  | none => exact Or.inl rfl
  | some o =>
    simp only
    cases hp : s.prop o sc.method with
    | none => exact Or.inr (Or.inl rfl)
    | some f => exact Or.inr (Or.inr ⟨o, f, rfl⟩)

theorem DescScript.run_writes (sc : DescScript) (h : Host) (s : State) :
    (sc.run h s).writes = [] := by
  rcases DescScript.run_cases sc h s with hr | hr | ⟨o, f, hr⟩ <;> rw [hr]
  exact callVal_writes _ _ _ _ _ _

theorem DescScript.run_calls (sc : DescScript) (h : Host) (s : State) :
    (sc.run h s).calls.length ≤ 1 ∧
      ∀ c ∈ (sc.run h s).calls, c.args = [.str sc.crate, .num sc.shard, .str sc.text] := by
  rcases DescScript.run_cases sc h s with hr | hr | ⟨o, f, hr⟩ <;> rw [hr]
  · simp
  · simp
  · exact callVal_calls _ _ _ _ _ _

theorem DescScript.run_no_call (sc : DescScript) (h : Host) (s : State)
    (hc : (sc.run h s).calls = []) : (sc.run h s).state = s := by
  rcases DescScript.run_cases sc h s with hr | hr | ⟨o, f, hr⟩ <;> rw [hr] at hc ⊢
  exact callVal_no_call _ _ _ _ _ _ hc

theorem DescScript.run_fn (sc : DescScript) (h : Host) (s : State) (o : Val) (id : Nat)
    (ho : s.window sc.object = some o) (hf : s.prop o sc.method = some (.fn id)) :
    (sc.run h s).calls = [⟨id, [.str sc.crate, .num sc.shard, .str sc.text]⟩] ∧
      (sc.run h s).state = (h.call id o [.str sc.crate, .num sc.shard, .str sc.text] s).1 := by
  unfold DescScript.run
  simp only [ho, hf]
  exact ⟨rfl, rfl⟩

/-! ## `Object.fromEntries` on distinct keys -/

theorem setKey_append {α : Type} (k : String) (v : α) :
    ∀ (o : List (String × α)), k ∉ o.map Prod.fst → setKey k v o = o ++ [(k, v)]
  | [], _ => rfl
  | (k', v') :: rest, h => by
    simp only [List.map_cons, List.mem_cons, not_or] at h
    have hne : ¬ k' = k := fun e => h.1 e.symm
    simp only [setKey, if_neg hne, List.cons_append, setKey_append k v rest h.2]

theorem foldl_setKey {α : Type} :
    ∀ (pairs o : List (String × α)), (o.map Prod.fst ++ pairs.map Prod.fst).Nodup →
      pairs.foldl (fun o p => setKey p.1 p.2 o) o = o ++ pairs
  | [], o, _ => by simp
  | p :: rest, o, h => by
    have hk : p.1 ∉ o.map Prod.fst := by
      intro hm
      have hd := (List.nodup_append.mp h).2.2
      exact hd hm (by simp)
    have h' : ((o ++ [p]).map Prod.fst ++ rest.map Prod.fst).Nodup := by
      simpa [List.map_append, List.append_assoc] using h
    rw [List.foldl_cons, setKey_append p.1 p.2 o hk, foldl_setKey rest (o ++ [p]) h']
    simp

theorem fromEntries_of_nodup {α : Type} (pairs : List (String × α))
    (h : (pairs.map Prod.fst).Nodup) : fromEntries pairs = pairs := by
  have := foldl_setKey pairs [] (by simpa using h)
  simpa [fromEntries] using this

/-! ## Calls: a function or a `TypeError` -/

theorem callVal_cases (h : Host) (name : String) (f this : Val) (args : List Val) (s : State) :
    (∃ id, f = .fn id ∧
      callVal h name f this args s =
        ⟨(h.call id this args s).1, (h.call id this args s).2.map JsError.thrown,
          [⟨id, args⟩], []⟩) ∨
    ((∀ id, f ≠ .fn id) ∧
      callVal h name f this args s = ⟨s, some (.typeError name), [], []⟩) := by
  cases f
  case fn id => exact Or.inl ⟨id, rfl, rfl⟩
  all_goals exact Or.inr ⟨fun _ hf => Val.noConfusion hf, rfl⟩

theorem ImplScript.run_branches (sc : ImplScript) (h : Host) (s : State) :
    ((s.get sc.registrar).truthy = false ∧
      sc.run h s = ⟨s.set sc.pending (.table (fromEntries sc.pairs)), none, [],
        [(sc.pending, .table (fromEntries sc.pairs))]⟩) ∨
    (∃ id, s.get sc.registrar = .fn id ∧
      sc.run h s =
        ⟨(h.call id windowObj [.table (fromEntries sc.pairs)] s).1,
          (h.call id windowObj [.table (fromEntries sc.pairs)] s).2.map JsError.thrown,
          [⟨id, [.table (fromEntries sc.pairs)]⟩], []⟩) ∨
    ((s.get sc.registrar).truthy = true ∧ (∀ id, s.get sc.registrar ≠ .fn id) ∧
      sc.run h s = ⟨s, some (.typeError sc.registrar), [], []⟩) := by
  cases ht : (s.get sc.registrar).truthy with
  | false => exact Or.inl ⟨rfl, ImplScript.run_falsy sc h s ht⟩
  | true =>
    rw [ImplScript.run_truthy sc h s ht]
    rcases callVal_cases h sc.registrar (s.get sc.registrar) windowObj
      [.table (fromEntries sc.pairs)] s with ⟨id, hf, hr⟩ | ⟨hn, hr⟩
    · exact Or.inr (Or.inl ⟨id, hf, hr⟩)
    · exact Or.inr (Or.inr ⟨rfl, hn, hr⟩)

theorem ImplScript.run_reads_registrar (sc : ImplScript) (h : Host) (s s' : State)
    (hg : s'.get sc.registrar = s.get sc.registrar) :
    (sc.run h s').writes = (sc.run h s).writes ∧ (sc.run h s').calls = (sc.run h s).calls := by
  rcases ImplScript.run_branches sc h s with ⟨ht, hr⟩ | ⟨id, hf, hr⟩ | ⟨ht, hn, hr⟩
  · rw [hr, ImplScript.run_falsy sc h s' (by rw [hg]; exact ht)]
    exact ⟨rfl, rfl⟩
  · rw [hr, ImplScript.run_truthy sc h s' (by rw [hg, hf]; rfl), hg, hf]
    exact ⟨rfl, rfl⟩
  · rw [hr, ImplScript.run_truthy sc h s' (by rw [hg]; exact ht), hg]
    rcases callVal_cases h sc.registrar (s.get sc.registrar) windowObj
      [.table (fromEntries sc.pairs)] s' with ⟨id, hf, -⟩ | ⟨-, hr'⟩
    · exact absurd hf (hn id)
    · rw [hr']
      exact ⟨rfl, rfl⟩

/-! ## The search-description script: when it ends without an error -/

theorem DescScript.run_detail (sc : DescScript) (h : Host) (s : State) :
    (s.window sc.object = none ∧
      sc.run h s = ⟨s, some (.referenceError sc.object), [], []⟩) ∨
    (∃ o, s.window sc.object = some o ∧ s.prop o sc.method = none ∧
      sc.run h s = ⟨s, some (.typeError sc.object), [], []⟩) ∨
    (∃ o f, s.window sc.object = some o ∧ s.prop o sc.method = some f ∧
      sc.run h s = callVal h sc.method f o [.str sc.crate, .num sc.shard, .str sc.text] s) := by
  unfold DescScript.run
  cases hw : s.window sc.object with
  | none => exact Or.inl ⟨rfl, rfl⟩
  | some o =>
    simp only
    cases hp : s.prop o sc.method with
    | none => exact Or.inr (Or.inl ⟨o, rfl, hp, rfl⟩)
    | some f => exact Or.inr (Or.inr ⟨o, f, rfl, hp, rfl⟩)

theorem DescScript.run_error_iff (sc : DescScript) (h : Host) (s : State) :
    (sc.run h s).error = none ↔
      ∃ o id, s.window sc.object = some o ∧ s.prop o sc.method = some (.fn id) ∧
        (h.call id o [.str sc.crate, .num sc.shard, .str sc.text] s).2 = none := by
  constructor
  · intro he
    rcases DescScript.run_detail sc h s with ⟨-, hr⟩ | ⟨o, -, -, hr⟩ | ⟨o, f, hw, hp, hr⟩
    · rw [hr] at he
      cases he
    · rw [hr] at he
      cases he
    · rw [hr] at he
      rcases callVal_cases h sc.method f o [.str sc.crate, .num sc.shard, .str sc.text] s
        with ⟨id, hf, hc⟩ | ⟨-, hc⟩
      · rw [hc] at he
        subst hf
        refine ⟨o, id, hw, hp, ?_⟩
        cases hx : (h.call id o [.str sc.crate, .num sc.shard, .str sc.text] s).2 with
        | none => rfl
        | some v =>
          simp only [hx, Option.map_some'] at he
          cases he
      · rw [hc] at he
        cases he
  · rintro ⟨o, id, hw, hp, hn⟩
    rcases DescScript.run_detail sc h s with ⟨hw', -⟩ | ⟨o', hw', hp', -⟩ | ⟨o', f, hw', hp', hr⟩
    · rw [hw] at hw'
      cases hw'
    · rw [hw] at hw'
      cases hw'
      rw [hp] at hp'
      cases hp'
    · rw [hw] at hw'
      cases hw'
      rw [hp] at hp'
      cases hp'
      rw [hr]
      simp [callVal, hn]

theorem DescScript.run_missing (sc : DescScript) (h : Host) (s : State)
    (hm : ¬ ∃ o id, s.window sc.object = some o ∧ s.prop o sc.method = some (.fn id)) :
    (sc.run h s).error ≠ none ∧ (sc.run h s).state = s ∧ (sc.run h s).calls = [] := by
  rcases DescScript.run_detail sc h s with ⟨-, hr⟩ | ⟨o, -, -, hr⟩ | ⟨o, f, hw, hp, hr⟩
  · rw [hr]
    exact ⟨fun he => Option.noConfusion he, rfl, rfl⟩
  · rw [hr]
    exact ⟨fun he => Option.noConfusion he, rfl, rfl⟩
  · rw [hr]
    rcases callVal_cases h sc.method f o [.str sc.crate, .num sc.shard, .str sc.text] s
      with ⟨id, hf, -⟩ | ⟨-, hc⟩
    · subst hf
      exact absurd ⟨o, id, hw, hp⟩ hm
    · rw [hc]
      exact ⟨fun he => Option.noConfusion he, rfl, rfl⟩

theorem DescScript.run_undeclared (sc : DescScript) (h : Host) (s : State)
    (hw : s.window sc.object = none) :
    (sc.run h s).error = some (.referenceError sc.object) := by
  rcases DescScript.run_detail sc h s with ⟨-, hr⟩ | ⟨o, hw', -, -⟩ | ⟨o, f, hw', -, -⟩
  · rw [hr]
  · rw [hw] at hw'
    cases hw'
  · rw [hw] at hw'
    cases hw'

/-! ## The search-description script next to an implementation table -/

theorem State.prop_set (s : State) (p : String) (v : Val) (o : Val) (name : String)
    (hne : name ≠ p) : (s.set p v).prop o name = s.prop o name := by
  cases o with
  | obj ref =>
    cases ref with
    | zero => simp [State.prop, State.get_set, hne]
    | succ n => rfl
  | _ => rfl

theorem runBoth_desc_first (d : DescScript) (a : ImplScript) (h : Host) (s : State)
    (hm : ¬ ∃ o id, s.window d.object = some o ∧ s.prop o d.method = some (.fn id)) :
    runBoth (d.run h) (a.run h) s = (a.run h s).state := by
  simp only [runBoth]
  rw [(DescScript.run_missing d h s hm).2.1]

theorem runBoth_desc_second (d : DescScript) (a : ImplScript) (h : Host) (s : State)
    (ha : (s.get a.registrar).truthy = false)
    (hm : ¬ ∃ o id, s.window d.object = some o ∧ s.prop o d.method = some (.fn id))
    (h1 : d.object ≠ a.pending) (h2 : d.method ≠ a.pending) :
    runBoth (a.run h) (d.run h) s = (a.run h s).state := by
  simp only [runBoth]
  rw [ImplScript.run_falsy a h s ha]
  apply (DescScript.run_missing d h _ _).2.1
  rintro ⟨o, id, hw, hp⟩
  rw [State.prop_set s a.pending _ o d.method h2] at hp
  have hw' : s.window d.object = some o := by
    simpa [State.set, h1] using hw
  exact hm ⟨o, id, hw', hp⟩

/-! ## The trailing comment -/

/-- C1: in each of the three implementation tables, the `start` number of the
trailing comment is the byte offset at which the first crate entry of the
table begins: it is where the lexer finds the first element of the entry
list, and the UTF-8 byte length of the text before the first `["crate",`
(57 in `trait.Pointer.js`, 55 in the two `type.impl` files). -/
theorem C1_start_is_offset_of_first_entry :
    (pointerScript.trailer.start = 57 ∧
      (fragmentsOf (lex pointerJs)).map Fragments.start = some pointerScript.trailer.start ∧
      (pointerScript.pairs.map Prod.fst).head? = some "bitvec" ∧
      FirstPairAt pointerJs pointerScript.trailer.start "[\"bitvec\",") ∧
    (velocityScript.trailer.start = 55 ∧
      (fragmentsOf (lex velocityJs)).map Fragments.start = some velocityScript.trailer.start ∧
      (velocityScript.pairs.map Prod.fst).head? = some "math" ∧
      FirstPairAt velocityJs velocityScript.trailer.start "[\"math\",") ∧
    (eitherWriterScript.trailer.start = 55 ∧
      (fragmentsOf (lex eitherWriterJs)).map Fragments.start =
        some eitherWriterScript.trailer.start ∧
      (eitherWriterScript.pairs.map Prod.fst).head? = some "tracing_subscriber" ∧
      FirstPairAt eitherWriterJs eitherWriterScript.trailer.start "[\"tracing_subscriber\",") := by
  rw [pointerScript_trailer, velocityScript_trailer, eitherWriterScript_trailer,
    pointerScript_crates, velocityScript_crates, eitherWriterScript_crates,
    lex_pointerJs, lex_velocityJs, lex_eitherWriterJs]
  refine ⟨⟨rfl, ?_, rfl, ?_⟩, ⟨rfl, ?_, rfl, ?_⟩, ⟨rfl, ?_, rfl, ?_⟩⟩
  · decide!
  · exact firstPairAt_sound _ _ _ (by decide!)
  · decide!
  · exact firstPairAt_sound _ _ _ (by decide!)
  · decide!
  · exact firstPairAt_sound _ _ _ (by decide!)

/-- C2: in each of the three implementation tables, `fragment_lengths` of the
trailing comment has one number per crate entry, in the order of the table,
and each number is the UTF-8 byte length of that entry as the file writes it,
the comma in front of it counted: the numbers are the lengths the lexer
measures, every entry begins at `start` plus the lengths before it, and
`start` plus all the lengths is the offset of the bracket that closes the
list (`[3087,1013,4921]`, `[5121]`, `[20094]`). -/
theorem C2_fragment_lengths_are_entry_lengths :
    (pointerScript.trailer.fragment_lengths = [3087, 1013, 4921] ∧
      pointerScript.trailer.fragment_lengths.length = pointerScript.pairs.length ∧
      pointerScript.pairs.map Prod.fst = ["bitvec", "nalgebra", "wyz"] ∧
      fragmentsOf (lex pointerJs) =
        some ⟨57, pointerScript.trailer.fragment_lengths,
          57 + pointerScript.trailer.fragment_lengths.sum⟩ ∧
      TextAt pointerJs 57 "[\"bitvec\"," ∧
      TextAt pointerJs (57 + 3087) ",[\"nalgebra\"," ∧
      TextAt pointerJs (57 + 3087 + 1013) ",[\"wyz\"," ∧
      TextAt pointerJs (57 + 3087 + 1013 + 4921) "]);") ∧
    (velocityScript.trailer.fragment_lengths = [5121] ∧
      velocityScript.trailer.fragment_lengths.length = velocityScript.pairs.length ∧
      velocityScript.pairs.map Prod.fst = ["math"] ∧
      fragmentsOf (lex velocityJs) =
        some ⟨55, velocityScript.trailer.fragment_lengths,
          55 + velocityScript.trailer.fragment_lengths.sum⟩ ∧
      TextAt velocityJs 55 "[\"math\"," ∧
      TextAt velocityJs (55 + 5121) "]);") ∧
    (eitherWriterScript.trailer.fragment_lengths = [20094] ∧
      eitherWriterScript.trailer.fragment_lengths.length = eitherWriterScript.pairs.length ∧
      eitherWriterScript.pairs.map Prod.fst = ["tracing_subscriber"] ∧
      fragmentsOf (lex eitherWriterJs) =
        some ⟨55, eitherWriterScript.trailer.fragment_lengths,
          55 + eitherWriterScript.trailer.fragment_lengths.sum⟩ ∧
      TextAt eitherWriterJs 55 "[\"tracing_subscriber\"," ∧
      TextAt eitherWriterJs (55 + 20094) "]);") := by
  have hp : pointerScript.pairs.length = 3 := by
    rw [← List.length_map pointerScript.pairs Prod.fst, pointerScript_crates]; rfl
  have hv : velocityScript.pairs.length = 1 := by
    rw [← List.length_map velocityScript.pairs Prod.fst, velocityScript_crates]; rfl
  have he : eitherWriterScript.pairs.length = 1 := by
    rw [← List.length_map eitherWriterScript.pairs Prod.fst, eitherWriterScript_crates]; rfl
  rw [pointerScript_trailer, velocityScript_trailer, eitherWriterScript_trailer,
    pointerScript_crates, velocityScript_crates, eitherWriterScript_crates,
    lex_pointerJs, lex_velocityJs, lex_eitherWriterJs, hp, hv, he]
  refine ⟨⟨rfl, rfl, rfl, ?_, ?_, ?_, ?_, ?_⟩, ⟨rfl, rfl, rfl, ?_, ?_, ?_⟩,
    ⟨rfl, rfl, rfl, ?_, ?_, ?_⟩⟩
  · decide!
  · exact hasTextAt_sound _ _ _ (by decide!)
  · exact hasTextAt_sound _ _ _ (by decide!)
  · exact hasTextAt_sound _ _ _ (by decide!)
  · exact hasTextAt_sound _ _ _ (by decide!)
  · decide!
  · exact hasTextAt_sound _ _ _ (by decide!)
  · exact hasTextAt_sound _ _ _ (by decide!)
  · decide!
  · exact hasTextAt_sound _ _ _ (by decide!)
  · exact hasTextAt_sound _ _ _ (by decide!)

/-! ## What running a script does -/

/-- C3, as stated, fails: on the empty page the two `type.impl` files leave
different states in the two orders, because both assign
`window.pending_type_impls` and the later assignment stays. -/
theorem C3_order_matters_for_type_impls :
    runBoth (velocityScript.run Host.idle) (eitherWriterScript.run Host.idle) State.empty ≠
      runBoth (eitherWriterScript.run Host.idle) (velocityScript.run Host.idle) State.empty := by
  obtain ⟨-, hvr, hvp⟩ := velocityScript_names
  obtain ⟨-, her, hep⟩ := eitherWriterScript_names
  rw [runBoth_falsy velocityScript eitherWriterScript Host.idle State.empty rfl rfl
      (by rw [her, hvp]; decide),
    runBoth_falsy eitherWriterScript velocityScript Host.idle State.empty rfl rfl
      (by rw [hvr, hep]; decide), hvp, hep]
  intro h
  have hw := congrArg (fun s : State => s.get "pending_type_impls") h
  simp only [State.get_set, if_true, Val.table.injEq] at hw
  exact tables_differ hw.symm

/-- C3, amended: when neither registrar is installed, two of the four files
leave every property with the same value in both orders, for every pair but
one: `trait.Pointer.js` with either `type.impl` file, and, when no function
`searchState.loadedDescShard` is installed either, the search shard with each
of the three tables.  The two `type.impl` files do not commute:
`window.pending_type_impls` holds the table of the one that ran last. -/
theorem C3_trait_and_type_tables_commute (h : Host) (s : State)
    (h1 : (s.get "register_implementors").truthy = false)
    (h2 : (s.get "register_type_impls").truthy = false) :
    runBoth (pointerScript.run h) (velocityScript.run h) s =
        runBoth (velocityScript.run h) (pointerScript.run h) s ∧
      runBoth (pointerScript.run h) (eitherWriterScript.run h) s =
        runBoth (eitherWriterScript.run h) (pointerScript.run h) s ∧
      (runBoth (velocityScript.run h) (eitherWriterScript.run h) s).get "pending_type_impls" =
        .table (fromEntries eitherWriterScript.pairs) ∧
      (runBoth (eitherWriterScript.run h) (velocityScript.run h) s).get "pending_type_impls" =
        .table (fromEntries velocityScript.pairs) ∧
      ((¬ ∃ o id, s.window "searchState" = some o ∧
          s.prop o "loadedDescShard" = some (.fn id)) →
        runBoth (descShardScript.run h) (pointerScript.run h) s =
          runBoth (pointerScript.run h) (descShardScript.run h) s ∧
        runBoth (descShardScript.run h) (velocityScript.run h) s =
          runBoth (velocityScript.run h) (descShardScript.run h) s ∧
        runBoth (descShardScript.run h) (eitherWriterScript.run h) s =
          runBoth (eitherWriterScript.run h) (descShardScript.run h) s) := by
  obtain ⟨-, hpr, hpp⟩ := pointerScript_names
  obtain ⟨-, hvr, hvp⟩ := velocityScript_names
  obtain ⟨-, her, hep⟩ := eitherWriterScript_names
  obtain ⟨hobj, hmeth, -, -⟩ := descShardScript_fields
  have key : ∀ (a b : ImplScript), a.registrar = "register_implementors" →
      a.pending = "pending_implementors" → b.registrar = "register_type_impls" →
      b.pending = "pending_type_impls" →
      runBoth (a.run h) (b.run h) s = runBoth (b.run h) (a.run h) s := by
    intro a b har hap hbr hbp
    rw [runBoth_falsy a b h s (by rw [har]; exact h1) (by rw [hbr]; exact h2)
        (by rw [hbr, hap]; decide),
      runBoth_falsy b a h s (by rw [hbr]; exact h2) (by rw [har]; exact h1)
        (by rw [har, hbp]; decide)]
    exact State.set_comm s _ _ _ _ (by rw [hap, hbp]; decide)
  have last : ∀ (a b : ImplScript), a.registrar = "register_type_impls" →
      a.pending = "pending_type_impls" → b.registrar = "register_type_impls" →
      b.pending = "pending_type_impls" →
      (runBoth (a.run h) (b.run h) s).get "pending_type_impls" =
        .table (fromEntries b.pairs) := by
    intro a b har hap hbr hbp
    rw [runBoth_falsy a b h s (by rw [har]; exact h2) (by rw [hbr]; exact h2)
        (by rw [hbr, hap]; decide), hbp, State.get_set, if_pos rfl]
  have shard : (¬ ∃ o id, s.window "searchState" = some o ∧
      s.prop o "loadedDescShard" = some (.fn id)) →
      ∀ (a : ImplScript), (s.get a.registrar).truthy = false →
        "searchState" ≠ a.pending → "loadedDescShard" ≠ a.pending →
        runBoth (descShardScript.run h) (a.run h) s =
          runBoth (a.run h) (descShardScript.run h) s := by
    intro hm a ha n1 n2
    have hm' : ¬ ∃ o id, s.window descShardScript.object = some o ∧
        s.prop o descShardScript.method = some (.fn id) := by
      rw [hobj, hmeth]; exact hm
    rw [runBoth_desc_first descShardScript a h s hm',
      runBoth_desc_second descShardScript a h s ha hm' (by rw [hobj]; exact n1)
        (by rw [hmeth]; exact n2)]
  refine ⟨key _ _ hpr hpp hvr hvp, key _ _ hpr hpp her hep, last _ _ hvr hvp her hep,
    last _ _ her hep hvr hvp, fun hm => ⟨?_, ?_, ?_⟩⟩
  · exact shard hm pointerScript (by rw [hpr]; exact h1) (by rw [hpp]; decide)
      (by rw [hpp]; decide)
  · exact shard hm velocityScript (by rw [hvr]; exact h2) (by rw [hvp]; decide)
      (by rw [hvp]; decide)
  · exact shard hm eitherWriterScript (by rw [her]; exact h2) (by rw [hep]; decide)
      (by rw [hep]; decide)

/-- C3, amended, on the empty page with idle functions: no registrar and no
`searchState` is installed there, and the two orders agree, for the tables of
the trait and of a type and for the shard and a table. -/
theorem C3_trait_and_type_tables_commute_witness :
    (State.empty.get "register_implementors").truthy = false ∧
      (State.empty.get "register_type_impls").truthy = false ∧
      (¬ ∃ o id, State.empty.window "searchState" = some o ∧
        State.empty.prop o "loadedDescShard" = some (.fn id)) ∧
      runBoth (pointerScript.run Host.idle) (velocityScript.run Host.idle) State.empty =
        runBoth (velocityScript.run Host.idle) (pointerScript.run Host.idle) State.empty ∧
      runBoth (descShardScript.run Host.idle) (pointerScript.run Host.idle) State.empty =
        runBoth (pointerScript.run Host.idle) (descShardScript.run Host.idle) State.empty :=
  have hm : ¬ ∃ o id, State.empty.window "searchState" = some o ∧
      State.empty.prop o "loadedDescShard" = some (.fn id) :=
    fun ⟨_, _, hw, _⟩ => Option.noConfusion hw
  ⟨rfl, rfl, hm, (C3_trait_and_type_tables_commute Host.idle State.empty rfl rfl).1,
    ((C3_trait_and_type_tables_commute Host.idle State.empty rfl rfl).2.2.2.2 hm).1⟩

/-- C4, as stated, fails: on the empty page `trait.Pointer.js` leaves a state
that is not the state it started in, since it assigns
`window.pending_implementors`. -/
theorem C4_running_changes_the_state :
    (pointerScript.run Host.idle State.empty).state ≠ State.empty := by
  rw [ImplScript.run_falsy pointerScript Host.idle State.empty rfl]
  intro h
  have hw := congrArg (fun s : State => s.window pointerScript.pending) h
  simp [State.set, State.empty] at hw

/-- C4, amended: run with no registrar installed, an implementation-table
script changes `window` in one place: it sets its pending property
(`pending_implementors`, `pending_type_impls`) to the table and leaves every
other property of `window` and of the other objects as it was; run with a
registrar installed, it assigns nothing itself and leaves the state the call
of the registrar leaves. -/
theorem C4_only_the_pending_property_changes (sc : ImplScript) (hsc : sc ∈ implScripts)
    (h : Host) (s : State) :
    ((sc.registrar = "register_implementors" ∧ sc.pending = "pending_implementors") ∨
      (sc.registrar = "register_type_impls" ∧ sc.pending = "pending_type_impls")) ∧
    ((s.get sc.registrar).truthy = false →
      (sc.run h s).state.window sc.pending = some (.table (fromEntries sc.pairs)) ∧
      (∀ k, k ≠ sc.pending → (sc.run h s).state.window k = s.window k) ∧
      (sc.run h s).state.props = s.props) ∧
    ((s.get sc.registrar).truthy = true →
      (sc.run h s).writes = [] ∧
      (sc.run h s).state =
        (callVal h sc.registrar (s.get sc.registrar) windowObj
          [.table (fromEntries sc.pairs)] s).state) := by
  refine ⟨implScripts_names sc hsc, ?_, ?_⟩
  · intro hf
    rw [ImplScript.run_falsy sc h s hf]
    refine ⟨by simp [State.set], ?_, rfl⟩
    intro k hk
    simp [State.set, hk]
  · intro ht
    rw [ImplScript.run_truthy sc h s ht]
    exact ⟨callVal_writes _ _ _ _ _ _, rfl⟩

/-- C4, amended, for `trait.Pointer.js` on the empty page: no registrar is
installed there, and only `pending_implementors` changes. -/
theorem C4_only_the_pending_property_changes_witness :
    pointerScript ∈ implScripts ∧
      (State.empty.get pointerScript.registrar).truthy = false ∧
      (pointerScript.run Host.idle State.empty).state.window pointerScript.pending =
        some (.table (fromEntries pointerScript.pairs)) ∧
      (pointerScript.run Host.idle State.empty).state.props = State.empty.props :=
  have hm : pointerScript ∈ implScripts := List.mem_cons_self _ _
  have hw := (C4_only_the_pending_property_changes pointerScript hm Host.idle State.empty).2.1 rfl
  ⟨hm, rfl, hw.1, hw.2.2⟩

/-- C5, as stated, fails: on a page whose `register_implementors` is the
number 1, a value that passes the test `if (window.R)` and is not a function,
`trait.Pointer.js` neither calls anything nor stores the table in
`pending_implementors`: it ends with a `TypeError`. -/
theorem C5_truthy_registrar_that_is_no_function :
    (State.withNumber "register_implementors").get "register_implementors" = .num 1 ∧
    (pointerScript.run Host.idle (State.withNumber "register_implementors")).calls = [] ∧
    (pointerScript.run Host.idle (State.withNumber "register_implementors")).writes = [] ∧
    (pointerScript.run Host.idle (State.withNumber "register_implementors")).state.get
      "pending_implementors" = .undefined ∧
    (pointerScript.run Host.idle (State.withNumber "register_implementors")).error =
      some (.typeError "register_implementors") := by
  obtain ⟨-, hpr, -⟩ := pointerScript_names
  have hg : (State.withNumber "register_implementors").get pointerScript.registrar = .num 1 := by
    rw [hpr]; decide
  rw [ImplScript.run_truthy pointerScript Host.idle _ (by rw [hg]; rfl), hg, hpr]
  exact ⟨by decide, rfl, rfl, by decide, rfl⟩

/-- C5, amended: an implementation-table script builds its table once, as
`Object.fromEntries` of the literal entry list, and hands it over unchanged.
When the registrar property (`register_implementors`, `register_type_impls`)
holds a function, the script calls that function exactly once, with the table
as only argument, and assigns nothing.  When the property is absent or fails
the test `if (window.R)`, the script calls nothing and assigns the table to
the pending property (`pending_implementors`, `pending_type_impls`).  When the
property passes the test and is not a function, the script calls nothing and
assigns nothing: it ends with a `TypeError` and leaves the state as it was. -/
theorem C5_table_goes_to_registrar_or_pending (sc : ImplScript) (hsc : sc ∈ implScripts)
    (h : Host) (s : State) :
    ((sc.registrar = "register_implementors" ∧ sc.pending = "pending_implementors") ∨
      (sc.registrar = "register_type_impls" ∧ sc.pending = "pending_type_impls")) ∧
    (∀ id, s.get sc.registrar = .fn id →
      (sc.run h s).calls = [⟨id, [.table (fromEntries sc.pairs)]⟩] ∧
      (sc.run h s).writes = [] ∧
      (sc.run h s).state = (h.call id windowObj [.table (fromEntries sc.pairs)] s).1) ∧
    ((s.get sc.registrar).truthy = true →
      (sc.run h s).writes = [] ∧
      (sc.run h s).calls.length ≤ 1 ∧
      ∀ c ∈ (sc.run h s).calls, c.args = [.table (fromEntries sc.pairs)]) ∧
    ((s.get sc.registrar).truthy = false →
      (sc.run h s).calls = [] ∧
      (sc.run h s).writes = [(sc.pending, .table (fromEntries sc.pairs))] ∧
      (sc.run h s).state = s.set sc.pending (.table (fromEntries sc.pairs)) ∧
      (sc.run h s).state.get sc.pending = .table (fromEntries sc.pairs) ∧
      (sc.run h s).error = none) ∧
    ((s.get sc.registrar).truthy = true → (∀ id, s.get sc.registrar ≠ .fn id) →
      (sc.run h s).calls = [] ∧
      (sc.run h s).writes = [] ∧
      (sc.run h s).state = s ∧
      (sc.run h s).error = some (.typeError sc.registrar)) := by
  refine ⟨implScripts_names sc hsc, ?_, ?_, ?_, ?_⟩
  · intro id hid
    have ht : (s.get sc.registrar).truthy = true := by rw [hid]; rfl
    rw [ImplScript.run_truthy sc h s ht, hid]
    exact ⟨rfl, rfl, rfl⟩
  · intro ht
    rw [ImplScript.run_truthy sc h s ht]
    exact ⟨callVal_writes _ _ _ _ _ _, callVal_calls _ _ _ _ _ _⟩
  · intro hf
    rw [ImplScript.run_falsy sc h s hf]
    refine ⟨rfl, rfl, rfl, ?_, rfl⟩
    simp only [State.get_set, if_true]
  · intro ht hn
    rcases ImplScript.run_branches sc h s with ⟨hf, -⟩ | ⟨id, hid, -⟩ | ⟨-, -, hr⟩
    · rw [ht] at hf
      cases hf
    · exact absurd hid (hn id)
    · rw [hr]
      exact ⟨rfl, rfl, rfl, rfl⟩

/-- C5, amended, for `trait.Pointer.js`, on a page that has the registrar and
on the empty page: one call with the table there, the table in
`pending_implementors` here. -/
theorem C5_table_goes_to_registrar_or_pending_witness :
    pointerScript ∈ implScripts ∧
      (State.withFunction pointerScript.registrar).get pointerScript.registrar = .fn 1 ∧
      (pointerScript.run Host.idle (State.withFunction pointerScript.registrar)).calls =
        [⟨1, [.table (fromEntries pointerScript.pairs)]⟩] ∧
      (State.empty.get pointerScript.registrar).truthy = false ∧
      (pointerScript.run Host.idle State.empty).state.get pointerScript.pending =
        .table (fromEntries pointerScript.pairs) :=
  have hm : pointerScript ∈ implScripts := List.mem_cons_self _ _
  have hg : (State.withFunction pointerScript.registrar).get pointerScript.registrar = .fn 1 := by
    simp [State.withFunction, State.get_set]
  ⟨hm, hg,
    ((C5_table_goes_to_registrar_or_pending pointerScript hm Host.idle
      (State.withFunction pointerScript.registrar)).2.1 1 hg).1,
    rfl,
    ((C5_table_goes_to_registrar_or_pending pointerScript hm Host.idle
      State.empty).2.2.2.1 rfl).2.2.2.1⟩

/-! ## The contents of the tables -/

/-- C6, as stated, fails: the first entry of `trait.Pointer.js`, under crate
`bitvec`, has no link to source lines; its fragment does not even mention
`src` or `source`. -/
theorem C6_pointer_entry_has_no_source_link :
    (pointerScript.pairs.map Prod.fst).head? = some "bitvec" ∧
      (fragmentsOfTable pointerScript.pairs).head?.map mentionsSource = some false := by
  simp only [pointerScript, lex_pointerJs]
  decide!

/-- C6, amended: every entry of the two `type.impl` tables describes one
implementation and carries a source anchor,
`<a class="src rightside" href="src/CRATE/….rs.html#LINES">source</a>`,
to lines of a source file of its crate; every entry of `trait.Pointer.js`
describes one implementation and carries no source link. -/
theorem C6_type_impl_entries_have_source_anchor :
    ((fragmentsOfTable velocityScript.pairs).length = 2 ∧
      velocityScript.pairs.all (fun c => (fragmentsOfCrate c).all fun f =>
        implHeaders f == 1 && hasSourceAnchor c.1 f) = true) ∧
    ((fragmentsOfTable eitherWriterScript.pairs).length = 7 ∧
      eitherWriterScript.pairs.all (fun c => (fragmentsOfCrate c).all fun f =>
        implHeaders f == 1 && hasSourceAnchor c.1 f) = true) ∧
    ((fragmentsOfTable pointerScript.pairs).length = 15 ∧
      pointerScript.pairs.all (fun c => (fragmentsOfCrate c).all fun f =>
        implHeaders f == 1 && !mentionsSource f) = true) := by
  refine ⟨?_, ?_, ?_⟩
  · simp only [velocityScript, lex_velocityJs]
    decide!
  · simp only [eitherWriterScript, lex_eitherWriterJs]
    decide!
  · simp only [pointerScript, lex_pointerJs]
    decide!

/-- C7: every HTML fragment of the three tables and every summary line of the
search shard is tag-balanced: each `<` opens a tag named `details`, `summary`,
`section`, `div`, `span`, `a`, `h3`, `h4` or `code`, every opening tag has its
closing tag, and the tags nest. -/
theorem C7_fragments_and_summaries_are_tag_balanced :
    ((fragmentsOfTable pointerScript.pairs).length = 15 ∧
      (fragmentsOfTable pointerScript.pairs).all (fun f => balanced f.data) = true) ∧
    ((fragmentsOfTable velocityScript.pairs).length = 2 ∧
      (fragmentsOfTable velocityScript.pairs).all (fun f => balanced f.data) = true) ∧
    ((fragmentsOfTable eitherWriterScript.pairs).length = 7 ∧
      (fragmentsOfTable eitherWriterScript.pairs).all (fun f => balanced f.data) = true) ∧
    ((lines descShardScript.text).length = 198 ∧
      (lines descShardScript.text).all balanced = true) := by
  refine ⟨?_, ?_, ?_, ?_⟩
  · simp only [pointerScript, lex_pointerJs]
    decide!
  · simp only [velocityScript, lex_velocityJs]
    decide!
  · simp only [eitherWriterScript, lex_eitherWriterJs]
    decide!
  · simp only [descShardScript, lex_descShardJs]
    decide!

/-- C8, as stated, fails: on the empty page, where `searchState` does not
exist, `futures_concurrency-desc-0-.js` makes no call at all and ends with a
`ReferenceError`. -/
theorem C8_no_call_without_searchState :
    State.empty.window "searchState" = none ∧
    (descShardScript.run Host.idle State.empty).calls = [] ∧
    (descShardScript.run Host.idle State.empty).error =
      some (.referenceError "searchState") := by
  obtain ⟨hobj, -, -, -⟩ := descShardScript_fields
  have hm : ¬ ∃ o id, State.empty.window descShardScript.object = some o ∧
      State.empty.prop o descShardScript.method = some (.fn id) :=
    fun ⟨_, _, hw, _⟩ => Option.noConfusion hw
  have he := DescScript.run_undeclared descShardScript Host.idle State.empty rfl
  rw [hobj] at he
  exact ⟨rfl, (DescScript.run_missing descShardScript Host.idle State.empty hm).2.2, he⟩

/-- C8, amended: `futures_concurrency-desc-0-.js` is the single call
`searchState.loadedDescShard("futures_concurrency", 0, text)`, whose crate and
shard number are those of the file's own name.  When `searchState` has a
function `loadedDescShard`, the script makes exactly that one call and leaves
the state the function leaves.  Otherwise it makes no call, ends with an
error and leaves the state as it was.  In every state the script assigns
nothing and makes no call but that one. -/
theorem C8_one_call_to_loadedDescShard (h : Host) (s : State) :
    descShardScript.object = "searchState" ∧ descShardScript.method = "loadedDescShard" ∧
    descShardScript.crate = "futures_concurrency" ∧ descShardScript.shard = 0 ∧
    shardOfPath descShardJsPath = some (descShardScript.crate, descShardScript.shard) ∧
    (descShardScript.run h s).writes = [] ∧
    (descShardScript.run h s).calls.length ≤ 1 ∧
    (∀ c ∈ (descShardScript.run h s).calls,
      c.args = [.str "futures_concurrency", .num 0, .str descShardScript.text]) ∧
    ((descShardScript.run h s).calls = [] → (descShardScript.run h s).state = s) ∧
    (∀ o id, s.window "searchState" = some o → s.prop o "loadedDescShard" = some (.fn id) →
      (descShardScript.run h s).calls =
        [⟨id, [.str "futures_concurrency", .num 0, .str descShardScript.text]⟩] ∧
      (descShardScript.run h s).state =
        (h.call id o [.str "futures_concurrency", .num 0, .str descShardScript.text] s).1) ∧
    ((¬ ∃ o id, s.window "searchState" = some o ∧
        s.prop o "loadedDescShard" = some (.fn id)) →
      (descShardScript.run h s).calls = [] ∧ (descShardScript.run h s).state = s ∧
      (descShardScript.run h s).error ≠ none) := by
  obtain ⟨hobj, hmeth, hcrate, hshard⟩ := descShardScript_fields
  have hc := DescScript.run_calls descShardScript h s
  rw [hcrate, hshard] at hc
  have hmiss := DescScript.run_missing descShardScript h s
  rw [hobj, hmeth] at hmiss
  refine ⟨hobj, hmeth, hcrate, hshard, ?_, DescScript.run_writes _ h s, hc.1, hc.2,
    DescScript.run_no_call _ h s, ?_, ?_⟩
  · rw [hcrate, hshard]
    decide!
  · intro o id ho hf
    have hr := DescScript.run_fn descShardScript h s o id (by rw [hobj]; exact ho)
      (by rw [hmeth]; exact hf)
    rw [hcrate, hshard] at hr
    exact hr
  · intro hm
    exact ⟨(hmiss hm).2.2, (hmiss hm).2.1, (hmiss hm).1⟩

/-- C8, amended, on a page whose `searchState.loadedDescShard` is function 7:
the script calls it once, with the crate, the shard number and the text. -/
theorem C8_one_call_to_loadedDescShard_witness :
    State.withSearchState.window "searchState" = some (.obj 1) ∧
      State.withSearchState.prop (.obj 1) "loadedDescShard" = some (.fn 7) ∧
      (descShardScript.run Host.idle State.withSearchState).calls =
        [⟨7, [.str "futures_concurrency", .num 0, .str descShardScript.text]⟩] :=
  ⟨by decide, by decide,
    ((C8_one_call_to_loadedDescShard Host.idle State.withSearchState).2.2.2.2.2.2.2.2.2.1
      (.obj 1) 7 (by decide) (by decide)).1⟩

/-- C9: the description string of the shard is a list of one-line summaries
separated by line feeds, none of them empty: it neither starts nor ends with
a line feed and has no two line feeds in a row; split at the line feeds it
gives 198 lines, all non-empty, and joining these lines gives the string
back. -/
theorem C9_summaries_are_nonempty_lines :
    startsWith "\n".data descShardScript.text.data = false ∧
    startsWith "\n".data descShardScript.text.data.reverse = false ∧
    containsText "\n\n".data descShardScript.text.data = false ∧
    (lines descShardScript.text).length = 198 ∧
    (lines descShardScript.text).all (fun l => !l.isEmpty) = true ∧
    joinLines (lines descShardScript.text) = descShardScript.text.data := by
  simp only [descShardScript, lex_descShardJs]
  refine ⟨?_, ?_, ?_, ?_, ?_, ?_⟩
  · decide!
  · decide!
  · decide!
  · decide!
  · decide!
  · exact charsBEq_eq _ _ (by decide!)

/-- C10: the table of `trait.Pointer.js` has exactly the crate keys `bitvec`,
`nalgebra` and `wyz`, with 5, 1 and 9 entries; every entry is one fragment,
which starts with `impl` and has, once, the link to `core::fmt::Pointer`
followed by ` for ` and a link to a page under the directory of its crate. -/
theorem C10_pointer_table_lists_implementors :
    pointerScript.pairs.map (fun c => (c.1, c.2.length)) =
      [("bitvec", 5), ("nalgebra", 1), ("wyz", 9)] ∧
    (fromEntries pointerScript.pairs).map (fun c => (c.1, c.2.length)) =
      [("bitvec", 5), ("nalgebra", 1), ("wyz", 9)] ∧
    pointerScript.pairs.all (fun c => c.2.all fun e => e.length == 1) = true ∧
    pointerScript.pairs.all (fun c => (fragmentsOfCrate c).all (implementsPointer c.1)) = true := by
  simp only [pointerScript, lex_pointerJs]
  refine ⟨?_, ?_, ?_, ?_⟩
  · decide!
  · decide!
  · decide!
  · decide!

/-! ## The tables of the `type.impl` files -/

/-- C11: the table of `enum.EitherWriter.js` has the single crate key
`tracing_subscriber`, with seven entries whose trait names are, in order,
`Clone`, `Debug`, `PartialEq`, `Write`, `Copy`, `Eq`, `StructuralPartialEq`,
each followed by the one type path
`tracing_subscriber::fmt::writer::OptionalWriter`. -/
theorem C11_either_writer_table :
    namesOfTable eitherWriterScript.pairs =
      [("tracing_subscriber",
        [["Clone", "tracing_subscriber::fmt::writer::OptionalWriter"],
          ["Debug", "tracing_subscriber::fmt::writer::OptionalWriter"],
          ["PartialEq", "tracing_subscriber::fmt::writer::OptionalWriter"],
          ["Write", "tracing_subscriber::fmt::writer::OptionalWriter"],
          ["Copy", "tracing_subscriber::fmt::writer::OptionalWriter"],
          ["Eq", "tracing_subscriber::fmt::writer::OptionalWriter"],
          ["StructuralPartialEq", "tracing_subscriber::fmt::writer::OptionalWriter"]])] ∧
    eitherWriterScript.pairs.all (fun c => c.2.all fun e => e.length == 3) = true ∧
    (fromEntries eitherWriterScript.pairs).map Prod.fst = ["tracing_subscriber"] := by
  simp only [eitherWriterScript, lex_eitherWriterJs]
  refine ⟨?_, ?_, ?_⟩
  · decide!
  · decide!
  · decide!

/-- C12: the table of `struct.Velocity.js` has the single crate key `math`,
with two entries whose trait names are, in order, `Controller` and `Default`,
each followed by the same two type paths, `math::feedforward::Velocity` and
`math::feedforward::Acceleration`. -/
theorem C12_velocity_table :
    namesOfTable velocityScript.pairs =
      [("math",
        [["Controller", "math::feedforward::Velocity", "math::feedforward::Acceleration"],
          ["Default", "math::feedforward::Velocity", "math::feedforward::Acceleration"]])] ∧
    velocityScript.pairs.all (fun c => c.2.all fun e => e.length == 4) = true ∧
    (fromEntries velocityScript.pairs).map Prod.fst = ["math"] := by
  simp only [velocityScript, lex_velocityJs]
  refine ⟨?_, ?_, ?_⟩
  · decide!
  · decide!
  · decide!

/-- C13: in both `type.impl` files every entry has at least three items, a
fragment, a trait name and one or more type paths, and the `id` of the first
section of its fragment is `impl-T-for-…` where `T` is the entry's second
item. -/
theorem C13_trait_name_agrees_with_fragment :
    ((velocityScript.pairs.map fun c => c.2.length) = [2] ∧
      velocityScript.pairs.all (fun c => c.2.all fun e =>
        decide (3 ≤ e.length) && traitAgrees e) = true) ∧
    ((eitherWriterScript.pairs.map fun c => c.2.length) = [7] ∧
      eitherWriterScript.pairs.all (fun c => c.2.all fun e =>
        decide (3 ≤ e.length) && traitAgrees e) = true) := by
  refine ⟨?_, ?_⟩
  · simp only [velocityScript, lex_velocityJs]
    decide!
  · simp only [eitherWriterScript, lex_eitherWriterJs]
    decide!

/-- C14: in each of the three files the crate names of the literal entry list
are strictly ascending (`bitvec`, `nalgebra`, `wyz` in `trait.Pointer.js`),
hence pairwise distinct, so that `Object.fromEntries` drops no pair: the
table is the list itself, with as many keys as the list has pairs, each crate
name with its own entries. -/
theorem C14_crate_names_ascend_and_no_pair_is_dropped :
    (pointerScript.pairs.map Prod.fst = ["bitvec", "nalgebra", "wyz"] ∧
      ascending (pointerScript.pairs.map Prod.fst) = true ∧
      (pointerScript.pairs.map Prod.fst).Nodup ∧
      fromEntries pointerScript.pairs = pointerScript.pairs ∧
      (fromEntries pointerScript.pairs).length = pointerScript.pairs.length) ∧
    (velocityScript.pairs.map Prod.fst = ["math"] ∧
      ascending (velocityScript.pairs.map Prod.fst) = true ∧
      (velocityScript.pairs.map Prod.fst).Nodup ∧
      fromEntries velocityScript.pairs = velocityScript.pairs ∧
      (fromEntries velocityScript.pairs).length = velocityScript.pairs.length) ∧
    (eitherWriterScript.pairs.map Prod.fst = ["tracing_subscriber"] ∧
      ascending (eitherWriterScript.pairs.map Prod.fst) = true ∧
      (eitherWriterScript.pairs.map Prod.fst).Nodup ∧
      fromEntries eitherWriterScript.pairs = eitherWriterScript.pairs ∧
      (fromEntries eitherWriterScript.pairs).length = eitherWriterScript.pairs.length) := by
  have np : (pointerScript.pairs.map Prod.fst).Nodup := by
    rw [pointerScript_crates]; decide
  have nv : (velocityScript.pairs.map Prod.fst).Nodup := by
    rw [velocityScript_crates]; decide
  have ne : (eitherWriterScript.pairs.map Prod.fst).Nodup := by
    rw [eitherWriterScript_crates]; decide
  refine ⟨⟨pointerScript_crates, ?_, np, fromEntries_of_nodup _ np, ?_⟩,
    ⟨velocityScript_crates, ?_, nv, fromEntries_of_nodup _ nv, ?_⟩,
    ⟨eitherWriterScript_crates, ?_, ne, fromEntries_of_nodup _ ne, ?_⟩⟩
  · rw [pointerScript_crates]; decide!
  · rw [fromEntries_of_nodup _ np]
  · rw [velocityScript_crates]; decide!
  · rw [fromEntries_of_nodup _ nv]
  · rw [eitherWriterScript_crates]; decide!
  · rw [fromEntries_of_nodup _ ne]

/-- C15: in each of the three tables the fragments of every crate are in
strictly ascending lexicographic order, and no crate has the same fragment
twice. -/
theorem C15_entries_ascend_within_a_crate :
    ((pointerScript.pairs.map fun c => c.2.length) = [5, 1, 9] ∧
      pointerScript.pairs.all (fun c =>
        ascending (fragmentsOfCrate c) && distinct (fragmentsOfCrate c)) = true) ∧
    ((velocityScript.pairs.map fun c => c.2.length) = [2] ∧
      velocityScript.pairs.all (fun c =>
        ascending (fragmentsOfCrate c) && distinct (fragmentsOfCrate c)) = true) ∧
    ((eitherWriterScript.pairs.map fun c => c.2.length) = [7] ∧
      eitherWriterScript.pairs.all (fun c =>
        ascending (fragmentsOfCrate c) && distinct (fragmentsOfCrate c)) = true) := by
  refine ⟨?_, ?_, ?_⟩
  · simp only [pointerScript, lex_pointerJs]
    decide!
  · simp only [velocityScript, lex_velocityJs]
    decide!
  · simp only [eitherWriterScript, lex_eitherWriterJs]
    decide!

/-! ## Frame, safety and errors -/

/-- C16: the trait script and the type scripts use disjoint properties of
`window`: `trait.Pointer.js` tests `register_implementors` and assigns at most
`pending_implementors`, the two `type.impl` files test `register_type_impls`
and assign at most `pending_type_impls`, and the four names differ.  What a
script does itself depends on the state only through its registrar property;
it assigns nothing or only its pending property; when it makes no call every
other property of `window` and of the other objects is as before, and when it
makes its call it assigns nothing and leaves the state the callee leaves. -/
theorem C16_scripts_use_disjoint_window_fields (sc : ImplScript) (hsc : sc ∈ implScripts)
    (h : Host) (s s' : State) :
    (pointerScript.registrar = "register_implementors" ∧
      pointerScript.pending = "pending_implementors") ∧
    (velocityScript.registrar = "register_type_impls" ∧
      velocityScript.pending = "pending_type_impls") ∧
    (eitherWriterScript.registrar = "register_type_impls" ∧
      eitherWriterScript.pending = "pending_type_impls") ∧
    ["register_implementors", "pending_implementors", "register_type_impls",
      "pending_type_impls"].Nodup ∧
    ((sc.registrar = "register_implementors" ∧ sc.pending = "pending_implementors") ∨
      (sc.registrar = "register_type_impls" ∧ sc.pending = "pending_type_impls")) ∧
    (s'.get sc.registrar = s.get sc.registrar →
      (sc.run h s').writes = (sc.run h s).writes ∧ (sc.run h s').calls = (sc.run h s).calls) ∧
    ((sc.run h s).writes = [] ∨
      (sc.run h s).writes = [(sc.pending, .table (fromEntries sc.pairs))]) ∧
    ((sc.run h s).calls = [] →
      (∀ k, k ≠ sc.pending → (sc.run h s).state.window k = s.window k) ∧
      (sc.run h s).state.props = s.props) ∧
    (∀ c ∈ (sc.run h s).calls,
      (sc.run h s).writes = [] ∧
      (sc.run h s).state = (h.call c.callee windowObj c.args s).1) := by
  refine ⟨pointerScript_names.2, velocityScript_names.2, eitherWriterScript_names.2,
    by decide, implScripts_names sc hsc, ImplScript.run_reads_registrar sc h s s', ?_, ?_, ?_⟩
  · rcases ImplScript.run_branches sc h s with ⟨-, hr⟩ | ⟨id, -, hr⟩ | ⟨-, -, hr⟩ <;> rw [hr]
    · exact Or.inr rfl
    · exact Or.inl rfl
    · exact Or.inl rfl
  · intro hc
    rcases ImplScript.run_branches sc h s with ⟨-, hr⟩ | ⟨id, -, hr⟩ | ⟨-, -, hr⟩
    · rw [hr]
      refine ⟨?_, rfl⟩
      intro k hk
      simp [State.set, hk]
    · rw [hr] at hc
      simp at hc
    · rw [hr]
      exact ⟨fun _ _ => rfl, rfl⟩
  · intro c hc
    rcases ImplScript.run_branches sc h s with ⟨-, hr⟩ | ⟨id, -, hr⟩ | ⟨-, -, hr⟩ <;>
      rw [hr] at hc ⊢
    · simp at hc
    · simp only [List.mem_singleton] at hc
      subst hc
      exact ⟨rfl, rfl⟩
    · simp at hc

/-- C16 for `trait.Pointer.js` on the empty page: it assigns its pending
property and nothing else. -/
theorem C16_scripts_use_disjoint_window_fields_witness :
    pointerScript ∈ implScripts ∧
      (State.withFunction "other").get pointerScript.registrar =
        State.empty.get pointerScript.registrar ∧
      (pointerScript.run Host.idle (State.withFunction "other")).writes =
        (pointerScript.run Host.idle State.empty).writes ∧
      (pointerScript.run Host.idle State.empty).calls = [] ∧
      (pointerScript.run Host.idle State.empty).state.props = State.empty.props :=
  have hm : pointerScript ∈ implScripts := List.mem_cons_self _ _
  have hg : (State.withFunction "other").get pointerScript.registrar =
      State.empty.get pointerScript.registrar := by
    rw [pointerScript_names.2.1]
    decide
  have hc : (pointerScript.run Host.idle State.empty).calls = [] := by
    rw [ImplScript.run_falsy pointerScript Host.idle State.empty rfl]
  have ht := C16_scripts_use_disjoint_window_fields pointerScript hm Host.idle State.empty
    (State.withFunction "other")
  ⟨hm, hg, (ht.2.2.2.2.2.1 hg).1, hc, (ht.2.2.2.2.2.2.2.1 hc).2⟩

/-- C17: when the registrar property is absent or fails the test
`if (window.R)`, or holds a function that does not throw when called with the
table, an implementation-table script ends without an error.  The test is for
truthiness only: a value that passes it and is not a function makes the script
end with a `TypeError`. -/
theorem C17_no_error_with_a_sound_registrar (sc : ImplScript) (hsc : sc ∈ implScripts)
    (h : Host) (s : State) :
    ((sc.registrar = "register_implementors" ∧ sc.pending = "pending_implementors") ∨
      (sc.registrar = "register_type_impls" ∧ sc.pending = "pending_type_impls")) ∧
    (s.window sc.registrar = none → (sc.run h s).error = none) ∧
    ((s.get sc.registrar).truthy = false → (sc.run h s).error = none) ∧
    (∀ id, s.get sc.registrar = .fn id →
      (h.call id windowObj [.table (fromEntries sc.pairs)] s).2 = none →
      (sc.run h s).error = none) ∧
    ((s.get sc.registrar).truthy = true → (∀ id, s.get sc.registrar ≠ .fn id) →
      (sc.run h s).error = some (.typeError sc.registrar)) := by
  refine ⟨implScripts_names sc hsc, ?_, ?_, ?_, ?_⟩
  · intro hw
    have hf : (s.get sc.registrar).truthy = false := by
      simp [State.get, hw, Val.truthy]
    rw [ImplScript.run_falsy sc h s hf]
  · intro hf
    rw [ImplScript.run_falsy sc h s hf]
  · intro id hid hn
    have ht : (s.get sc.registrar).truthy = true := by rw [hid]; rfl
    rw [ImplScript.run_truthy sc h s ht, hid]
    simp [callVal, hn]
  · intro ht hn
    rcases ImplScript.run_branches sc h s with ⟨hf, -⟩ | ⟨id, hid, -⟩ | ⟨-, -, hr⟩
    · rw [ht] at hf
      cases hf
    · exact absurd hid (hn id)
    · rw [hr]

/-- C17 for `trait.Pointer.js`: no error on the empty page, and none on a page
whose registrar is a function that does not throw. -/
theorem C17_no_error_with_a_sound_registrar_witness :
    pointerScript ∈ implScripts ∧
      State.empty.window pointerScript.registrar = none ∧
      (pointerScript.run Host.idle State.empty).error = none ∧
      (State.withFunction pointerScript.registrar).get pointerScript.registrar = .fn 1 ∧
      (pointerScript.run Host.idle (State.withFunction pointerScript.registrar)).error = none :=
  have hm : pointerScript ∈ implScripts := List.mem_cons_self _ _
  have hg : (State.withFunction pointerScript.registrar).get pointerScript.registrar = .fn 1 := by
    simp [State.withFunction, State.get_set]
  ⟨hm, rfl, (C17_no_error_with_a_sound_registrar pointerScript hm Host.idle State.empty).2.1 rfl,
    hg,
    (C17_no_error_with_a_sound_registrar pointerScript hm Host.idle
      (State.withFunction pointerScript.registrar)).2.2.2.1 1 hg rfl⟩

/-- C18, as stated, fails in one direction: on a page whose `searchState` has
a function `loadedDescShard`, the script still ends with an error when that
function throws. -/
theorem C18_callable_loadedDescShard_may_throw :
    State.withSearchState.window "searchState" = some (.obj 1) ∧
      State.withSearchState.prop (.obj 1) "loadedDescShard" = some (.fn 7) ∧
      (descShardScript.run Host.throwing State.withSearchState).error =
        some (.thrown .undefined) := by
  obtain ⟨hobj, hmeth, -, -⟩ := descShardScript_fields
  refine ⟨by decide, by decide, ?_⟩
  have hw : State.withSearchState.window descShardScript.object = some (.obj 1) := by
    rw [hobj]; decide
  have hp : State.withSearchState.prop (.obj 1) descShardScript.method = some (.fn 7) := by
    rw [hmeth]; decide
  unfold DescScript.run
  simp only [hw, hp]
  rfl

/-- C18, amended: the search shard script has no fallback.  It ends without
an error if and only if `searchState` exists and has a function
`loadedDescShard` that does not throw when called with the crate, the shard
number and the text.  When `searchState` or a function `loadedDescShard` is
missing, the script ends with an error (a `ReferenceError` when `searchState`
does not exist), makes no call and leaves the state as it was.  It never
assigns anything. -/
theorem C18_shard_script_has_no_fallback (h : Host) (s : State) :
    ((descShardScript.run h s).error = none ↔
      ∃ o id, s.window "searchState" = some o ∧
        s.prop o "loadedDescShard" = some (.fn id) ∧
        (h.call id o [.str "futures_concurrency", .num 0, .str descShardScript.text] s).2
          = none) ∧
    ((¬ ∃ o id, s.window "searchState" = some o ∧
        s.prop o "loadedDescShard" = some (.fn id)) →
      (descShardScript.run h s).error ≠ none ∧ (descShardScript.run h s).state = s ∧
      (descShardScript.run h s).calls = []) ∧
    (s.window "searchState" = none →
      (descShardScript.run h s).error = some (.referenceError "searchState")) ∧
    (descShardScript.run h s).writes = [] := by
  obtain ⟨hobj, hmeth, hcrate, hshard⟩ := descShardScript_fields
  have h1 := DescScript.run_error_iff descShardScript h s
  have h2 := DescScript.run_missing descShardScript h s
  have h3 := DescScript.run_undeclared descShardScript h s
  rw [hobj, hmeth, hcrate, hshard] at h1
  rw [hobj, hmeth] at h2
  rw [hobj] at h3
  exact ⟨h1, h2, h3, DescScript.run_writes descShardScript h s⟩

/-- C18, amended, on the empty page: `searchState` does not exist there, and
the script ends with an error and leaves the page empty. -/
theorem C18_shard_script_has_no_fallback_witness :
    (¬ ∃ o id, State.empty.window "searchState" = some o ∧
        State.empty.prop o "loadedDescShard" = some (.fn id)) ∧
      (descShardScript.run Host.idle State.empty).error ≠ none ∧
      (descShardScript.run Host.idle State.empty).state = State.empty :=
  have hm : ¬ ∃ o id, State.empty.window "searchState" = some o ∧
      State.empty.prop o "loadedDescShard" = some (.fn id) :=
    fun ⟨_, _, hw, _⟩ => Option.noConfusion hw
  have hr := (C18_shard_script_has_no_fallback Host.idle State.empty).2.1 hm
  ⟨hm, hr.1, hr.2.1⟩


end Robotrs
